import Mathlib

/-!
# APEX seven-stage pipeline simulator (`cpu.c`)

A shallow embedding of the stage functions `fetch`, `decode`, `execute1`,
`execute2`, `memory1`, `memory2`, `writeback` and of the driver
`APEX_cpu_run`, followed by theorems about them.

Conventions of the embedding.

* `stage->opcode` is a C string that the code only ever compares with fixed
  mnemonics through `strcmp`; it is embedded as the enumeration `Opcode`,
  with `EMPTY` for the empty string and `OTHER` for a string that equals no
  mnemonic.
* Every `int` field is an `Int`.  Flags keep the tests of the source
  (`!x` is `x = 0`, `x == 1` is `x = 1`).  Results of data arithmetic (sums,
  differences, products, effective addresses, branch and jump targets) are
  reduced to 32 bits by `wrap32`; the counters `pc += 4`, `clock++`,
  `ins_completed` and the scoreboard `regs_valid` are left unreduced, since
  they move by small steps from small values.
* `regs`, `regs_valid` and `data_memory` are C arrays; they are embedded as
  total maps on `Int`.  An index outside the array is undefined behaviour in
  C; the embedding gives such an index a cell of its own.
* `code_memory` is the list of instructions; a read at an index outside the
  list (also undefined behaviour in C, and `fetch` does not guard against
  it) returns `beyond i`, an arbitrary instruction carried by the state.
-/

namespace APEX

/-- Mnemonics compared against `stage->opcode`. -/
inductive Opcode
  | STORE | STR | LOAD | LDR | ADD | ADDL | SUB | SUBL | MUL | MOVC
  | AND | OR | EXOR | BZ | BNZ | JUMP | HALT | EMPTY | OTHER
  deriving DecidableEq

/-- One entry of code memory (`APEX_Instruction`). -/
structure APEX_Instruction where
  opcode : Opcode
  rd : Int
  rs1 : Int
  rs2 : Int
  rs3 : Int
  imm : Int

/-- Stage latch (`CPU_Stage`), with every field that `cpu.c` reads or writes. -/
structure CPU_Stage where
  pc : Int
  opcode : Opcode
  rs1 : Int
  rs2 : Int
  rs3 : Int
  rd : Int
  imm : Int
  rs1_value : Int
  rs2_value : Int
  rs3_value : Int
  buffer : Int
  mem_address : Int
  busy : Int
  stalled : Int
  nop : Int
  insflush : Int
  arithminstr : Int
  mulFlag : Int

/-- The simulator state (`APEX_CPU`).  The seven fields `F` .. `WB` are
`cpu->stage[F]` .. `cpu->stage[WB]`. -/
structure APEX_CPU where
  clock : Int
  pc : Int
  regs : Int → Int
  regs_valid : Int → Int
  F : CPU_Stage
  DRF : CPU_Stage
  EX1 : CPU_Stage
  EX2 : CPU_Stage
  MEM1 : CPU_Stage
  MEM2 : CPU_Stage
  WB : CPU_Stage
  code_memory : List APEX_Instruction
  beyond : Int → APEX_Instruction
  data_memory : Int → Int
  ins_completed : Int
  zeroFlag : Int
  ex_halt : Int

/-- Two's-complement reduction of an integer to the range of a 32-bit `int`. -/
def wrap32 (x : Int) : Int := (x + 2147483648) % 4294967296 - 2147483648

/-- Array assignment `m[i] = v`. -/
def store (m : Int → Int) (i v : Int) : Int → Int :=
  fun j => if j = i then v else m j

/-- Number of instructions in code memory (`cpu->code_memory_size`). -/
def code_memory_size (cpu : APEX_CPU) : Int := (cpu.code_memory.length : Int)

/-- Read of `cpu->code_memory[i]`. -/
def code_at (cpu : APEX_CPU) (i : Int) : APEX_Instruction :=
  match i with
  | Int.ofNat n => (cpu.code_memory.get? n).getD (cpu.beyond i)
  | Int.negSucc _ => cpu.beyond i

/-- Index of a program counter in code memory: `(pc - 4000) / 4`, C division. -/
def get_code_index (pc : Int) : Int := Int.tdiv (pc - 4000) 4

/-- A latch zeroed by `memset`. -/
def zero_stage : CPU_Stage :=
  { pc := 0, opcode := Opcode.EMPTY, rs1 := 0, rs2 := 0, rs3 := 0, rd := 0, imm := 0,
    rs1_value := 0, rs2_value := 0, rs3_value := 0, buffer := 0, mem_address := 0,
    busy := 0, stalled := 0, nop := 0, insflush := 0, arithminstr := 0, mulFlag := 0 }

/-- State built by `APEX_cpu_init` for a program `code`: `pc = 4000`, registers
and data memory zero, every `regs_valid[i] = 1`, all latches zeroed, and every
stage but Fetch busy.  The fields that the source leaves as `malloc` returned
them (`clock`, `ins_completed`, `zeroFlag`, `ex_halt`) are 0 here. -/
def APEX_cpu_init (code : List APEX_Instruction) (beyond : Int → APEX_Instruction) : APEX_CPU :=
  { clock := 0, pc := 4000,
    regs := fun _ => 0, regs_valid := fun _ => 1,
    F := zero_stage,
    DRF := { zero_stage with busy := 1 },
    EX1 := { zero_stage with busy := 1 },
    EX2 := { zero_stage with busy := 1 },
    MEM1 := { zero_stage with busy := 1 },
    MEM2 := { zero_stage with busy := 1 },
    WB := { zero_stage with busy := 1 },
    code_memory := code, beyond := beyond,
    data_memory := fun _ => 0,
    ins_completed := 0, zeroFlag := 0, ex_halt := 0 }

/-! ### Fetch -/

/-- The block of `fetch` that stores `pc` and the fields of the instruction
`ins` in a latch. -/
@[simps]
def load_ins (stage : CPU_Stage) (pc : Int) (ins : APEX_Instruction) : CPU_Stage :=
  { stage with pc := pc, opcode := ins.opcode, rd := ins.rd, rs1 := ins.rs1,
               rs2 := ins.rs2, rs3 := ins.rs3, imm := ins.imm }

/-- `stage->pc = cpu->pc` and the copy of `code_memory[get_code_index(cpu->pc)]`
into the Fetch latch. -/
@[simps]
def fetch_load (cpu : APEX_CPU) : APEX_CPU :=
  { cpu with F := load_ins cpu.F cpu.pc (code_at cpu (get_code_index cpu.pc)) }

/-- `cpu->pc += 4; cpu->stage[DRF] = cpu->stage[F]`. -/
@[simps]
def fetch_advance (cpu : APEX_CPU) : APEX_CPU :=
  { cpu with pc := cpu.pc + 4, DRF := cpu.F }

/-- `strcpy(cpu->stage[F].opcode, "")`. -/
@[simps]
def clear_F_opcode (cpu : APEX_CPU) : APEX_CPU :=
  { cpu with F := { cpu.F with opcode := Opcode.EMPTY } }

/-- Fetch stage. -/
def fetch (cpu : APEX_CPU) : APEX_CPU :=
  if cpu.F.busy = 0 ∧ cpu.F.stalled = 0 then
    if cpu.DRF.stalled = 0 then fetch_advance (fetch_load cpu) else fetch_load cpu
  else if cpu.EX1.insflush = 1 then clear_F_opcode cpu
  else if cpu.F.stalled = 1 ∨ cpu.F.busy = 1 then fetch_load cpu
  else cpu

/-! ### Decode -/

/-- `stage->stalled = v` for the Decode latch. -/
@[simps]
def set_DRF_stalled (cpu : APEX_CPU) (v : Int) : APEX_CPU :=
  { cpu with DRF := { cpu.DRF with stalled := v } }

/-- `cpu->stage[F].stalled = v; cpu->stage[DRF].stalled = v`. -/
@[simps]
def set_stalled_F_DRF (cpu : APEX_CPU) (v : Int) : APEX_CPU :=
  { cpu with F := { cpu.F with stalled := v }, DRF := { cpu.DRF with stalled := v } }

/-- `stage->arithminstr = v` in `decode`. -/
@[simps]
def set_arithminstr (cpu : APEX_CPU) (v : Int) : APEX_CPU :=
  { cpu with DRF := { cpu.DRF with arithminstr := v } }

/-- `cpu->regs_valid[stage->rd]--` in `decode`. -/
@[simps]
def claim_rd (cpu : APEX_CPU) : APEX_CPU :=
  { cpu with regs_valid := store cpu.regs_valid cpu.DRF.rd (cpu.regs_valid cpu.DRF.rd - 1) }

/-- `stage->rs1_value = cpu->regs[stage->rs1]` in `decode`. -/
@[simps]
def read_rs1 (cpu : APEX_CPU) : APEX_CPU :=
  { cpu with DRF := { cpu.DRF with rs1_value := cpu.regs cpu.DRF.rs1 } }

/-- `stage->rs2_value = cpu->regs[stage->rs2]` in `decode`. -/
@[simps]
def read_rs2 (cpu : APEX_CPU) : APEX_CPU :=
  { cpu with DRF := { cpu.DRF with rs2_value := cpu.regs cpu.DRF.rs2 } }

/-- `stage->rs3_value = cpu->regs[stage->rs3]` in `decode`. -/
@[simps]
def read_rs3 (cpu : APEX_CPU) : APEX_CPU :=
  { cpu with DRF := { cpu.DRF with rs3_value := cpu.regs cpu.DRF.rs3 } }

/-- The HALT block of `decode` after `stage->arithminstr = 0`:
`cpu->stage[F].stalled = 1; cpu->stage[F].pc = 0;
strcpy(cpu->stage[F].opcode, ""); cpu->ex_halt = 1`. -/
@[simps]
def decode_halt (cpu : APEX_CPU) : APEX_CPU :=
  { cpu with F := { cpu.F with stalled := 1, pc := 0, opcode := Opcode.EMPTY }, ex_halt := 1 }

/-- `cpu->stage[EX1] = cpu->stage[DRF]`. -/
@[simps]
def copy_DRF_EX1 (cpu : APEX_CPU) : APEX_CPU :=
  { cpu with EX1 := cpu.DRF }

/-- The opcode blocks of `decode`, run when the stage is not busy and not
stalled.  The blocks of the source are separate `if`s on `stage->opcode`,
which no block changes, so at most one of them runs. -/
def decode_opcode (cpu : APEX_CPU) : APEX_CPU :=
  match cpu.DRF.opcode with
  | Opcode.STORE =>
    if cpu.regs_valid cpu.DRF.rs1 ≠ 0 ∧ cpu.regs_valid cpu.DRF.rs2 ≠ 0 then
      read_rs2 (read_rs1 (set_stalled_F_DRF (set_arithminstr cpu 0) 0))
    else set_stalled_F_DRF (set_arithminstr cpu 0) 1
  | Opcode.STR =>
    if cpu.regs_valid cpu.DRF.rs1 ≠ 0 ∧ cpu.regs_valid cpu.DRF.rs2 ≠ 0
        ∧ cpu.regs_valid cpu.DRF.rs3 ≠ 0 then
      read_rs3 (read_rs2 (read_rs1 (set_stalled_F_DRF (set_arithminstr cpu 0) 0)))
    else set_stalled_F_DRF (set_arithminstr cpu 0) 1
  | Opcode.LOAD =>
    if cpu.regs_valid cpu.DRF.rs1 ≠ 0 then
      claim_rd (read_rs1 (set_stalled_F_DRF (set_arithminstr cpu 0) 0))
    else set_stalled_F_DRF (set_arithminstr cpu 0) 1
  | Opcode.LDR =>
    if cpu.regs_valid cpu.DRF.rs1 ≠ 0 ∧ cpu.regs_valid cpu.DRF.rs2 ≠ 0 then
      claim_rd (read_rs2 (read_rs1 (set_stalled_F_DRF (set_arithminstr cpu 0) 0)))
    else set_stalled_F_DRF (set_arithminstr cpu 0) 1
  | Opcode.ADD | Opcode.SUB | Opcode.MUL =>
    if cpu.regs_valid cpu.DRF.rs1 ≠ 0 ∧ cpu.regs_valid cpu.DRF.rs2 ≠ 0 then
      claim_rd (read_rs2 (read_rs1 (set_stalled_F_DRF (set_arithminstr cpu 1) 0)))
    else set_stalled_F_DRF (set_arithminstr cpu 1) 1
  | Opcode.ADDL | Opcode.SUBL =>
    if cpu.regs_valid cpu.DRF.rs1 ≠ 0 then
      claim_rd (read_rs1 (set_stalled_F_DRF (set_arithminstr cpu 1) 0))
    else set_stalled_F_DRF (set_arithminstr cpu 1) 1
  | Opcode.MOVC =>
    claim_rd (set_arithminstr cpu 0)
  | Opcode.AND | Opcode.OR | Opcode.EXOR =>
    if cpu.regs_valid cpu.DRF.rs1 ≠ 0 ∧ cpu.regs_valid cpu.DRF.rs2 ≠ 0 then
      claim_rd (read_rs2 (read_rs1 (set_stalled_F_DRF (set_arithminstr cpu 0) 0)))
    else set_stalled_F_DRF (set_arithminstr cpu 0) 1
  | Opcode.BZ | Opcode.BNZ =>
    if cpu.WB.arithminstr = 1 ∨ cpu.MEM2.arithminstr = 1 then
      set_DRF_stalled (set_arithminstr cpu 0) 1
    else
      set_DRF_stalled (set_arithminstr cpu 0) 0
  | Opcode.JUMP =>
    read_rs1 (set_arithminstr cpu 0)
  | Opcode.HALT =>
    decode_halt (set_arithminstr cpu 0)
  | Opcode.EMPTY => cpu
  | Opcode.OTHER => cpu

/-- The opening statement of `decode`: `if (stage->stalled) stage->stalled = 0`. -/
def decode_unstall (cpu : APEX_CPU) : APEX_CPU :=
  if cpu.DRF.stalled ≠ 0 then set_DRF_stalled cpu 0 else cpu

/-- Decode / register-read stage. -/
def decode (cpu : APEX_CPU) : APEX_CPU :=
  if (decode_unstall cpu).DRF.busy = 0 ∧ (decode_unstall cpu).DRF.stalled = 0 then
    copy_DRF_EX1 (decode_opcode (decode_unstall cpu))
  else if (decode_unstall cpu).EX1.insflush = 1 then
    clear_F_opcode (decode_unstall cpu)
  else decode_unstall cpu

/-! ### Execute-1 -/

/-- The tail of the arithmetic blocks of `execute1`:
`if (stage->buffer == 0) cpu->zeroFlag = 1; else cpu->zeroFlag = 0`. -/
@[simps]
def set_zeroFlag (cpu : APEX_CPU) : APEX_CPU :=
  { cpu with zeroFlag := if cpu.EX1.buffer = 0 then 1 else 0 }

/-- `stage->buffer = v` in `execute1`. -/
@[simps]
def set_buffer (cpu : APEX_CPU) (v : Int) : APEX_CPU :=
  { cpu with EX1 := { cpu.EX1 with buffer := v } }

/-- `stage->mem_address = v` in `execute1`. -/
@[simps]
def set_mem_address (cpu : APEX_CPU) (v : Int) : APEX_CPU :=
  { cpu with EX1 := { cpu.EX1 with mem_address := v } }

/-- The block of MUL for `stage->mulFlag == 0`: Fetch and Decode are marked
stalled and busy, and `stage->nop = 1`. -/
@[simps]
def mul_first (cpu : APEX_CPU) : APEX_CPU :=
  { cpu with F := { cpu.F with stalled := 1, busy := 1 },
             DRF := { cpu.DRF with stalled := 1, busy := 1 },
             EX1 := { cpu.EX1 with nop := 1 } }

/-- The block of MUL for `stage->mulFlag == 1`: the product is computed, Fetch
and Decode are released, and `stage->nop = 0`. -/
@[simps]
def mul_second (cpu : APEX_CPU) : APEX_CPU :=
  { cpu with EX1 := { cpu.EX1 with buffer := wrap32 (cpu.EX1.rs1_value * cpu.EX1.rs2_value),
                                    nop := 0 },
             F := { cpu.F with stalled := 0, busy := 0 },
             DRF := { cpu.DRF with stalled := 0, busy := 0 } }

/-- `stage->mulFlag = 1` in `execute1`. -/
@[simps]
def set_mulFlag (cpu : APEX_CPU) : APEX_CPU :=
  { cpu with EX1 := { cpu.EX1 with mulFlag := 1 } }

/-- The MUL block of `execute1`: two `if`s on `stage->mulFlag` (which neither
of them changes), then `stage->mulFlag = 1` and the zero flag. -/
def execute1_mul (cpu : APEX_CPU) : APEX_CPU :=
  if cpu.EX1.mulFlag = 0 then set_zeroFlag (set_mulFlag (mul_first cpu))
  else if cpu.EX1.mulFlag = 1 then set_zeroFlag (set_mulFlag (mul_second cpu))
  else set_zeroFlag (set_mulFlag cpu)

/-- The else branch of the BZ and BNZ blocks of `execute1`:
`stage->insflush = 1; stage->mem_address = 0`. -/
@[simps]
def branch_not_taken (cpu : APEX_CPU) : APEX_CPU :=
  { cpu with EX1 := { cpu.EX1 with insflush := 1, mem_address := 0 } }

/-- `cpu->zeroFlag = 0` in the BZ block of `execute1`. -/
@[simps]
def clear_zeroFlag (cpu : APEX_CPU) : APEX_CPU :=
  { cpu with zeroFlag := 0 }

/-- The JUMP block of `execute1`: `cpu->pc = stage->rs1_value + stage->imm`. -/
@[simps]
def execute1_jump (cpu : APEX_CPU) : APEX_CPU :=
  { cpu with pc := wrap32 (cpu.EX1.rs1_value + cpu.EX1.imm) }

/-- The HALT block of `execute1`: `stage->insflush = 1`, the Decode latch is
emptied and stalled, the Fetch latch is emptied and stalled, `cpu->ex_halt = 1`. -/
@[simps]
def execute1_halt (cpu : APEX_CPU) : APEX_CPU :=
  { cpu with EX1 := { cpu.EX1 with insflush := 1 },
             DRF := { cpu.DRF with pc := 0, opcode := Opcode.EMPTY, stalled := 1 },
             F := { cpu.F with stalled := 1, opcode := Opcode.EMPTY, pc := 0 },
             ex_halt := 1 }

/-- `cpu->stage[EX2] = cpu->stage[EX1]`. -/
@[simps]
def copy_EX1_EX2 (cpu : APEX_CPU) : APEX_CPU :=
  { cpu with EX2 := cpu.EX1 }

/-- The opcode blocks of `execute1`, run when the stage is not busy and not
stalled. -/
def execute1_opcode (cpu : APEX_CPU) : APEX_CPU :=
  match cpu.EX1.opcode with
  | Opcode.STORE => set_mem_address cpu (wrap32 (cpu.EX1.rs2_value + cpu.EX1.imm))
  | Opcode.STR => set_mem_address cpu (wrap32 (cpu.EX1.rs2_value + cpu.EX1.rs3_value))
  | Opcode.LOAD => set_mem_address cpu (wrap32 (cpu.EX1.rs1_value + cpu.EX1.imm))
  | Opcode.LDR => set_mem_address cpu (wrap32 (cpu.EX1.rs1_value + cpu.EX1.rs2_value))
  | Opcode.ADD => set_zeroFlag (set_buffer cpu (wrap32 (cpu.EX1.rs1_value + cpu.EX1.rs2_value)))
  | Opcode.ADDL => set_zeroFlag (set_buffer cpu (wrap32 (cpu.EX1.rs1_value + cpu.EX1.imm)))
  | Opcode.SUB => set_zeroFlag (set_buffer cpu (wrap32 (cpu.EX1.rs1_value - cpu.EX1.rs2_value)))
  | Opcode.SUBL => set_zeroFlag (set_buffer cpu (wrap32 (cpu.EX1.rs1_value - cpu.EX1.imm)))
  | Opcode.MUL => execute1_mul cpu
  | Opcode.MOVC => set_buffer cpu cpu.EX1.imm
  | Opcode.AND => set_buffer cpu (Int.land cpu.EX1.rs1_value cpu.EX1.rs2_value)
  | Opcode.OR => set_buffer cpu (Int.lor cpu.EX1.rs1_value cpu.EX1.rs2_value)
  | Opcode.EXOR => set_buffer cpu (Int.xor cpu.EX1.rs1_value cpu.EX1.rs2_value)
  | Opcode.BNZ =>
    if cpu.zeroFlag = 0 then set_mem_address cpu (wrap32 (cpu.EX1.pc + cpu.EX1.imm))
    else branch_not_taken cpu
  | Opcode.BZ =>
    if cpu.zeroFlag = 1 then
      clear_zeroFlag (set_mem_address cpu (wrap32 (cpu.EX1.pc + cpu.EX1.imm)))
    else branch_not_taken cpu
  | Opcode.JUMP => execute1_jump cpu
  | Opcode.HALT => execute1_halt cpu
  | Opcode.EMPTY => cpu
  | Opcode.OTHER => cpu

/-- Execute-1 stage. -/
def execute1 (cpu : APEX_CPU) : APEX_CPU :=
  if cpu.EX1.busy = 0 ∧ cpu.EX1.stalled = 0 then copy_EX1_EX2 (execute1_opcode cpu)
  else copy_EX1_EX2 cpu

/-! ### Execute-2 and Memory-1 -/

/-- `cpu->stage[MEM1] = cpu->stage[EX2]`. -/
@[simps]
def copy_EX2_MEM1 (cpu : APEX_CPU) : APEX_CPU :=
  { cpu with MEM1 := cpu.EX2 }

/-- Execute-2 stage: every opcode block is empty, both branches copy the
latch to Memory-1. -/
def execute2 (cpu : APEX_CPU) : APEX_CPU :=
  if cpu.EX2.busy = 0 ∧ cpu.EX2.stalled = 0 then copy_EX2_MEM1 cpu
  else copy_EX2_MEM1 cpu

/-- `cpu->stage[MEM2] = cpu->stage[MEM1]`. -/
@[simps]
def copy_MEM1_MEM2 (cpu : APEX_CPU) : APEX_CPU :=
  { cpu with MEM2 := cpu.MEM1 }

/-- Memory-1 stage: every opcode block is empty, both branches copy the
latch to Memory-2. -/
def memory1 (cpu : APEX_CPU) : APEX_CPU :=
  if cpu.MEM1.busy = 0 ∧ cpu.MEM1.stalled = 0 then copy_MEM1_MEM2 cpu
  else copy_MEM1_MEM2 cpu

/-! ### Memory-2 -/

/-- The opcodes listed in the squash test of `memory2` (those that write a
destination register). -/
def writes_rd (op : Opcode) : Bool :=
  match op with
  | Opcode.ADD | Opcode.SUB | Opcode.MUL | Opcode.AND | Opcode.OR | Opcode.EXOR
  | Opcode.MOVC | Opcode.LOAD | Opcode.LDR | Opcode.ADDL | Opcode.SUBL => true
  | _ => false

/-- `cpu->data_memory[stage->mem_address] = stage->rs1_value` in `memory2`. -/
@[simps]
def memory2_store (cpu : APEX_CPU) : APEX_CPU :=
  { cpu with data_memory := store cpu.data_memory cpu.MEM2.mem_address cpu.MEM2.rs1_value }

/-- `stage->buffer = cpu->data_memory[stage->mem_address]` in `memory2`. -/
@[simps]
def memory2_load (cpu : APEX_CPU) : APEX_CPU :=
  { cpu with MEM2 := { cpu.MEM2 with buffer := cpu.data_memory cpu.MEM2.mem_address } }

/-- `cpu->pc = stage->mem_address` in the branch block of `memory2`. -/
@[simps]
def redirect_pc (cpu : APEX_CPU) : APEX_CPU :=
  { cpu with pc := cpu.MEM2.mem_address }

/-- `cpu->regs_valid[cpu->stage[MEM1].rd]++` in the branch block of `memory2`. -/
@[simps]
def release_MEM1_rd (cpu : APEX_CPU) : APEX_CPU :=
  { cpu with regs_valid := store cpu.regs_valid cpu.MEM1.rd (cpu.regs_valid cpu.MEM1.rd + 1) }

/-- The squash of the branch block of `memory2`: `pc = 0` and the empty opcode
in the Decode latch and in the Memory-1 latch. -/
@[simps]
def squash_DRF_MEM1 (cpu : APEX_CPU) : APEX_CPU :=
  { cpu with DRF := { cpu.DRF with pc := 0, opcode := Opcode.EMPTY },
             MEM1 := { cpu.MEM1 with opcode := Opcode.EMPTY, pc := 0 } }

/-- `cpu->ins_completed = v`. -/
@[simps]
def set_ins_completed (cpu : APEX_CPU) (v : Int) : APEX_CPU :=
  { cpu with ins_completed := v }

/-- The adjustment of `ins_completed` in the branch block of `memory2`:
`(ins_completed + imm/4) - 1` for a negative immediate, `ins_completed - imm/4`
otherwise, `/` being C division. -/
def adjust_ins_completed (cpu : APEX_CPU) : APEX_CPU :=
  if cpu.MEM2.imm < 0 then
    set_ins_completed cpu ((cpu.ins_completed + Int.tdiv cpu.MEM2.imm 4) - 1)
  else
    set_ins_completed cpu (cpu.ins_completed - Int.tdiv cpu.MEM2.imm 4)

/-- `cpu->ex_halt = 0; cpu->stage[F].stalled = 0` in the branch block of `memory2`. -/
@[simps]
def clear_ex_halt (cpu : APEX_CPU) : APEX_CPU :=
  { cpu with ex_halt := 0, F := { cpu.F with stalled := 0 } }

/-- The body of the BZ/BNZ block of `memory2` for a target different from 0. -/
def memory2_taken (cpu : APEX_CPU) : APEX_CPU :=
  let cpu1 :=
    if writes_rd cpu.MEM1.opcode = true then release_MEM1_rd (redirect_pc cpu)
    else redirect_pc cpu
  let cpu2 := adjust_ins_completed (squash_DRF_MEM1 cpu1)
  if cpu2.ex_halt ≠ 0 then clear_ex_halt cpu2 else cpu2

/-- The HALT block of `memory2`: the Memory-1, Decode and Fetch latches are
emptied and stalled, `cpu->ex_halt = 1`. -/
@[simps]
def memory2_halt (cpu : APEX_CPU) : APEX_CPU :=
  { cpu with MEM1 := { cpu.MEM1 with pc := 0, opcode := Opcode.EMPTY, stalled := 1 },
             DRF := { cpu.DRF with pc := 0, opcode := Opcode.EMPTY, stalled := 1 },
             F := { cpu.F with opcode := Opcode.EMPTY, stalled := 1, pc := 0 },
             ex_halt := 1 }

/-- `cpu->stage[WB] = cpu->stage[MEM2]`. -/
@[simps]
def copy_MEM2_WB (cpu : APEX_CPU) : APEX_CPU :=
  { cpu with WB := cpu.MEM2 }

/-- The opcode blocks of `memory2`, run when the stage is not busy, not
stalled and `nop == 0`. -/
def memory2_opcode (cpu : APEX_CPU) : APEX_CPU :=
  match cpu.MEM2.opcode with
  | Opcode.STORE | Opcode.STR => memory2_store cpu
  | Opcode.LOAD | Opcode.LDR => memory2_load cpu
  | Opcode.BZ | Opcode.BNZ =>
    if cpu.MEM2.mem_address ≠ 0 then memory2_taken cpu else cpu
  | Opcode.HALT => memory2_halt cpu
  | _ => cpu

/-- Memory-2 stage. -/
def memory2 (cpu : APEX_CPU) : APEX_CPU :=
  if cpu.MEM2.busy = 0 ∧ cpu.MEM2.stalled = 0 ∧ cpu.MEM2.nop = 0 then
    copy_MEM2_WB (memory2_opcode cpu)
  else copy_MEM2_WB cpu

/-! ### Writeback -/

/-- The block shared by the eleven register-writing opcodes of `writeback`:
`cpu->regs[stage->rd] = stage->buffer; cpu->regs_valid[stage->rd]++;
cpu->stage[DRF].stalled = 0; cpu->stage[F].stalled = 0`. -/
@[simps]
def writeback_rd (cpu : APEX_CPU) : APEX_CPU :=
  { cpu with regs := store cpu.regs cpu.WB.rd cpu.WB.buffer,
             regs_valid := store cpu.regs_valid cpu.WB.rd (cpu.regs_valid cpu.WB.rd + 1),
             DRF := { cpu.DRF with stalled := 0 },
             F := { cpu.F with stalled := 0 } }

/-- The HALT block of `writeback`: `cpu->ins_completed = cpu->code_memory_size - 1`,
the Execute-2, Decode, Fetch and Memory-2 latches are emptied and stalled,
`cpu->ex_halt = 1`. -/
@[simps]
def writeback_halt (cpu : APEX_CPU) : APEX_CPU :=
  { cpu with ins_completed := code_memory_size cpu - 1,
             EX2 := { cpu.EX2 with pc := 0, opcode := Opcode.EMPTY, stalled := 1 },
             DRF := { cpu.DRF with pc := 0, opcode := Opcode.EMPTY, stalled := 1 },
             F := { cpu.F with stalled := 1, opcode := Opcode.EMPTY, pc := 0 },
             MEM2 := { cpu.MEM2 with pc := 0, opcode := Opcode.EMPTY, stalled := 1 },
             ex_halt := 1 }

/-- The opcode blocks of `writeback`. -/
def writeback_opcode (cpu : APEX_CPU) : APEX_CPU :=
  match cpu.WB.opcode with
  | Opcode.MOVC | Opcode.LOAD | Opcode.LDR | Opcode.ADD | Opcode.ADDL | Opcode.SUB
  | Opcode.SUBL | Opcode.MUL | Opcode.AND | Opcode.OR | Opcode.EXOR => writeback_rd cpu
  | Opcode.HALT => writeback_halt cpu
  | _ => cpu

/-- Whether `writeback` commits the latch it holds: the stage is not busy, not
stalled, `nop == 0` and the opcode is not the empty string. -/
def wb_commits (cpu : APEX_CPU) : Prop :=
  cpu.WB.busy = 0 ∧ cpu.WB.stalled = 0 ∧ cpu.WB.nop = 0 ∧ cpu.WB.opcode ≠ Opcode.EMPTY

instance (cpu : APEX_CPU) : Decidable (wb_commits cpu) := by
  unfold wb_commits; infer_instance

/-- `cpu->ins_completed++`. -/
@[simps]
def inc_ins_completed (cpu : APEX_CPU) : APEX_CPU :=
  { cpu with ins_completed := cpu.ins_completed + 1 }

/-- Writeback stage. -/
def writeback (cpu : APEX_CPU) : APEX_CPU :=
  if wb_commits cpu then inc_ins_completed (writeback_opcode cpu) else cpu

/-! ### Driver -/

/-- `cpu->clock++`. -/
@[simps]
def inc_clock (cpu : APEX_CPU) : APEX_CPU :=
  { cpu with clock := cpu.clock + 1 }

/-- One iteration of the loop of `APEX_cpu_run` after the termination test:
the seven stages from Writeback back to Fetch, then `cpu->clock++`. -/
def cycle (cpu : APEX_CPU) : APEX_CPU :=
  inc_clock (fetch (decode (execute1 (execute2 (memory1 (memory2 (writeback cpu)))))))

/-- The test `cpu->ins_completed == cpu->code_memory_size` that ends the loop. -/
def finished (cpu : APEX_CPU) : Prop := cpu.ins_completed = code_memory_size cpu

instance (cpu : APEX_CPU) : Decidable (finished cpu) := by
  unfold finished; infer_instance

/-- The loop of `APEX_cpu_run`, with a bound on the number of iterations:
`some cpu` is the state in which the loop was left, `none` means that the
loop was still running after `fuel` iterations. -/
def APEX_cpu_run : Nat → APEX_CPU → Option APEX_CPU
  | 0, cpu => if finished cpu then some cpu else none
  | fuel + 1, cpu => if finished cpu then some cpu else APEX_cpu_run fuel (cycle cpu)

/-- State after `n` iterations of the loop body, the termination test left out. -/
def cycles : Nat → APEX_CPU → APEX_CPU
  | 0, cpu => cpu
  | n + 1, cpu => cycles n (cycle cpu)

/-! ## Programs used in the statements -/

/-- `MOVC rd,#imm`. -/
def I_MOVC (rd imm : Int) : APEX_Instruction :=
  { opcode := Opcode.MOVC, rd := rd, rs1 := 0, rs2 := 0, rs3 := 0, imm := imm }

/-- `ADD rd,rs1,rs2`. -/
def I_ADD (rd rs1 rs2 : Int) : APEX_Instruction :=
  { opcode := Opcode.ADD, rd := rd, rs1 := rs1, rs2 := rs2, rs3 := 0, imm := 0 }

/-- `SUB rd,rs1,rs2`. -/
def I_SUB (rd rs1 rs2 : Int) : APEX_Instruction :=
  { opcode := Opcode.SUB, rd := rd, rs1 := rs1, rs2 := rs2, rs3 := 0, imm := 0 }

/-- `MUL rd,rs1,rs2`. -/
def I_MUL (rd rs1 rs2 : Int) : APEX_Instruction :=
  { opcode := Opcode.MUL, rd := rd, rs1 := rs1, rs2 := rs2, rs3 := 0, imm := 0 }

/-- `BZ #imm`. -/
def I_BZ (imm : Int) : APEX_Instruction :=
  { opcode := Opcode.BZ, rd := 0, rs1 := 0, rs2 := 0, rs3 := 0, imm := imm }

/-- `HALT`. -/
def I_HALT : APEX_Instruction :=
  { opcode := Opcode.HALT, rd := 0, rs1 := 0, rs2 := 0, rs3 := 0, imm := 0 }

/-- Memory past the end of the code array that holds no instruction: every
field zero, the opcode the empty string. -/
def no_code : Int → APEX_Instruction :=
  fun _ => { opcode := Opcode.EMPTY, rd := 0, rs1 := 0, rs2 := 0, rs3 := 0, imm := 0 }

instance : Nonempty APEX_Instruction := ⟨I_HALT⟩

/-- The program `[MOVC R1,#a; MOVC R2,#b; ADD R3,R1,R2; HALT]`. -/
def prog_add (a b : Int) : List APEX_Instruction :=
  [I_MOVC 1 a, I_MOVC 2 b, I_ADD 3 1 2, I_HALT]

/-- State of the run of `prog_add a b` after `k` cycles, `beyond` being what
lies past the end of code memory. -/
def run_add (a b : Int) (beyond : Int → APEX_Instruction) (k : Nat) : APEX_CPU :=
  cycles k (APEX_cpu_init (prog_add a b) beyond)

/-- Statement of the scenario of `prog_add`, for the triple `(a, b, beyond)`:
termination after exactly 14 iterations, the HALT committing in the last one,
the three register values and their scoreboard entries, and the ADD leaving
Decode only in the iteration whose Writeback commits the second MOVC. -/
def add_scenario (t : Int × Int × (Int → APEX_Instruction)) : Prop :=
  APEX_cpu_run 14 (APEX_cpu_init (prog_add t.1 t.2.1) t.2.2) = some (run_add t.1 t.2.1 t.2.2 14)
  ∧ APEX_cpu_run 13 (APEX_cpu_init (prog_add t.1 t.2.1) t.2.2) = none
  ∧ (run_add t.1 t.2.1 t.2.2 13).WB.opcode = Opcode.HALT
  ∧ wb_commits (run_add t.1 t.2.1 t.2.2 13)
  ∧ (run_add t.1 t.2.1 t.2.2 14).regs 1 = t.1
  ∧ (run_add t.1 t.2.1 t.2.2 14).regs 2 = t.2.1
  ∧ (run_add t.1 t.2.1 t.2.2 14).regs 3 = wrap32 (t.1 + t.2.1)
  ∧ (run_add t.1 t.2.1 t.2.2 14).regs_valid 1 = 1
  ∧ (run_add t.1 t.2.1 t.2.2 14).regs_valid 2 = 1
  ∧ (run_add t.1 t.2.1 t.2.2 14).regs_valid 3 = 1
  ∧ (∀ k, k ≤ 7 → 3 ≤ k →
      (run_add t.1 t.2.1 t.2.2 k).DRF.opcode = Opcode.ADD
      ∧ (run_add t.1 t.2.1 t.2.2 k).ins_completed < 2)
  ∧ (∀ k, k ≤ 14 →
      (run_add t.1 t.2.1 t.2.2 k).EX1.opcode = Opcode.ADD →
      (run_add t.1 t.2.1 t.2.2 k).EX1.stalled = 0 → k = 8)
  ∧ (writeback (run_add t.1 t.2.1 t.2.2 7)).ins_completed = 2
  ∧ (run_add t.1 t.2.1 t.2.2 8).EX1.opcode = Opcode.ADD
  ∧ (run_add t.1 t.2.1 t.2.2 8).EX1.stalled = 0
  ∧ (run_add t.1 t.2.1 t.2.2 8).EX1.rs1_value = t.1
  ∧ (run_add t.1 t.2.1 t.2.2 8).EX1.rs2_value = t.2.1

/-- The program `[MOVC R1,#a; MOVC R2,#b; MUL R3,R1,R2; HALT]`. -/
def prog_mul (a b : Int) : List APEX_Instruction :=
  [I_MOVC 1 a, I_MOVC 2 b, I_MUL 3 1 2, I_HALT]

/-- State of the run of `prog_mul a b` after `k` cycles. -/
def run_mul (a b : Int) (beyond : Int → APEX_Instruction) (k : Nat) : APEX_CPU :=
  cycles k (APEX_cpu_init (prog_mul a b) beyond)

/-- The state inside an iteration of the driver at the point where
`execute1` has returned and `decode` has not yet been called. -/
def after_execute1 (cpu : APEX_CPU) : APEX_CPU :=
  execute1 (execute2 (memory1 (memory2 (writeback cpu))))

/-- Statement of the scenario of `prog_mul` against `prog_add`, for the triple
`(a, b, beyond)`. -/
def mul_scenario (t : Int × Int × (Int → APEX_Instruction)) : Prop :=
  APEX_cpu_run 15 (APEX_cpu_init (prog_mul t.1 t.2.1) t.2.2) = some (run_mul t.1 t.2.1 t.2.2 15)
  ∧ APEX_cpu_run 14 (APEX_cpu_init (prog_mul t.1 t.2.1) t.2.2) = none
  ∧ APEX_cpu_run 14 (APEX_cpu_init (prog_add t.1 t.2.1) t.2.2) = some (run_add t.1 t.2.1 t.2.2 14)
  ∧ APEX_cpu_run 13 (APEX_cpu_init (prog_add t.1 t.2.1) t.2.2) = none
  ∧ (run_mul t.1 t.2.1 t.2.2 15).clock = 15
  ∧ (run_add t.1 t.2.1 t.2.2 14).clock = 14
  ∧ (run_mul t.1 t.2.1 t.2.2 15).regs 3 = wrap32 (t.1 * t.2.1)
  ∧ (∀ k, k ≤ 15 →
      ((run_mul t.1 t.2.1 t.2.2 k).EX1.opcode = Opcode.MUL
        ∧ (run_mul t.1 t.2.1 t.2.2 k).EX1.busy = 0
        ∧ (run_mul t.1 t.2.1 t.2.2 k).EX1.stalled = 0 ↔ k = 8 ∨ k = 9))
  ∧ (∀ k, k ≤ 14 →
      ((after_execute1 (run_mul t.1 t.2.1 t.2.2 k)).F.busy ≠ 0 ↔ k = 8))
  ∧ (∀ k, k ≤ 14 → 1 ≤ k →
      ((after_execute1 (run_mul t.1 t.2.1 t.2.2 k)).DRF.busy ≠ 0 ↔ k = 8))
  ∧ (after_execute1 (run_mul t.1 t.2.1 t.2.2 8)).F.busy = 1
  ∧ (after_execute1 (run_mul t.1 t.2.1 t.2.2 8)).F.stalled = 1
  ∧ (after_execute1 (run_mul t.1 t.2.1 t.2.2 8)).DRF.busy = 1
  ∧ (after_execute1 (run_mul t.1 t.2.1 t.2.2 8)).DRF.stalled = 1
  ∧ (run_mul t.1 t.2.1 t.2.2 8).pc = 4016
  ∧ (run_mul t.1 t.2.1 t.2.2 9).pc = 4016
  ∧ (run_mul t.1 t.2.1 t.2.2 8).DRF.opcode = Opcode.HALT
  ∧ (run_mul t.1 t.2.1 t.2.2 9).DRF.opcode = Opcode.HALT
  ∧ (run_mul t.1 t.2.1 t.2.2 8).EX1.pc = 4008
  ∧ (run_mul t.1 t.2.1 t.2.2 9).EX1.pc = 4008
  ∧ (∀ k, k ≤ 13 → 1 ≤ k →
      (after_execute1 (run_add t.1 t.2.1 t.2.2 k)).F.busy = 0
      ∧ (after_execute1 (run_add t.1 t.2.1 t.2.2 k)).DRF.busy = 0)

/-- The program `[MOVC R1,#1; MOVC R1,#2; ADD R2,R1,R1; HALT]`: two writes of
`R1` in flight, then a read of `R1`. -/
def prog_waw : List APEX_Instruction := [I_MOVC 1 1, I_MOVC 1 2, I_ADD 2 1 1, I_HALT]

/-- The program `[MOVC R1,#1; MOVC R2,#2; MOVC R4,#4; HALT; MOVC R3,#3]`: an
instruction stands behind the HALT. -/
def prog_halt_mid : List APEX_Instruction :=
  [I_MOVC 1 1, I_MOVC 2 2, I_MOVC 4 4, I_HALT, I_MOVC 3 3]

/-- The program `[SUB R1,R0,R0; BZ #16; MOVC R2,#1; MOVC R3,#2; MOVC R4,#3; HALT]`:
the SUB sets the zero flag, the BZ at 4004 is taken to the HALT at 4020. -/
def prog_taken : List APEX_Instruction :=
  [I_SUB 1 0 0, I_BZ 16, I_MOVC 2 1, I_MOVC 3 2, I_MOVC 4 3, I_HALT]

/-- The program `[HALT; MOVC R1,#1; MOVC R2,#2]`. -/
def prog_halt_first : List APEX_Instruction := [I_HALT, I_MOVC 1 1, I_MOVC 2 2]

/-- Number of iterations among the first `k` from `cpu` in which `writeback`
commits the latch it holds. -/
def commit_count : Nat → APEX_CPU → Nat
  | 0, _ => 0
  | k + 1, cpu => (if wb_commits cpu then 1 else 0) + commit_count k (cycle cpu)

/-! ### Sequential reading of the instruction set

The specification words the instruction set as: STORE `mem[rs2+imm] = rs1`;
STR `mem[rs2+rs3] = rs1`; LOAD `rd = mem[rs1+imm]`; LDR `rd = mem[rs1+rs2]`;
ADD/SUB/MUL/AND/OR/EXOR `rd = rs1 op rs2`; ADDL/SUBL `rd = rs1 op imm`;
MOVC `rd = imm`; HALT terminate.  The definitions below follow these words,
one instruction after another; they are not taken from `cpu.c`. -/

/-- Registers and data memory of the sequential reading. -/
structure SeqState where
  regs : Int → Int
  mem : Int → Int

/-- One instruction of the sequential reading (branches and HALT are not
handled here). -/
def spec_seq_step (s : SeqState) (ins : APEX_Instruction) : SeqState :=
  match ins.opcode with
  | Opcode.STORE => { s with mem := store s.mem (wrap32 (s.regs ins.rs2 + ins.imm)) (s.regs ins.rs1) }
  | Opcode.STR =>
    { s with mem := store s.mem (wrap32 (s.regs ins.rs2 + s.regs ins.rs3)) (s.regs ins.rs1) }
  | Opcode.LOAD => { s with regs := store s.regs ins.rd (s.mem (wrap32 (s.regs ins.rs1 + ins.imm))) }
  | Opcode.LDR =>
    { s with regs := store s.regs ins.rd (s.mem (wrap32 (s.regs ins.rs1 + s.regs ins.rs2))) }
  | Opcode.ADD => { s with regs := store s.regs ins.rd (wrap32 (s.regs ins.rs1 + s.regs ins.rs2)) }
  | Opcode.SUB => { s with regs := store s.regs ins.rd (wrap32 (s.regs ins.rs1 - s.regs ins.rs2)) }
  | Opcode.MUL => { s with regs := store s.regs ins.rd (wrap32 (s.regs ins.rs1 * s.regs ins.rs2)) }
  | Opcode.AND => { s with regs := store s.regs ins.rd (Int.land (s.regs ins.rs1) (s.regs ins.rs2)) }
  | Opcode.OR => { s with regs := store s.regs ins.rd (Int.lor (s.regs ins.rs1) (s.regs ins.rs2)) }
  | Opcode.EXOR => { s with regs := store s.regs ins.rd (Int.xor (s.regs ins.rs1) (s.regs ins.rs2)) }
  | Opcode.ADDL => { s with regs := store s.regs ins.rd (wrap32 (s.regs ins.rs1 + ins.imm)) }
  | Opcode.SUBL => { s with regs := store s.regs ins.rd (wrap32 (s.regs ins.rs1 - ins.imm)) }
  | Opcode.MOVC => { s with regs := store s.regs ins.rd ins.imm }
  | _ => s

/-- Sequential evaluation of a program without branches, in program order,
stopping at the first HALT. -/
def spec_seq_eval : List APEX_Instruction → SeqState → SeqState
  | [], s => s
  | ins :: rest, s =>
    if ins.opcode = Opcode.HALT then s else spec_seq_eval rest (spec_seq_step s ins)

/-- Registers and data memory all zero, as `APEX_cpu_init` leaves them. -/
def spec_seq_init : SeqState := { regs := fun _ => 0, mem := fun _ => 0 }

/-- The iteration that starts in `cpu` commits a HALT in Writeback. -/
def commits_halt (cpu : APEX_CPU) : Prop := wb_commits cpu ∧ cpu.WB.opcode = Opcode.HALT

instance (cpu : APEX_CPU) : Decidable (commits_halt cpu) := by
  unfold commits_halt; infer_instance

/-- The Memory-2 latch of `cpu` is a conditional branch that `memory2`
resolves as taken: not busy, not stalled, `nop == 0`, and a target other
than 0. -/
def takes_branch (cpu : APEX_CPU) : Prop :=
  cpu.MEM2.busy = 0 ∧ cpu.MEM2.stalled = 0 ∧ cpu.MEM2.nop = 0
  ∧ (cpu.MEM2.opcode = Opcode.BZ ∨ cpu.MEM2.opcode = Opcode.BNZ) ∧ cpu.MEM2.mem_address ≠ 0

instance (cpu : APEX_CPU) : Decidable (takes_branch cpu) := by
  unfold takes_branch; infer_instance

/-- The control part of a latch: opcode and the flags `busy`, `stalled`, `nop`. -/
def ctl (L : CPU_Stage) : Opcode × Int × Int × Int := (L.opcode, L.busy, L.stalled, L.nop)

/-- Opcodes that neither branch, jump, halt nor multiply. -/
def plain (op : Opcode) : Bool :=
  match op with
  | Opcode.STORE | Opcode.STR | Opcode.LOAD | Opcode.LDR | Opcode.ADD | Opcode.ADDL
  | Opcode.SUB | Opcode.SUBL | Opcode.MOVC | Opcode.AND | Opcode.OR | Opcode.EXOR => true
  | _ => false

/-- Programs of plain instructions closed by a single HALT. -/
def straight : List APEX_Instruction → Bool
  | [] => false
  | [ins] => decide (ins.opcode = Opcode.HALT)
  | ins :: next :: rest => plain ins.opcode && straight (next :: rest)

/-- What the latch at depth `d` behind Fetch (Decode is 1, Writeback is 6)
looks like after `k` cycles of a run that never stalls, `c` being the
control part of the latch: a start-up bubble while `k < d`, and instruction
`k - d` of the program, unblocked, while that index is inside the program. -/
def in_flight (code : List APEX_Instruction) (k d : Nat) (c : Opcode × Int × Int × Int) : Prop :=
  (k < d → c.2.1 ≠ 0 ∧ c.2.2.1 = 0)
  ∧ (∀ ins, d ≤ k → code.get? (k - d) = some ins → c = (ins.opcode, 0, 0, 0))

/-- The state after `k` cycles of a run of `code` that never stalls. -/
structure pipe_inv (code : List APEX_Instruction) (k : Nat) (cpu : APEX_CPU) : Prop where
  code_eq : cpu.code_memory = code
  done_eq : cpu.ins_completed = ((k - 6 : Nat) : Int)
  clock_eq : cpu.clock = (k : Int)
  drf : in_flight code k 1 (ctl cpu.DRF)
  ex1 : in_flight code k 2 (ctl cpu.EX1)
  ex2 : in_flight code k 3 (ctl cpu.EX2)
  mem1 : in_flight code k 4 (ctl cpu.MEM1)
  mem2 : in_flight code k 5 (ctl cpu.MEM2)
  wb : in_flight code k 6 (ctl cpu.WB)
  front : k ≤ code.length →
    cpu.F.busy = 0 ∧ cpu.F.stalled = 0 ∧ cpu.F.nop = 0 ∧ cpu.pc = 4000 + 4 * (k : Int)

/-- The program `[MOVC R1,#5; MOVC R2,#10; HALT]`: nothing waits in Decode. -/
def prog_no_stall : List APEX_Instruction := [I_MOVC 1 5, I_MOVC 2 10, I_HALT]

/-- The program `[MOVC R1,#0; BZ #8; MOVC R2,#99; HALT]`. -/
def prog_bz : List APEX_Instruction := [I_MOVC 1 0, I_BZ 8, I_MOVC 2 99, I_HALT]

/-- What the first seven cycles of `prog_bz` give, `beyond` being what lies
past the end of code memory: the BZ is evaluated in Execute-1 in iteration 3
with the zero flag 0 and leaves with the null target and `insflush = 1`;
after 7 cycles the BZ is in Writeback, `MOVC R2,#99` in Memory-2 and the HALT
in Memory-1, one instruction has committed and `R2` is 0. -/
def bz_scenario (beyond : Int → APEX_Instruction) : Prop :=
  (∀ j, j ≤ 7 → ¬ finished (cycles j (APEX_cpu_init prog_bz beyond)))
  ∧ (cycles 3 (APEX_cpu_init prog_bz beyond)).EX1.opcode = Opcode.BZ
  ∧ (cycles 3 (APEX_cpu_init prog_bz beyond)).EX1.busy = 0
  ∧ (cycles 3 (APEX_cpu_init prog_bz beyond)).EX1.stalled = 0
  ∧ (cycles 3 (APEX_cpu_init prog_bz beyond)).zeroFlag = 0
  ∧ (cycles 4 (APEX_cpu_init prog_bz beyond)).EX2.opcode = Opcode.BZ
  ∧ (cycles 4 (APEX_cpu_init prog_bz beyond)).EX2.mem_address = 0
  ∧ (cycles 4 (APEX_cpu_init prog_bz beyond)).EX2.insflush = 1
  ∧ (cycles 6 (APEX_cpu_init prog_bz beyond)).MEM2.opcode = Opcode.BZ
  ∧ ¬ takes_branch (cycles 6 (APEX_cpu_init prog_bz beyond))
  ∧ (cycles 7 (APEX_cpu_init prog_bz beyond)).WB.opcode = Opcode.BZ
  ∧ wb_commits (cycles 7 (APEX_cpu_init prog_bz beyond))
  ∧ (cycles 7 (APEX_cpu_init prog_bz beyond)).MEM2.opcode = Opcode.MOVC
  ∧ (cycles 7 (APEX_cpu_init prog_bz beyond)).MEM2.pc = 4008
  ∧ (cycles 7 (APEX_cpu_init prog_bz beyond)).MEM2.rd = 2
  ∧ (cycles 7 (APEX_cpu_init prog_bz beyond)).MEM2.buffer = 99
  ∧ ctl (cycles 7 (APEX_cpu_init prog_bz beyond)).MEM2 = (Opcode.MOVC, 0, 0, 0)
  ∧ ctl (cycles 7 (APEX_cpu_init prog_bz beyond)).MEM1 = (Opcode.HALT, 0, 0, 0)
  ∧ (cycles 7 (APEX_cpu_init prog_bz beyond)).ins_completed = 1
  ∧ (cycles 7 (APEX_cpu_init prog_bz beyond)).regs 2 = 0

/-- `STORE rs1,rs2,#imm`. -/
def I_STORE (rs1 rs2 imm : Int) : APEX_Instruction :=
  { opcode := Opcode.STORE, rd := 0, rs1 := rs1, rs2 := rs2, rs3 := 0, imm := imm }

/-- `LOAD rd,rs1,#imm`. -/
def I_LOAD (rd rs1 imm : Int) : APEX_Instruction :=
  { opcode := Opcode.LOAD, rd := rd, rs1 := rs1, rs2 := 0, rs3 := 0, imm := imm }

/-- `AND rd,rs1,rs2`. -/
def I_AND (rd rs1 rs2 : Int) : APEX_Instruction :=
  { opcode := Opcode.AND, rd := rd, rs1 := rs1, rs2 := rs2, rs3 := 0, imm := 0 }

/-- `BNZ #imm`. -/
def I_BNZ (imm : Int) : APEX_Instruction :=
  { opcode := Opcode.BNZ, rd := 0, rs1 := 0, rs2 := 0, rs3 := 0, imm := imm }

/-- `JUMP rs1,#imm`. -/
def I_JUMP (rs1 imm : Int) : APEX_Instruction :=
  { opcode := Opcode.JUMP, rd := 0, rs1 := rs1, rs2 := 0, rs3 := 0, imm := imm }

/-- The state inside an iteration of the driver at the point where
`execute2` has returned and `execute1` has not yet been called. -/
def before_execute1 (cpu : APEX_CPU) : APEX_CPU :=
  execute2 (memory1 (memory2 (writeback cpu)))

/-- The state inside an iteration of the driver at the point where
`decode` has returned and `fetch` is called. -/
def before_fetch (cpu : APEX_CPU) : APEX_CPU :=
  decode (after_execute1 cpu)

/-- Opcodes whose block in `decode` tests `regs_valid[stage->rs1]`. -/
def tests_rs1 (op : Opcode) : Bool :=
  match op with
  | Opcode.STORE | Opcode.STR | Opcode.LOAD | Opcode.LDR | Opcode.ADD | Opcode.SUB
  | Opcode.MUL | Opcode.ADDL | Opcode.SUBL | Opcode.AND | Opcode.OR | Opcode.EXOR => true
  | _ => false

/-- Opcodes whose block in `decode` tests `regs_valid[stage->rs2]`. -/
def tests_rs2 (op : Opcode) : Bool :=
  match op with
  | Opcode.STORE | Opcode.STR | Opcode.LDR | Opcode.ADD | Opcode.SUB | Opcode.MUL
  | Opcode.AND | Opcode.OR | Opcode.EXOR => true
  | _ => false

/-- Opcodes whose block in `decode` tests `regs_valid[stage->rs3]`. -/
def tests_rs3 (op : Opcode) : Bool :=
  match op with
  | Opcode.STR => true
  | _ => false

/-- The readiness test of `decode` for the latch it holds: every scoreboard
entry that the block of the opcode tests is different from 0. -/
def sources_ready (cpu : APEX_CPU) : Prop :=
  (tests_rs1 cpu.DRF.opcode = true → cpu.regs_valid cpu.DRF.rs1 ≠ 0)
  ∧ (tests_rs2 cpu.DRF.opcode = true → cpu.regs_valid cpu.DRF.rs2 ≠ 0)
  ∧ (tests_rs3 cpu.DRF.opcode = true → cpu.regs_valid cpu.DRF.rs3 ≠ 0)

instance (cpu : APEX_CPU) : Decidable (sources_ready cpu) := by
  unfold sources_ready; infer_instance

/-- The program `[MOVC R1,#7; STORE R1,R0,#12; LOAD R2,R0,#12; HALT]`: a store
to the data cell 12 and a load from it. -/
def prog_store : List APEX_Instruction :=
  [I_MOVC 1 7, I_STORE 1 0 12, I_LOAD 2 0 12, I_HALT]

/-- The program `[MOVC R1,#12; JUMP R1,#4000; MOVC R2,#99; HALT]`: the JUMP
reads `R1` right behind the MOVC that writes it; with `R1 = 12` its target
is the HALT at 4012. -/
def prog_jump : List APEX_Instruction :=
  [I_MOVC 1 12, I_JUMP 1 4000, I_MOVC 2 99, I_HALT]

/-- The program `[AND R1,R0,R0; BZ #8; MOVC R2,#99; HALT]`: the AND has the
result 0, the BZ behind it branches over the MOVC if the zero flag is 1. -/
def prog_and : List APEX_Instruction :=
  [I_AND 1 0 0, I_BZ 8, I_MOVC 2 99, I_HALT]

/-- The program `[MOVC R1,#1; MOVC R2,#2; BNZ #-8; HALT]`: the BNZ at 4008
finds the zero flag 0 and branches back to 4000. -/
def prog_back : List APEX_Instruction :=
  [I_MOVC 1 1, I_MOVC 2 2, I_BNZ (-8), I_HALT]

/-- The program `[MOVC R2,#1; SUB R1,R0,R0; BZ #12; ADD R3,R2,R2; MOVC R4,#4; HALT]`:
the ADD behind the taken BZ waits in Decode for `R2`. -/
def prog_release : List APEX_Instruction :=
  [I_MOVC 2 1, I_SUB 1 0 0, I_BZ 12, I_ADD 3 2 2, I_MOVC 4 4, I_HALT]

/-- Two states have the same architectural part: registers, scoreboard, data
memory, program counter, zero flag and `ins_completed`. -/
def same_arch (a b : APEX_CPU) : Prop :=
  a.regs = b.regs ∧ a.regs_valid = b.regs_valid ∧ a.data_memory = b.data_memory
  ∧ a.pc = b.pc ∧ a.zeroFlag = b.zeroFlag ∧ a.ins_completed = b.ins_completed

/-- The states in which `fetch` reads `code_memory[get_code_index(cpu->pc)]`:
its first branch (Fetch neither busy nor stalled) and its third (`busy` or
`stalled` equal to 1, taken when Execute-1 does not carry `insflush = 1`). -/
def fetch_reads (cpu : APEX_CPU) : Prop :=
  (cpu.F.busy = 0 ∧ cpu.F.stalled = 0)
  ∨ (cpu.EX1.insflush ≠ 1 ∧ (cpu.F.stalled = 1 ∨ cpu.F.busy = 1))

instance (cpu : APEX_CPU) : Decidable (fetch_reads cpu) := by
  unfold fetch_reads; infer_instance

/-- What `fetch` does in the fourth iteration of `prog_no_stall`
(`[MOVC R1,#5; MOVC R2,#10; HALT]`, 3 instructions), `beyond` being what lies
past the end of code memory: it reads code memory at the index 3 and puts
what it finds there in the Fetch latch. -/
def past_end_scenario (beyond : Int → APEX_Instruction) : Prop :=
  code_memory_size (before_fetch (cycles 3 (APEX_cpu_init prog_no_stall beyond))) = 3
  ∧ (cycles 3 (APEX_cpu_init prog_no_stall beyond)).DRF.opcode = Opcode.HALT
  ∧ (before_fetch (cycles 3 (APEX_cpu_init prog_no_stall beyond))).F.stalled = 1
  ∧ fetch_reads (before_fetch (cycles 3 (APEX_cpu_init prog_no_stall beyond)))
  ∧ (before_fetch (cycles 3 (APEX_cpu_init prog_no_stall beyond))).pc = 4012
  ∧ get_code_index (before_fetch (cycles 3 (APEX_cpu_init prog_no_stall beyond))).pc = 3
  ∧ (fetch (before_fetch (cycles 3 (APEX_cpu_init prog_no_stall beyond)))).F.opcode
      = (beyond 3).opcode
  ∧ (fetch (before_fetch (cycles 3 (APEX_cpu_init prog_no_stall beyond)))).F.rd = (beyond 3).rd
  ∧ (fetch (before_fetch (cycles 3 (APEX_cpu_init prog_no_stall beyond)))).F.imm = (beyond 3).imm
  ∧ (cycles 4 (APEX_cpu_init prog_no_stall beyond)).F.opcode = (beyond 3).opcode

/-- What holds of the flush bits and of the flags of Fetch between two
stages of the driver, outside the stretch from `execute1` to `decode`:
`insflush` is 0 in the Fetch, Decode and Execute-1 latches; when Decode is
busy, Execute-1 is busy or holds a MUL; the flags `busy` and `stalled` of
Fetch are 0 or 1. -/
def fetch_inv (cpu : APEX_CPU) : Prop :=
  cpu.F.insflush = 0 ∧ cpu.DRF.insflush = 0 ∧ cpu.EX1.insflush = 0
  ∧ (cpu.DRF.busy ≠ 0 → cpu.EX1.busy ≠ 0 ∨ cpu.EX1.opcode = Opcode.MUL)
  ∧ (cpu.F.busy = 0 ∨ cpu.F.busy = 1) ∧ (cpu.F.stalled = 0 ∨ cpu.F.stalled = 1)

/-- What holds of the flush bits and of the flags of Fetch when `execute1`
has returned and `decode` has not yet been called: as `fetch_inv`, but the
Execute-1 latch is known to have `insflush = 0` only when Decode is busy. -/
def execute1_inv (cpu : APEX_CPU) : Prop :=
  cpu.F.insflush = 0 ∧ cpu.DRF.insflush = 0
  ∧ (cpu.DRF.busy ≠ 0 →
      cpu.EX1.insflush = 0 ∧ (cpu.EX1.busy ≠ 0 ∨ cpu.EX1.opcode = Opcode.MUL))
  ∧ (cpu.F.busy = 0 ∨ cpu.F.busy = 1) ∧ (cpu.F.stalled = 0 ∨ cpu.F.stalled = 1)

/-! ## Theorems -/

/-- A property of every `x` follows from the property at the point chosen
against it: if it held there and failed somewhere, the chosen point would be
one where it fails. -/
theorem forall_of_generic {α : Type} [Nonempty α] (P : α → Prop)
    (h : P (Classical.epsilon (fun x => ¬ P x))) : ∀ x, P x := by
  intro x
  by_contra hx
  exact (Classical.epsilon_spec (p := fun x => ¬ P x) ⟨x, hx⟩) h

/-- In the range of a 32-bit `int`, `wrap32` is the identity. -/
theorem wrap32_of_range (x : Int) (h1 : -2147483648 ≤ x) (h2 : x < 2147483648) :
    wrap32 x = x := by
  unfold wrap32
  omega

/-- More fuel does not change the result of a run that ended. -/
theorem APEX_cpu_run_mono (fuel : Nat) : ∀ (cpu t : APEX_CPU), APEX_cpu_run fuel cpu = some t →
    ∀ fuel2, fuel ≤ fuel2 → APEX_cpu_run fuel2 cpu = some t := by
  induction fuel with
  | zero =>
    intro cpu t h fuel2 _
    have hf : finished cpu := by
      by_contra hf
      simp [APEX_cpu_run, hf] at h
    cases fuel2 <;> simpa [APEX_cpu_run, hf] using h
  | succ n ih =>
    intro cpu t h fuel2 hle
    obtain ⟨m, rfl⟩ : ∃ m, fuel2 = m + 1 := ⟨fuel2 - 1, by omega⟩
    by_cases hf : finished cpu
    · simpa [APEX_cpu_run, hf] using h
    · simp only [APEX_cpu_run, hf, if_false] at h ⊢
      exact ih _ _ h m (by omega)

set_option maxRecDepth 100000 in
/-- The scenario of `prog_add` at the point chosen against it; every part is
checked by running the embedding, whose control flow does not look at the
immediates or at the contents past the end of code memory. -/
theorem add_scenario_generic : add_scenario (Classical.epsilon (fun t => ¬ add_scenario t)) :=
  ⟨rfl, rfl, rfl, by decide, rfl, rfl, rfl, rfl, rfl, rfl, by decide, by decide, rfl, rfl, rfl,
   rfl, rfl⟩

/-- C1. For all immediates `a`, `b` (and whatever lies past the end of code
memory), the run of `[MOVC R1,#a; MOVC R2,#b; ADD R3,R1,R2; HALT]` from the
initial state ends after exactly 14 iterations, the last of which commits the
HALT in Writeback; then `R1 = a`, `R2 = b`, `R3` is the 32-bit sum of `a` and
`b` (which is `a + b` when that is representable), and the scoreboard entries
of the three registers are 1 (Valid).  The ADD sits in Decode from cycle 3 to
cycle 7 while fewer than two instructions have committed, and it enters
Execute-1 unstalled only in the iteration whose Writeback commits the second
MOVC, carrying the operand values `a` and `b`. -/
theorem C1_add_scenario (a b : Int) (beyond : Int → APEX_Instruction) :
    (∀ fuel, 14 ≤ fuel →
        APEX_cpu_run fuel (APEX_cpu_init (prog_add a b) beyond) = some (run_add a b beyond 14))
    ∧ APEX_cpu_run 13 (APEX_cpu_init (prog_add a b) beyond) = none
    ∧ (run_add a b beyond 13).WB.opcode = Opcode.HALT
    ∧ wb_commits (run_add a b beyond 13)
    ∧ (run_add a b beyond 14).regs 1 = a
    ∧ (run_add a b beyond 14).regs 2 = b
    ∧ (run_add a b beyond 14).regs 3 = wrap32 (a + b)
    ∧ (-2147483648 ≤ a + b → a + b < 2147483648 → (run_add a b beyond 14).regs 3 = a + b)
    ∧ (run_add a b beyond 14).regs_valid 1 = 1
    ∧ (run_add a b beyond 14).regs_valid 2 = 1
    ∧ (run_add a b beyond 14).regs_valid 3 = 1
    ∧ (∀ k, k ≤ 7 → 3 ≤ k →
        (run_add a b beyond k).DRF.opcode = Opcode.ADD ∧ (run_add a b beyond k).ins_completed < 2)
    ∧ (∀ k, k ≤ 14 → (run_add a b beyond k).EX1.opcode = Opcode.ADD →
        (run_add a b beyond k).EX1.stalled = 0 → k = 8)
    ∧ (writeback (run_add a b beyond 7)).ins_completed = 2
    ∧ (run_add a b beyond 8).EX1.opcode = Opcode.ADD
    ∧ (run_add a b beyond 8).EX1.stalled = 0
    ∧ (run_add a b beyond 8).EX1.rs1_value = a
    ∧ (run_add a b beyond 8).EX1.rs2_value = b := by
  have h := forall_of_generic add_scenario add_scenario_generic (a, b, beyond)
  simp only [add_scenario] at h
  obtain ⟨h1, h2, h3, h4, h5, h6, h7, h8, h9, h10, h11, h12, h13, h14, h15, h16, h17⟩ := h
  refine ⟨fun fuel hf => APEX_cpu_run_mono 14 _ _ h1 fuel hf, h2, h3, h4, h5, h6, h7, ?_, h8, h9,
    h10, h11, h12, h13, h14, h15, h16, h17⟩
  intro hlo hhi
  rw [h7, wrap32_of_range _ hlo hhi]

/-- Witness of C1: `a = 5`, `b = 10` with no code past the end gives `R3 = 15`. -/
theorem C1_add_scenario_witness :
    (run_add 5 10 no_code 14).regs 3 = 15
    ∧ APEX_cpu_run 14 (APEX_cpu_init (prog_add 5 10) no_code) = some (run_add 5 10 no_code 14) :=
  ⟨(C1_add_scenario 5 10 no_code).2.2.2.2.2.2.2.1 (by decide) (by decide),
   (C1_add_scenario 5 10 no_code).1 14 (by decide)⟩

/-- Memory-1 leaves `ins_completed` and code memory alone. -/
theorem memory1_frame (cpu : APEX_CPU) :
    (memory1 cpu).ins_completed = cpu.ins_completed ∧ (memory1 cpu).code_memory = cpu.code_memory := by
  unfold memory1
  split_ifs <;> simp

/-- Execute-2 leaves `ins_completed` and code memory alone. -/
theorem execute2_frame (cpu : APEX_CPU) :
    (execute2 cpu).ins_completed = cpu.ins_completed ∧ (execute2 cpu).code_memory = cpu.code_memory := by
  unfold execute2
  split_ifs <;> simp

/-- No opcode block of Execute-1 touches `ins_completed` or code memory. -/
theorem execute1_opcode_frame (cpu : APEX_CPU) :
    (execute1_opcode cpu).ins_completed = cpu.ins_completed
    ∧ (execute1_opcode cpu).code_memory = cpu.code_memory := by
  unfold execute1_opcode execute1_mul
  split <;> (try split_ifs) <;> simp

/-- Execute-1 leaves `ins_completed` and code memory alone. -/
theorem execute1_frame (cpu : APEX_CPU) :
    (execute1 cpu).ins_completed = cpu.ins_completed ∧ (execute1 cpu).code_memory = cpu.code_memory := by
  unfold execute1
  split_ifs <;> simp [execute1_opcode_frame]

/-- No opcode block of Decode touches `ins_completed` or code memory. -/
theorem decode_opcode_frame (cpu : APEX_CPU) :
    (decode_opcode cpu).ins_completed = cpu.ins_completed
    ∧ (decode_opcode cpu).code_memory = cpu.code_memory := by
  unfold decode_opcode
  split <;> (try split_ifs) <;> simp

/-- The opening statement of Decode leaves `ins_completed` and code memory alone. -/
theorem decode_unstall_frame (cpu : APEX_CPU) :
    (decode_unstall cpu).ins_completed = cpu.ins_completed
    ∧ (decode_unstall cpu).code_memory = cpu.code_memory := by
  unfold decode_unstall
  split_ifs <;> simp

/-- Decode leaves `ins_completed` and code memory alone. -/
theorem decode_frame (cpu : APEX_CPU) :
    (decode cpu).ins_completed = cpu.ins_completed ∧ (decode cpu).code_memory = cpu.code_memory := by
  unfold decode
  split_ifs <;> simp [decode_opcode_frame, decode_unstall_frame]

/-- Fetch leaves `ins_completed` and code memory alone. -/
theorem fetch_frame (cpu : APEX_CPU) :
    (fetch cpu).ins_completed = cpu.ins_completed ∧ (fetch cpu).code_memory = cpu.code_memory := by
  unfold fetch
  split_ifs <;> simp

/-- Memory-2 leaves code memory alone. -/
theorem memory2_code_memory (cpu : APEX_CPU) : (memory2 cpu).code_memory = cpu.code_memory := by
  unfold memory2 memory2_opcode memory2_taken adjust_ins_completed
  split_ifs <;> (try split) <;> (try dsimp only) <;> (try split_ifs) <;> simp

/-- Writeback leaves code memory alone. -/
theorem writeback_code_memory (cpu : APEX_CPU) : (writeback cpu).code_memory = cpu.code_memory := by
  unfold writeback writeback_opcode
  split_ifs <;> (try split) <;> simp

/-- Only Writeback and Memory-2 touch `ins_completed`. -/
theorem cycle_ins_completed (cpu : APEX_CPU) :
    (cycle cpu).ins_completed = (memory2 (writeback cpu)).ins_completed := by
  unfold cycle
  rw [inc_clock_ins_completed, (fetch_frame _).1, (decode_frame _).1, (execute1_frame _).1,
    (execute2_frame _).1, (memory1_frame _).1]

/-- No stage changes code memory. -/
theorem cycle_code_memory (cpu : APEX_CPU) : (cycle cpu).code_memory = cpu.code_memory := by
  unfold cycle
  rw [inc_clock_code_memory, (fetch_frame _).2, (decode_frame _).2, (execute1_frame _).2,
    (execute2_frame _).2, (memory1_frame _).2, memory2_code_memory, writeback_code_memory]

/-- The instruction count is constant along a run. -/
theorem cycle_code_memory_size (cpu : APEX_CPU) :
    code_memory_size (cycle cpu) = code_memory_size cpu := by
  unfold code_memory_size
  rw [cycle_code_memory]

/-- A state that passes the termination test is returned at once. -/
theorem APEX_cpu_run_of_finished (cpu : APEX_CPU) (h : finished cpu) (fuel : Nat) :
    APEX_cpu_run fuel cpu = some cpu := by
  cases fuel <;> simp [APEX_cpu_run, h]

/-- A HALT that Writeback commits ends the iteration with `ins_completed`
equal to `code_memory_size`. -/
theorem C5_halt_in_writeback_aux (cpu : APEX_CPU) (hop : cpu.WB.opcode = Opcode.HALT)
    (hb : cpu.WB.busy = 0) (hs : cpu.WB.stalled = 0) (hn : cpu.WB.nop = 0) :
    (cycle cpu).ins_completed = code_memory_size cpu
    ∧ code_memory_size (cycle cpu) = code_memory_size cpu
    ∧ ∀ fuel, APEX_cpu_run fuel (cycle cpu) = some (cycle cpu) := by
  have hw : writeback cpu = inc_ins_completed (writeback_halt cpu) := by
    simp [writeback, wb_commits, writeback_opcode, hop, hb, hs, hn]
  have hm : memory2 (writeback cpu) = copy_MEM2_WB (writeback cpu) := by
    rw [hw]
    unfold memory2
    simp
  have h1 : (cycle cpu).ins_completed = code_memory_size cpu := by
    rw [cycle_ins_completed, hm, hw]
    simp
  refine ⟨h1, cycle_code_memory_size cpu, fun fuel => APEX_cpu_run_of_finished _ ?_ fuel⟩
  unfold finished
  rw [h1, cycle_code_memory_size]


/-- C5. In every state whose Writeback latch holds a HALT that is not busy,
not stalled and not a bubble, one iteration of the driver ends with
`ins_completed` equal to `code_memory_size`, whatever the counter was before
and whatever the other latches hold, so the termination test that follows
stops the run. -/
theorem C5_halt_in_writeback (cpu : APEX_CPU) (hop : cpu.WB.opcode = Opcode.HALT)
    (hb : cpu.WB.busy = 0) (hs : cpu.WB.stalled = 0) (hn : cpu.WB.nop = 0) :
    (cycle cpu).ins_completed = code_memory_size cpu
    ∧ code_memory_size (cycle cpu) = code_memory_size cpu
    ∧ ∀ fuel, APEX_cpu_run fuel (cycle cpu) = some (cycle cpu) :=
  C5_halt_in_writeback_aux cpu hop hb hs hn

set_option maxRecDepth 100000 in
/-- Witness of C5: the state of `prog_add 5 10` after 13 cycles holds the HALT
in Writeback. -/
theorem C5_halt_in_writeback_witness :
    (run_add 5 10 no_code 13).WB.opcode = Opcode.HALT
    ∧ (cycle (run_add 5 10 no_code 13)).ins_completed = code_memory_size (run_add 5 10 no_code 13) :=
  ⟨rfl, (C5_halt_in_writeback (run_add 5 10 no_code 13) rfl rfl rfl rfl).1⟩

set_option maxRecDepth 100000 in
/-- The scenario of `prog_mul` at the point chosen against it, checked by
running the embedding. -/
theorem mul_scenario_generic : mul_scenario (Classical.epsilon (fun t => ¬ mul_scenario t)) :=
  ⟨rfl, rfl, rfl, rfl, rfl, rfl, rfl, by decide, by decide, by decide, rfl, rfl, rfl, rfl, rfl,
   rfl, rfl, rfl, rfl, rfl, by decide⟩

/-- C9. For all immediates `a`, `b` (and whatever lies past the end of code
memory), the run of `[MOVC R1,#a; MOVC R2,#b; MUL R3,R1,R2; HALT]` ends after
exactly 15 iterations (clock 15) with `R3` the 32-bit product of `a` and `b`
(`a * b` when representable), one iteration more than the 14 (clock 14) of
the same program with ADD.  Execute-1 holds the MUL unblocked in exactly two
of the states between iterations, those after 8 and after 9 cycles.
`execute1` leaves Fetch and Decode busy and stalled in the iteration that
follows cycle 8 and in no other, and over that iteration the program counter
and the instructions held by Decode and Execute-1 do not move; in the ADD run
Fetch and Decode are never busy after cycle 0. -/
theorem C9_mul_scenario (a b : Int) (beyond : Int → APEX_Instruction) :
    (∀ fuel, 15 ≤ fuel →
        APEX_cpu_run fuel (APEX_cpu_init (prog_mul a b) beyond) = some (run_mul a b beyond 15))
    ∧ APEX_cpu_run 14 (APEX_cpu_init (prog_mul a b) beyond) = none
    ∧ (∀ fuel, 14 ≤ fuel →
        APEX_cpu_run fuel (APEX_cpu_init (prog_add a b) beyond) = some (run_add a b beyond 14))
    ∧ APEX_cpu_run 13 (APEX_cpu_init (prog_add a b) beyond) = none
    ∧ (run_mul a b beyond 15).clock = 15
    ∧ (run_add a b beyond 14).clock = 14
    ∧ (run_mul a b beyond 15).regs 3 = wrap32 (a * b)
    ∧ (-2147483648 ≤ a * b → a * b < 2147483648 → (run_mul a b beyond 15).regs 3 = a * b)
    ∧ (∀ k, k ≤ 15 →
        ((run_mul a b beyond k).EX1.opcode = Opcode.MUL ∧ (run_mul a b beyond k).EX1.busy = 0
          ∧ (run_mul a b beyond k).EX1.stalled = 0 ↔ k = 8 ∨ k = 9))
    ∧ (∀ k, k ≤ 14 → ((after_execute1 (run_mul a b beyond k)).F.busy ≠ 0 ↔ k = 8))
    ∧ (∀ k, k ≤ 14 → 1 ≤ k → ((after_execute1 (run_mul a b beyond k)).DRF.busy ≠ 0 ↔ k = 8))
    ∧ (after_execute1 (run_mul a b beyond 8)).F.busy = 1
    ∧ (after_execute1 (run_mul a b beyond 8)).F.stalled = 1
    ∧ (after_execute1 (run_mul a b beyond 8)).DRF.busy = 1
    ∧ (after_execute1 (run_mul a b beyond 8)).DRF.stalled = 1
    ∧ (run_mul a b beyond 8).pc = 4016
    ∧ (run_mul a b beyond 9).pc = 4016
    ∧ (run_mul a b beyond 8).DRF.opcode = Opcode.HALT
    ∧ (run_mul a b beyond 9).DRF.opcode = Opcode.HALT
    ∧ (run_mul a b beyond 8).EX1.pc = 4008
    ∧ (run_mul a b beyond 9).EX1.pc = 4008
    ∧ (∀ k, k ≤ 13 → 1 ≤ k →
        (after_execute1 (run_add a b beyond k)).F.busy = 0
        ∧ (after_execute1 (run_add a b beyond k)).DRF.busy = 0) := by
  have h := forall_of_generic mul_scenario mul_scenario_generic (a, b, beyond)
  simp only [mul_scenario] at h
  obtain ⟨h1, h2, h3, h4, h5, h5b, h6, h7, h8, h9, h10, h11, h12, h13, h14, h14b, h15, h16, h17,
    h17b, h18⟩ := h
  refine ⟨fun fuel hf => APEX_cpu_run_mono 15 _ _ h1 fuel hf, h2,
    fun fuel hf => APEX_cpu_run_mono 14 _ _ h3 fuel hf, h4, h5, h5b, h6, ?_, h7, h8, h9, h10, h11,
    h12, h13, h14, h14b, h15, h16, h17, h17b, h18⟩
  intro hlo hhi
  rw [h6, wrap32_of_range _ hlo hhi]

/-- Witness of C9: `a = 3`, `b = 4` with no code past the end gives `R3 = 12`. -/
theorem C9_mul_scenario_witness :
    (run_mul 3 4 no_code 15).regs 3 = 12
    ∧ APEX_cpu_run 15 (APEX_cpu_init (prog_mul 3 4) no_code) = some (run_mul 3 4 no_code 15) :=
  ⟨(C9_mul_scenario 3 4 no_code).2.2.2.2.2.2.2.1 (by decide) (by decide),
   (C9_mul_scenario 3 4 no_code).1 15 (by decide)⟩

set_option maxRecDepth 100000 in
/-- C2 (the code at the failing input). The pipelined run of
`[MOVC R1,#1; MOVC R1,#2; ADD R2,R1,R1; HALT]` ends after 10 iterations with
`R2 = 0`: when Decode reads `R1` for the ADD (cycle 3) the scoreboard entry of
`R1` is -1, which the readiness test takes for ready, and `regs[1]` is still
0.  The sequential reading of the same program gives `R2 = 4`. -/
theorem C2_pipeline_differs_from_sequential :
    APEX_cpu_run 10 (APEX_cpu_init prog_waw no_code)
      = some (cycles 10 (APEX_cpu_init prog_waw no_code))
    ∧ (cycles 10 (APEX_cpu_init prog_waw no_code)).regs 2 = 0
    ∧ (spec_seq_eval prog_waw spec_seq_init).regs 2 = 4
    ∧ (cycles 3 (APEX_cpu_init prog_waw no_code)).DRF.opcode = Opcode.ADD
    ∧ (cycles 3 (APEX_cpu_init prog_waw no_code)).regs_valid 1 = -1
    ∧ (cycles 3 (APEX_cpu_init prog_waw no_code)).regs 1 = 0
    ∧ (cycles 4 (APEX_cpu_init prog_waw no_code)).EX1.opcode = Opcode.ADD
    ∧ (cycles 4 (APEX_cpu_init prog_waw no_code)).EX1.stalled = 0
    ∧ (cycles 4 (APEX_cpu_init prog_waw no_code)).EX1.rs1_value = 0 :=
  ⟨rfl, rfl, rfl, rfl, rfl, rfl, rfl, rfl, rfl⟩

set_option maxRecDepth 100000 in
/-- C4 (the code at the failing input). Three cycles into the run of
`[MOVC R1,#1; MOVC R1,#2; ADD R2,R1,R1; HALT]` from the initial state, Decode
has claimed `R1` twice and nothing has released it: `regs_valid[1] = -1`. -/
theorem C4_regs_valid_negative :
    (cycles 3 (APEX_cpu_init prog_waw no_code)).regs_valid 1 = -1
    ∧ (cycles 3 (APEX_cpu_init prog_waw no_code)).regs_valid 1 < 0
    ∧ (cycles 3 (APEX_cpu_init prog_waw no_code)).ins_completed = 0 :=
  ⟨rfl, by decide, rfl⟩

set_option maxRecDepth 100000 in
/-- C6 (the code at the failing input). In the run of
`[MOVC R1,#1; MOVC R2,#2; MOVC R4,#4; HALT; MOVC R3,#3]` Decode processes the
HALT in cycle 4 (Execute-1 holds it after 5 cycles).  After 7 cycles the
Decode latch holds the instruction at 4016, the `MOVC R3,#3` behind the HALT;
after 8 cycles that instruction is in Execute-1 and has claimed `R3`
(`regs_valid[3] = 0`); the run ends after 10 iterations with `R3` still
claimed and never written. -/
theorem C6_instruction_behind_halt_decoded :
    (cycles 4 (APEX_cpu_init prog_halt_mid no_code)).DRF.opcode = Opcode.HALT
    ∧ (cycles 5 (APEX_cpu_init prog_halt_mid no_code)).EX1.opcode = Opcode.HALT
    ∧ (cycles 6 (APEX_cpu_init prog_halt_mid no_code)).DRF.opcode = Opcode.EMPTY
    ∧ (cycles 7 (APEX_cpu_init prog_halt_mid no_code)).DRF.opcode = Opcode.MOVC
    ∧ (cycles 7 (APEX_cpu_init prog_halt_mid no_code)).DRF.pc = 4016
    ∧ (cycles 7 (APEX_cpu_init prog_halt_mid no_code)).DRF.rd = 3
    ∧ (cycles 7 (APEX_cpu_init prog_halt_mid no_code)).regs_valid 3 = 1
    ∧ (cycles 8 (APEX_cpu_init prog_halt_mid no_code)).EX1.pc = 4016
    ∧ (cycles 8 (APEX_cpu_init prog_halt_mid no_code)).regs_valid 3 = 0
    ∧ APEX_cpu_run 10 (APEX_cpu_init prog_halt_mid no_code)
        = some (cycles 10 (APEX_cpu_init prog_halt_mid no_code))
    ∧ APEX_cpu_run 9 (APEX_cpu_init prog_halt_mid no_code) = none
    ∧ (cycles 10 (APEX_cpu_init prog_halt_mid no_code)).regs_valid 3 = 0
    ∧ (cycles 10 (APEX_cpu_init prog_halt_mid no_code)).regs 3 = 0 :=
  ⟨rfl, rfl, rfl, rfl, rfl, rfl, rfl, rfl, rfl, rfl, rfl, rfl, rfl⟩

set_option maxRecDepth 100000 in
/-- C7 (the code at the failing input). In the run of
`[SUB R1,R0,R0; BZ #16; MOVC R2,#1; MOVC R3,#2; MOVC R4,#3; HALT]` the BZ at
4004 is in Memory-2 after 6 cycles with target 4020, and is resolved as taken
in the next iteration (`memory2` sets `pc` to 4020).
At that point the instructions fetched behind it are in Memory-1 (4008),
Execute-2 (4012), Execute-1 (4016) and Decode (4020).  Only Memory-1 and
Decode are emptied: `MOVC R3,#2` and `MOVC R4,#3` go on, commit, and the run
ends after 13 iterations with `R3 = 2` and `R4 = 3`, while `R2` stays 0. -/
theorem C7_taken_branch_leaves_two_in_flight :
    (cycles 6 (APEX_cpu_init prog_taken no_code)).MEM2.opcode = Opcode.BZ
    ∧ (cycles 6 (APEX_cpu_init prog_taken no_code)).MEM2.pc = 4004
    ∧ (cycles 6 (APEX_cpu_init prog_taken no_code)).MEM2.mem_address = 4020
    ∧ (cycles 6 (APEX_cpu_init prog_taken no_code)).MEM1.pc = 4008
    ∧ (cycles 6 (APEX_cpu_init prog_taken no_code)).EX2.pc = 4012
    ∧ (cycles 6 (APEX_cpu_init prog_taken no_code)).EX1.pc = 4016
    ∧ (cycles 6 (APEX_cpu_init prog_taken no_code)).DRF.pc = 4020
    ∧ (memory2 (writeback (cycles 6 (APEX_cpu_init prog_taken no_code)))).pc = 4020
    ∧ (cycles 7 (APEX_cpu_init prog_taken no_code)).MEM2.opcode = Opcode.EMPTY
    ∧ (cycles 7 (APEX_cpu_init prog_taken no_code)).MEM1.opcode = Opcode.MOVC
    ∧ (cycles 7 (APEX_cpu_init prog_taken no_code)).MEM1.pc = 4012
    ∧ (cycles 7 (APEX_cpu_init prog_taken no_code)).EX2.opcode = Opcode.MOVC
    ∧ (cycles 7 (APEX_cpu_init prog_taken no_code)).EX2.pc = 4016
    ∧ (cycles 9 (APEX_cpu_init prog_taken no_code)).WB.pc = 4012
    ∧ wb_commits (cycles 9 (APEX_cpu_init prog_taken no_code))
    ∧ (cycles 10 (APEX_cpu_init prog_taken no_code)).WB.pc = 4016
    ∧ wb_commits (cycles 10 (APEX_cpu_init prog_taken no_code))
    ∧ APEX_cpu_run 13 (APEX_cpu_init prog_taken no_code)
        = some (cycles 13 (APEX_cpu_init prog_taken no_code))
    ∧ (cycles 13 (APEX_cpu_init prog_taken no_code)).regs 2 = 0
    ∧ (cycles 13 (APEX_cpu_init prog_taken no_code)).regs 3 = 2
    ∧ (cycles 13 (APEX_cpu_init prog_taken no_code)).regs 4 = 3 :=
  ⟨rfl, rfl, rfl, rfl, rfl, rfl, rfl, rfl, rfl, rfl, rfl, rfl, rfl, rfl, by decide, rfl, by decide,
   rfl, rfl, rfl, rfl⟩

set_option maxRecDepth 100000 in
/-- Counterexample to C10. The run of `[HALT; MOVC R1,#1; MOVC R2,#2]` ends
after 7 iterations with `ins_completed = 3`, although Writeback committed a
single instruction, the HALT, which stands at position 0. -/
theorem C10_counter_is_not_commit_count :
    APEX_cpu_run 7 (APEX_cpu_init prog_halt_first no_code)
      = some (cycles 7 (APEX_cpu_init prog_halt_first no_code))
    ∧ (cycles 7 (APEX_cpu_init prog_halt_first no_code)).ins_completed = 3
    ∧ commit_count 7 (APEX_cpu_init prog_halt_first no_code) = 1
    ∧ (cycles 6 (APEX_cpu_init prog_halt_first no_code)).WB.opcode = Opcode.HALT
    ∧ (cycles 6 (APEX_cpu_init prog_halt_first no_code)).WB.pc = 4000 :=
  ⟨rfl, rfl, rfl, rfl, rfl⟩

/-- `cycles` unfolds at the last iteration. -/
theorem cycles_succ (k : Nat) : ∀ cpu : APEX_CPU, cycles (k + 1) cpu = cycle (cycles k cpu) := by
  induction k with
  | zero => intro cpu; rfl
  | succ n ih =>
    intro cpu
    show cycles (n + 1) (cycle cpu) = cycle (cycles n (cycle cpu))
    exact ih (cycle cpu)

/-- The instruction count is the same in every state of a run. -/
theorem cycles_code_memory_size (k : Nat) :
    ∀ cpu : APEX_CPU, code_memory_size (cycles k cpu) = code_memory_size cpu := by
  induction k with
  | zero => intro cpu; rfl
  | succ n ih =>
    intro cpu
    show code_memory_size (cycles n (cycle cpu)) = code_memory_size cpu
    rw [ih, cycle_code_memory_size]

/-- A run that ends returns a state that is reached by iterating the loop
body and that passes the termination test. -/
theorem APEX_cpu_run_some (fuel : Nat) : ∀ (cpu s : APEX_CPU), APEX_cpu_run fuel cpu = some s →
    ∃ k, k ≤ fuel ∧ s = cycles k cpu ∧ finished s := by
  induction fuel with
  | zero =>
    intro cpu s h
    by_cases hf : finished cpu
    · simp only [APEX_cpu_run, hf, if_true, Option.some.injEq] at h
      exact ⟨0, le_refl _, h.symm, h ▸ hf⟩
    · simp [APEX_cpu_run, hf] at h
  | succ n ih =>
    intro cpu s h
    by_cases hf : finished cpu
    · simp only [APEX_cpu_run, hf, if_true, Option.some.injEq] at h
      exact ⟨0, Nat.zero_le _, h.symm, h ▸ hf⟩
    · simp only [APEX_cpu_run, hf, if_false] at h
      obtain ⟨k, hk, hs, hfin⟩ := ih _ _ h
      exact ⟨k + 1, by omega, hs, hfin⟩

/-- Writeback, when it does not commit a HALT, adds one to `ins_completed`
exactly when it commits, and leaves the Memory-2 latch alone. -/
theorem writeback_no_halt (cpu : APEX_CPU) (h : ¬ commits_halt cpu) :
    (writeback cpu).ins_completed = cpu.ins_completed + (if wb_commits cpu then 1 else 0)
    ∧ (writeback cpu).MEM2 = cpu.MEM2 := by
  unfold writeback
  by_cases hc : wb_commits cpu
  · have hop : cpu.WB.opcode ≠ Opcode.HALT := fun e => h ⟨hc, e⟩
    simp only [hc, if_true]
    unfold writeback_opcode
    split <;> simp_all
  · simp [hc]

/-- Memory-2 changes `ins_completed` only when it resolves a taken branch. -/
theorem memory2_no_branch (cpu : APEX_CPU) (h : ¬ takes_branch cpu) :
    (memory2 cpu).ins_completed = cpu.ins_completed := by
  unfold memory2
  split_ifs with hc
  · unfold memory2_opcode
    split
    · simp
    · simp
    · simp
    · simp
    · split_ifs with ha
      · exact absurd ⟨hc.1, hc.2.1, hc.2.2, Or.inl (by assumption), ha⟩ h
      · simp
    · split_ifs with ha
      · exact absurd ⟨hc.1, hc.2.1, hc.2.2, Or.inr (by assumption), ha⟩ h
      · simp
    · simp
    · simp
  · simp

/-- An iteration without a HALT commit and without a taken branch adds one to
`ins_completed` exactly when its Writeback commits. -/
theorem cycle_counts_commit (cpu : APEX_CPU) (hh : ¬ commits_halt cpu) (hb : ¬ takes_branch cpu) :
    (cycle cpu).ins_completed = cpu.ins_completed + (if wb_commits cpu then 1 else 0) := by
  have hw := writeback_no_halt cpu hh
  have hb2 : ¬ takes_branch (writeback cpu) := by
    unfold takes_branch at hb ⊢
    rw [hw.2]
    exact hb
  rw [cycle_ins_completed, memory2_no_branch _ hb2, hw.1]

/-- Along a run without a HALT commit and without a taken branch,
`ins_completed` grows by the number of Writeback commits. -/
theorem cycles_count_commits (k : Nat) : ∀ cpu : APEX_CPU,
    (∀ j, j < k → ¬ commits_halt (cycles j cpu)) → (∀ j, j < k → ¬ takes_branch (cycles j cpu)) →
    (cycles k cpu).ins_completed = cpu.ins_completed + (commit_count k cpu : Int) := by
  induction k with
  | zero => intro cpu _ _; simp [cycles, commit_count]
  | succ n ih =>
    intro cpu hh hb
    have h0 := cycle_counts_commit cpu (hh 0 (Nat.succ_pos n)) (hb 0 (Nat.succ_pos n))
    have hrec := ih (cycle cpu) (fun j hj => hh (j + 1) (by omega))
      (fun j hj => hb (j + 1) (by omega))
    show (cycles n (cycle cpu)).ins_completed = _
    have hc : commit_count (n + 1) cpu
        = (if wb_commits cpu then 1 else 0) + commit_count n (cycle cpu) := rfl
    rw [hrec, h0, hc]
    split_ifs <;> push_cast <;> ring

/-- C10, amended. Along every run from every state: as long as no HALT has
committed in Writeback and no taken branch has been resolved in Memory-2,
`ins_completed` has grown by exactly the number of Writeback commits; the
iteration in which a HALT commits sets it to `code_memory_size`, whatever was
committed before; and every run that ends leaves it equal to
`code_memory_size`. -/
theorem C10_counter_and_commits (cpu : APEX_CPU) (k : Nat)
    (hb : ∀ j, j < k → ¬ takes_branch (cycles j cpu)) :
    ((∀ j, j < k → ¬ commits_halt (cycles j cpu)) →
        (cycles k cpu).ins_completed = cpu.ins_completed + (commit_count k cpu : Int))
    ∧ (∀ j, commits_halt (cycles j cpu) →
        (cycles (j + 1) cpu).ins_completed = code_memory_size cpu)
    ∧ (∀ fuel s, APEX_cpu_run fuel cpu = some s → s.ins_completed = code_memory_size cpu) := by
  refine ⟨fun hh => cycles_count_commits k cpu hh hb, ?_, ?_⟩
  · intro j hj
    rw [cycles_succ, (C5_halt_in_writeback_aux (cycles j cpu) hj.2 hj.1.1 hj.1.2.1 hj.1.2.2.1).1,
      cycles_code_memory_size]
  · intro fuel s h
    obtain ⟨m, _, hs, hfin⟩ := APEX_cpu_run_some fuel cpu s h
    unfold finished at hfin
    rw [hfin, hs, cycles_code_memory_size]

set_option maxRecDepth 100000 in
/-- Witness of C10: the first 13 cycles of `prog_add 5 10` resolve no branch
and commit no HALT, and `ins_completed = 3` counts the three commits. -/
theorem C10_counter_and_commits_witness :
    (cycles 13 (APEX_cpu_init (prog_add 5 10) no_code)).ins_completed
      = (APEX_cpu_init (prog_add 5 10) no_code).ins_completed
        + (commit_count 13 (APEX_cpu_init (prog_add 5 10) no_code) : Int)
    ∧ commit_count 13 (APEX_cpu_init (prog_add 5 10) no_code) = 3 :=
  ⟨(C10_counter_and_commits (APEX_cpu_init (prog_add 5 10) no_code) 13 (by decide)).1 (by decide),
   rfl⟩

/-- Fetch leaves the latches from Execute-1 on, the flags of its own latch and
the clock alone. -/
theorem fetch_keeps (cpu : APEX_CPU) :
    (fetch cpu).WB = cpu.WB ∧ (fetch cpu).MEM2 = cpu.MEM2 ∧ (fetch cpu).MEM1 = cpu.MEM1
    ∧ (fetch cpu).EX2 = cpu.EX2 ∧ (fetch cpu).EX1 = cpu.EX1
    ∧ (fetch cpu).F.busy = cpu.F.busy ∧ (fetch cpu).F.stalled = cpu.F.stalled
    ∧ (fetch cpu).F.nop = cpu.F.nop ∧ (fetch cpu).clock = cpu.clock := by
  unfold fetch
  split_ifs <;> simp

/-- Fetch hands the instruction at `pc` to Decode when neither stage is blocked. -/
theorem fetch_advances (cpu : APEX_CPU) (hb : cpu.F.busy = 0) (hs : cpu.F.stalled = 0)
    (hd : cpu.DRF.stalled = 0) :
    (fetch cpu).pc = cpu.pc + 4
    ∧ ctl (fetch cpu).DRF = ((code_at cpu (get_code_index cpu.pc)).opcode, 0, 0, cpu.F.nop) := by
  unfold fetch ctl
  simp [hb, hs, hd]

/-- Fetch leaves the Decode latch alone when its own latch is stalled. -/
theorem fetch_blocked (cpu : APEX_CPU) (hs : cpu.F.stalled ≠ 0) : (fetch cpu).DRF = cpu.DRF := by
  unfold fetch
  split_ifs <;> simp_all

/-- No opcode block of Decode touches the latches from Execute-2 on, `pc`,
the clock, or the opcode, `busy` and `nop` of the Fetch and Decode latches. -/
theorem decode_opcode_keeps (cpu : APEX_CPU) :
    (decode_opcode cpu).WB = cpu.WB ∧ (decode_opcode cpu).MEM2 = cpu.MEM2
    ∧ (decode_opcode cpu).MEM1 = cpu.MEM1 ∧ (decode_opcode cpu).EX2 = cpu.EX2
    ∧ (decode_opcode cpu).pc = cpu.pc ∧ (decode_opcode cpu).F.busy = cpu.F.busy
    ∧ (decode_opcode cpu).F.nop = cpu.F.nop ∧ (decode_opcode cpu).clock = cpu.clock
    ∧ (decode_opcode cpu).DRF.opcode = cpu.DRF.opcode ∧ (decode_opcode cpu).DRF.busy = cpu.DRF.busy
    ∧ (decode_opcode cpu).DRF.nop = cpu.DRF.nop := by
  unfold decode_opcode
  split <;> (try split_ifs) <;> simp

/-- The opening statement of Decode only clears the `stalled` flag of its latch. -/
theorem decode_unstall_keeps (cpu : APEX_CPU) :
    (decode_unstall cpu).WB = cpu.WB ∧ (decode_unstall cpu).MEM2 = cpu.MEM2
    ∧ (decode_unstall cpu).MEM1 = cpu.MEM1 ∧ (decode_unstall cpu).EX2 = cpu.EX2
    ∧ (decode_unstall cpu).EX1 = cpu.EX1 ∧ (decode_unstall cpu).F = cpu.F
    ∧ (decode_unstall cpu).pc = cpu.pc ∧ (decode_unstall cpu).clock = cpu.clock
    ∧ (decode_unstall cpu).DRF.opcode = cpu.DRF.opcode ∧ (decode_unstall cpu).DRF.busy = cpu.DRF.busy
    ∧ (decode_unstall cpu).DRF.nop = cpu.DRF.nop ∧ (decode_unstall cpu).DRF.stalled = 0 := by
  unfold decode_unstall
  split_ifs with h
  · simp
  · simp only [true_and]
    exact not_not.mp h

/-- Decode leaves the latches from Execute-2 on, `pc`, the clock and the
`busy` and `nop` flags of Fetch alone. -/
theorem decode_keeps (cpu : APEX_CPU) :
    (decode cpu).WB = cpu.WB ∧ (decode cpu).MEM2 = cpu.MEM2 ∧ (decode cpu).MEM1 = cpu.MEM1
    ∧ (decode cpu).EX2 = cpu.EX2 ∧ (decode cpu).pc = cpu.pc ∧ (decode cpu).F.busy = cpu.F.busy
    ∧ (decode cpu).F.nop = cpu.F.nop ∧ (decode cpu).clock = cpu.clock := by
  have hu := decode_unstall_keeps cpu
  have ho := decode_opcode_keeps (decode_unstall cpu)
  unfold decode
  split_ifs <;> simp [hu, ho]

/-- A busy Decode latch is not processed: it stays, Execute-1 keeps its latch,
and the `stalled` flag of Fetch stays. -/
theorem decode_busy (cpu : APEX_CPU) (hb : cpu.DRF.busy ≠ 0) :
    (decode cpu).EX1 = cpu.EX1 ∧ (decode cpu).DRF.busy = cpu.DRF.busy
    ∧ (decode cpu).F.stalled = cpu.F.stalled := by
  have hu := decode_unstall_keeps cpu
  unfold decode
  rw [hu.2.2.2.2.2.2.2.2.2.1]
  simp only [hb, false_and, if_false]
  split_ifs <;> simp [hu]

/-- The opcode block of a plain opcode in Decode leaves one `stalled` value, 0
or 1, on both the Fetch and the Decode latch (given both were 0 before). -/
theorem decode_opcode_plain (c : APEX_CPU) (hp : plain c.DRF.opcode = true)
    (hs : c.DRF.stalled = 0) (hf : c.F.stalled = 0) :
    (decode_opcode c).F.stalled = (decode_opcode c).DRF.stalled := by
  cases hop : c.DRF.opcode <;>
  first
  | (exfalso; simp [plain, hop] at hp; done)
  | (unfold decode_opcode; simp only [hop]; (try split_ifs) <;> simp [hs, hf])

/-- Decode of a plain opcode: the latch goes to Execute-1 with its opcode,
`busy` and `nop`; the `stalled` flag it gets is also the flag left on the
Decode latch and on the Fetch latch (given Fetch was not stalled). -/
theorem decode_plain (cpu : APEX_CPU) (hb : cpu.DRF.busy = 0) (hp : plain cpu.DRF.opcode = true)
    (hf : cpu.F.stalled = 0) :
    (decode cpu).EX1.opcode = cpu.DRF.opcode ∧ (decode cpu).EX1.busy = 0
    ∧ (decode cpu).EX1.nop = cpu.DRF.nop
    ∧ (decode cpu).EX1.stalled = (decode cpu).DRF.stalled
    ∧ (decode cpu).F.stalled = (decode cpu).DRF.stalled := by
  obtain ⟨-, -, -, -, -, huF, -, -, huo, hub, hun, hus⟩ := decode_unstall_keeps cpu
  have ho := decode_opcode_keeps (decode_unstall cpu)
  have hpl := decode_opcode_plain (decode_unstall cpu) (by rw [huo]; exact hp) hus
    (by rw [huF]; exact hf)
  unfold decode
  rw [hub, hus]
  simp only [hb, and_self, if_true]
  simp [ho, huo, hub, hun, hb, hpl]

/-- Decode of HALT: the latch goes to Execute-1 with its opcode and flags. -/
theorem decode_halt_ctl (cpu : APEX_CPU) (hb : cpu.DRF.busy = 0)
    (hp : cpu.DRF.opcode = Opcode.HALT) :
    ctl (decode cpu).EX1 = (Opcode.HALT, 0, 0, cpu.DRF.nop) := by
  obtain ⟨-, -, -, -, -, -, -, -, huo, hub, hun, hus⟩ := decode_unstall_keeps cpu
  have ho := decode_opcode_keeps (decode_unstall cpu)
  have hst : (decode_opcode (decode_unstall cpu)).DRF.stalled = 0 := by
    unfold decode_opcode
    simp [huo, hp, hus]
  unfold decode ctl
  rw [hub, hus]
  simp only [hb, and_self, if_true]
  simp [ho, huo, hub, hun, hb, hp, hst]



/-- No opcode block of Execute-1 touches the latches from Memory-1 on, the
clock, or the opcode, `busy` and `stalled` of its own latch. -/
theorem execute1_opcode_keeps (cpu : APEX_CPU) :
    (execute1_opcode cpu).WB = cpu.WB ∧ (execute1_opcode cpu).MEM2 = cpu.MEM2
    ∧ (execute1_opcode cpu).MEM1 = cpu.MEM1 ∧ (execute1_opcode cpu).clock = cpu.clock
    ∧ (execute1_opcode cpu).EX1.opcode = cpu.EX1.opcode
    ∧ (execute1_opcode cpu).EX1.busy = cpu.EX1.busy
    ∧ (execute1_opcode cpu).EX1.stalled = cpu.EX1.stalled := by
  unfold execute1_opcode execute1_mul
  split <;> (try split_ifs) <;> simp

/-- Execute-1 leaves the latches from Memory-1 on and the clock alone, and
hands its latch to Execute-2 with the same opcode, `busy` and `stalled`. -/
theorem execute1_keeps (cpu : APEX_CPU) :
    (execute1 cpu).WB = cpu.WB ∧ (execute1 cpu).MEM2 = cpu.MEM2
    ∧ (execute1 cpu).MEM1 = cpu.MEM1 ∧ (execute1 cpu).clock = cpu.clock
    ∧ (execute1 cpu).EX2.opcode = cpu.EX1.opcode ∧ (execute1 cpu).EX2.busy = cpu.EX1.busy
    ∧ (execute1 cpu).EX2.stalled = cpu.EX1.stalled := by
  have ho := execute1_opcode_keeps cpu
  unfold execute1
  split_ifs <;> simp [ho]

/-- On a plain opcode, or HALT, or a blocked latch, Execute-1 keeps the `nop`
flag of its latch. -/
theorem execute1_nop (cpu : APEX_CPU) (h : cpu.EX1.opcode ≠ Opcode.MUL ∨ cpu.EX1.busy ≠ 0) :
    (execute1 cpu).EX2.nop = cpu.EX1.nop := by
  unfold execute1
  split_ifs with hc
  · have hm : cpu.EX1.opcode ≠ Opcode.MUL := by
      rcases h with h | h
      · exact h
      · exact absurd hc.1 h
    unfold execute1_opcode
    split <;> (try split_ifs) <;> simp_all
  · simp

/-- On a plain opcode or a blocked latch, Execute-1 leaves Fetch, Decode and
`pc` alone. -/
theorem execute1_front (cpu : APEX_CPU) (h : plain cpu.EX1.opcode = true ∨ cpu.EX1.busy ≠ 0) :
    (execute1 cpu).F = cpu.F ∧ (execute1 cpu).DRF = cpu.DRF ∧ (execute1 cpu).pc = cpu.pc := by
  unfold execute1
  split_ifs with hc
  · have hp : plain cpu.EX1.opcode = true := by
      rcases h with h | h
      · exact h
      · exact absurd hc.1 h
    cases hop : cpu.EX1.opcode <;>
    first
    | (exfalso; simp [plain, hop] at hp; done)
    | (unfold execute1_opcode; simp only [hop]; simp)
  · simp

/-- Execute-2 copies its latch to Memory-1 and changes nothing else. -/
theorem execute2_eq (cpu : APEX_CPU) : execute2 cpu = copy_EX2_MEM1 cpu := by
  unfold execute2
  split_ifs <;> rfl

/-- Memory-1 copies its latch to Memory-2 and changes nothing else. -/
theorem memory1_eq (cpu : APEX_CPU) : memory1 cpu = copy_MEM1_MEM2 cpu := by
  unfold memory1
  split_ifs <;> rfl

/-- Memory-2 leaves Execute-1, Execute-2 and the clock alone and hands its
latch to Writeback with the same opcode and flags. -/
theorem memory2_keeps (cpu : APEX_CPU) :
    (memory2 cpu).EX1 = cpu.EX1 ∧ (memory2 cpu).EX2 = cpu.EX2 ∧ (memory2 cpu).clock = cpu.clock
    ∧ ctl (memory2 cpu).WB = ctl cpu.MEM2 := by
  unfold memory2 ctl
  split_ifs
  · unfold memory2_opcode memory2_taken adjust_ins_completed
    split <;> (try dsimp only) <;> (try split_ifs) <;> simp
  · simp

/-- On a plain opcode or a blocked latch, Memory-2 leaves Fetch, Decode,
Memory-1 and `pc` alone. -/
theorem memory2_front (cpu : APEX_CPU) (h : plain cpu.MEM2.opcode = true ∨ cpu.MEM2.busy ≠ 0) :
    (memory2 cpu).F = cpu.F ∧ (memory2 cpu).DRF = cpu.DRF ∧ (memory2 cpu).MEM1 = cpu.MEM1
    ∧ (memory2 cpu).pc = cpu.pc := by
  unfold memory2
  split_ifs with hc
  · have hp : plain cpu.MEM2.opcode = true := by
      rcases h with h | h
      · exact h
      · exact absurd hc.1 h
    cases hop : cpu.MEM2.opcode <;>
    first
    | (exfalso; simp [plain, hop] at hp; done)
    | (unfold memory2_opcode; simp only [hop]; simp)
  · simp

/-- Writeback leaves Execute-1, Memory-1, its own latch, `pc` and the clock alone. -/
theorem writeback_keeps (cpu : APEX_CPU) :
    (writeback cpu).EX1 = cpu.EX1 ∧ (writeback cpu).MEM1 = cpu.MEM1 ∧ (writeback cpu).WB = cpu.WB
    ∧ (writeback cpu).pc = cpu.pc ∧ (writeback cpu).clock = cpu.clock := by
  unfold writeback writeback_opcode
  split_ifs <;> (try split) <;> simp

/-- Clearing a `stalled` flag that is 0 changes nothing. -/
theorem stage_clear_stalled (L : CPU_Stage) (h : L.stalled = 0) :
    ({ L with stalled := 0 } : CPU_Stage) = L := by
  cases L
  simp_all

/-- The register-writing block of Writeback leaves Fetch and Decode alone if
they are not stalled. -/
theorem writeback_rd_front (cpu : APEX_CPU) :
    (cpu.F.stalled = 0 → (writeback_rd cpu).F = cpu.F)
    ∧ (cpu.DRF.stalled = 0 → (writeback_rd cpu).DRF = cpu.DRF) :=
  ⟨fun h => stage_clear_stalled cpu.F h, fun h => stage_clear_stalled cpu.DRF h⟩

/-- When Writeback does not commit a HALT, it leaves Execute-2 and Memory-2
alone, and Fetch and Decode too if neither is stalled. -/
theorem writeback_front (cpu : APEX_CPU) (h : ¬ commits_halt cpu) :
    (writeback cpu).EX2 = cpu.EX2 ∧ (writeback cpu).MEM2 = cpu.MEM2
    ∧ (cpu.F.stalled = 0 → (writeback cpu).F = cpu.F)
    ∧ (cpu.DRF.stalled = 0 → (writeback cpu).DRF = cpu.DRF) := by
  have hrd := writeback_rd_front cpu
  unfold writeback
  by_cases hc : wb_commits cpu
  · have hop : cpu.WB.opcode ≠ Opcode.HALT := fun e => h ⟨hc, e⟩
    simp only [hc, if_true]
    unfold writeback_opcode
    split <;> first
      | (exfalso; simp_all; done)
      | (simp only [inc_ins_completed_EX2, inc_ins_completed_MEM2, inc_ins_completed_F,
          inc_ins_completed_DRF, writeback_rd_EX2, writeback_rd_MEM2, true_and]
         exact hrd)
      | simp
  · simp [hc]



/-- In a straight program every instruction but the last is plain and the
last is HALT. -/
theorem straight_get : ∀ (code : List APEX_Instruction), straight code = true →
    ∀ i ins, code.get? i = some ins →
      (i + 1 < code.length → plain ins.opcode = true)
      ∧ (i + 1 = code.length → ins.opcode = Opcode.HALT)
  | [], h => by simp [straight] at h
  | [x], h => by
    intro i ins hi
    cases i with
    | zero =>
      simp only [List.get?_cons_zero, Option.some.injEq] at hi
      subst hi
      simp only [straight, decide_eq_true_eq] at h
      simp [h]
    | succ j => simp at hi
  | x :: y :: rest, h => by
    intro i ins hi
    simp only [straight, Bool.and_eq_true] at h
    cases i with
    | zero =>
      simp only [List.get?_cons_zero, Option.some.injEq] at hi
      subst hi
      simp [h.1]
    | succ j =>
      simp only [List.get?_cons_succ] at hi
      have := straight_get (y :: rest) h.2 j ins hi
      simp only [List.length_cons] at this ⊢
      constructor
      · intro hlt; exact this.1 (by omega)
      · intro heq; exact this.2 (by omega)

/-- A straight program is not empty. -/
theorem straight_length (code : List APEX_Instruction) (h : straight code = true) :
    1 ≤ code.length := by
  cases code with
  | nil => simp [straight] at h
  | cons x xs => simp

/-- One cycle later the same instruction is one stage deeper. -/
theorem in_flight_shift (code : List APEX_Instruction) (k d : Nat) (c : Opcode × Int × Int × Int)
    (h : in_flight code k d c) : in_flight code (k + 1) (d + 1) c := by
  refine ⟨fun hlt => h.1 (by omega), fun ins hle hget => h.2 ins (by omega) ?_⟩
  rw [show k - d = k + 1 - (d + 1) by omega]
  exact hget

/-- Past the end of the program nothing is required of a latch. -/
theorem in_flight_past (code : List APEX_Instruction) (k d : Nat) (c : Opcode × Int × Int × Int)
    (h1 : d ≤ k) (h2 : code.length ≤ k - d) : in_flight code k d c := by
  refine ⟨fun hlt => absurd h1 (by omega), fun ins _ hget => ?_⟩
  have : code.get? (k - d) = none := List.get?_eq_none.mpr h2
  rw [this] at hget
  exact absurd hget (by simp)

/-- A latch that `in_flight` describes is a start-up bubble, a plain
instruction or the closing HALT. -/
theorem in_flight_cases (code : List APEX_Instruction) (hst : straight code = true) (k d : Nat)
    (L : CPU_Stage) (h : in_flight code k d (ctl L)) (hk : k < code.length + d) :
    (k < d ∧ L.busy ≠ 0 ∧ L.stalled = 0)
    ∨ (d ≤ k ∧ plain L.opcode = true ∧ L.busy = 0 ∧ L.stalled = 0 ∧ L.nop = 0
        ∧ k + 1 < code.length + d)
    ∨ (d ≤ k ∧ L.opcode = Opcode.HALT ∧ L.busy = 0 ∧ L.stalled = 0 ∧ L.nop = 0
        ∧ k + 1 = code.length + d) := by
  by_cases hlt : k < d
  · exact Or.inl ⟨hlt, h.1 hlt⟩
  · have hle : d ≤ k := by omega
    have hidx : k - d < code.length := by omega
    obtain ⟨ins, hins⟩ : ∃ ins, code.get? (k - d) = some ins := by
      rw [List.get?_eq_get hidx]; exact ⟨_, rfl⟩
    have hc := h.2 ins hle hins
    have hs := straight_get code hst (k - d) ins hins
    simp only [ctl, Prod.mk.injEq] at hc
    obtain ⟨ho, hb, hs', hn⟩ := hc
    by_cases hlast : k - d + 1 < code.length
    · exact Or.inr (Or.inl ⟨hle, by rw [ho]; exact hs.1 hlast, hb, hs', hn, by omega⟩)
    · exact Or.inr (Or.inr ⟨hle, by rw [ho]; exact hs.2 (by omega), hb, hs', hn, by omega⟩)

/-- A plain opcode is none of MUL, HALT, BZ, BNZ and the empty opcode. -/
theorem plain_ne (op : Opcode) (h : plain op = true) :
    op ≠ Opcode.MUL ∧ op ≠ Opcode.HALT ∧ op ≠ Opcode.BZ ∧ op ≠ Opcode.BNZ ∧ op ≠ Opcode.EMPTY := by
  cases op <;> simp_all [plain]

/-- Reading code memory at an index inside the program. -/
theorem code_at_some (cpu : APEX_CPU) (k : Nat) (ins : APEX_Instruction)
    (h : cpu.code_memory.get? k = some ins) : code_at cpu (k : Int) = ins := by
  show (cpu.code_memory.get? k).getD _ = ins
  rw [h]
  rfl

/-- The index of the `k`-th program counter is `k`. -/
theorem get_code_index_nat (k : Nat) : get_code_index (4000 + 4 * (k : Int)) = (k : Int) := by
  unfold get_code_index
  rw [show (4000 : Int) + 4 * (k : Int) - 4000 = 4 * (k : Int) by ring]
  exact Int.mul_tdiv_cancel_left _ (by decide)

/-- The iteration written from the state that `execute1` leaves. -/
theorem cycle_eq (cpu : APEX_CPU) :
    cycle cpu = inc_clock (fetch (decode (after_execute1 cpu))) := rfl

/-- Over one iteration the clock advances by one. -/
theorem cycle_clock (cpu : APEX_CPU) : (cycle cpu).clock = cpu.clock + 1 := by
  unfold cycle
  rw [inc_clock_clock, (fetch_keeps _).2.2.2.2.2.2.2.2, (decode_keeps _).2.2.2.2.2.2.2,
    (execute1_keeps _).2.2.2.1, execute2_eq, copy_EX2_MEM1_clock, memory1_eq,
    copy_MEM1_MEM2_clock, (memory2_keeps _).2.2.1, (writeback_keeps _).2.2.2.2]

/-- The latch that Writeback holds after an iteration is the one Memory-2
held before it, when no HALT commits. -/
theorem cycle_WB (cpu : APEX_CPU) (h : ¬ commits_halt cpu) :
    ctl (cycle cpu).WB = ctl cpu.MEM2 := by
  unfold cycle
  rw [inc_clock_WB, (fetch_keeps _).1, (decode_keeps _).1, (execute1_keeps _).1, execute2_eq,
    copy_EX2_MEM1_WB, memory1_eq, copy_MEM1_MEM2_WB, (memory2_keeps _).2.2.2,
    (writeback_front cpu h).2.1]

/-- The latch that Memory-2 holds after an iteration is the one Memory-1 held
before it, when Memory-2 held a plain instruction or a bubble. -/
theorem cycle_MEM2 (cpu : APEX_CPU) (h : ¬ commits_halt cpu)
    (hq : plain cpu.MEM2.opcode = true ∨ cpu.MEM2.busy ≠ 0) :
    (cycle cpu).MEM2 = cpu.MEM1 := by
  have hq2 : plain (writeback cpu).MEM2.opcode = true ∨ (writeback cpu).MEM2.busy ≠ 0 := by
    rw [(writeback_front cpu h).2.1]; exact hq
  unfold cycle
  rw [inc_clock_MEM2, (fetch_keeps _).2.1, (decode_keeps _).2.1, (execute1_keeps _).2.1,
    execute2_eq, copy_EX2_MEM1_MEM2, memory1_eq, copy_MEM1_MEM2_MEM2,
    (memory2_front _ hq2).2.2.1, (writeback_keeps _).2.1]

/-- The latch that Memory-1 holds after an iteration is the one Execute-2
held before it, when no HALT commits. -/
theorem cycle_MEM1 (cpu : APEX_CPU) (h : ¬ commits_halt cpu) :
    (cycle cpu).MEM1 = cpu.EX2 := by
  unfold cycle
  rw [inc_clock_MEM1, (fetch_keeps _).2.2.1, (decode_keeps _).2.2.1, (execute1_keeps _).2.2.1,
    execute2_eq, copy_EX2_MEM1_MEM1, memory1_eq, copy_MEM1_MEM2_EX2, (memory2_keeps _).2.1,
    (writeback_front cpu h).1]

/-- The Execute-1 latch at the time `execute1` runs is the one the iteration
started with. -/
theorem before_execute1_EX1 (cpu : APEX_CPU) :
    (execute2 (memory1 (memory2 (writeback cpu)))).EX1 = cpu.EX1 := by
  rw [execute2_eq, copy_EX2_MEM1_EX1, memory1_eq, copy_MEM1_MEM2_EX1, (memory2_keeps _).1,
    (writeback_keeps _).1]

/-- The latch that Execute-2 holds after an iteration has the control part of
the one Execute-1 held before it, when that was not an unblocked MUL. -/
theorem cycle_EX2 (cpu : APEX_CPU) (hm : cpu.EX1.opcode ≠ Opcode.MUL ∨ cpu.EX1.busy ≠ 0) :
    ctl (cycle cpu).EX2 = ctl cpu.EX1 := by
  have hb := before_execute1_EX1 cpu
  have hk := execute1_keeps (execute2 (memory1 (memory2 (writeback cpu))))
  have hn := execute1_nop (execute2 (memory1 (memory2 (writeback cpu)))) (by rw [hb]; exact hm)
  unfold cycle ctl
  rw [inc_clock_EX2, (fetch_keeps _).2.2.2.1, (decode_keeps _).2.2.2.1, hk.2.2.2.2.1,
    hk.2.2.2.2.2.1, hk.2.2.2.2.2.2, hn, hb]

/-- When Writeback commits no HALT, Memory-2 and Execute-1 hold plain
instructions or bubbles, and Fetch and Decode are not stalled, `execute1`
leaves Fetch, Decode and `pc` as the iteration found them. -/
theorem after_execute1_front (cpu : APEX_CPU) (h : ¬ commits_halt cpu)
    (hq : plain cpu.MEM2.opcode = true ∨ cpu.MEM2.busy ≠ 0)
    (he : plain cpu.EX1.opcode = true ∨ cpu.EX1.busy ≠ 0)
    (hf : cpu.F.stalled = 0) (hd : cpu.DRF.stalled = 0) :
    (after_execute1 cpu).F = cpu.F ∧ (after_execute1 cpu).DRF = cpu.DRF
    ∧ (after_execute1 cpu).pc = cpu.pc := by
  have hw := writeback_front cpu h
  have hq2 : plain (writeback cpu).MEM2.opcode = true ∨ (writeback cpu).MEM2.busy ≠ 0 := by
    rw [hw.2.1]; exact hq
  have hm := memory2_front _ hq2
  have hb := before_execute1_EX1 cpu
  have hx := execute1_front (execute2 (memory1 (memory2 (writeback cpu)))) (by rw [hb]; exact he)
  unfold after_execute1
  rw [hx.1, hx.2.1, hx.2.2, execute2_eq, copy_EX2_MEM1_F, copy_EX2_MEM1_DRF, copy_EX2_MEM1_pc,
    memory1_eq, copy_MEM1_MEM2_F, copy_MEM1_MEM2_DRF, copy_MEM1_MEM2_pc, hm.1, hm.2.1, hm.2.2.2,
    hw.2.2.1 hf, hw.2.2.2 hd, (writeback_keeps cpu).2.2.2.1]
  exact ⟨rfl, rfl, rfl⟩

/-- The latch that Execute-1 holds after an iteration is the one that
`decode` leaves there. -/
theorem cycle_EX1 (cpu : APEX_CPU) : (cycle cpu).EX1 = (decode (after_execute1 cpu)).EX1 := by
  rw [cycle_eq, inc_clock_EX1, (fetch_keeps _).2.2.2.2.1]



/-- A busy Decode latch is left with `stalled = 0`. -/
theorem decode_busy_stalled (cpu : APEX_CPU) (hb : cpu.DRF.busy ≠ 0) :
    (decode cpu).DRF.stalled = 0 := by
  have hu := decode_unstall_keeps cpu
  unfold decode
  rw [hu.2.2.2.2.2.2.2.2.2.1]
  simp only [hb, false_and, if_false]
  split_ifs <;> simp [hu]

/-- A busy Execute-1 latch is not processed. -/
theorem execute1_busy (cpu : APEX_CPU) (hb : cpu.EX1.busy ≠ 0) :
    (execute1 cpu).EX1 = cpu.EX1 := by
  unfold execute1
  simp [hb]

/-- Code memory at the time `fetch` runs is the one the iteration started with. -/
theorem before_fetch_code (cpu : APEX_CPU) :
    (decode (after_execute1 cpu)).code_memory = cpu.code_memory := by
  unfold after_execute1
  rw [(decode_frame _).2, (execute1_frame _).2, (execute2_frame _).2, (memory1_frame _).2,
    memory2_code_memory, writeback_code_memory]

/-- In a state of the stall-free run, before the closing HALT reaches
Writeback, the iteration commits no HALT and resolves no branch, and its
Writeback commits exactly when the start-up bubbles have drained. -/
theorem pipe_inv_quiet (code : List APEX_Instruction) (hst : straight code = true) (k : Nat)
    (hk : k ≤ code.length + 4) (cpu : APEX_CPU) (hinv : pipe_inv code k cpu) :
    ¬ commits_halt cpu ∧ ¬ takes_branch cpu ∧ (wb_commits cpu ↔ 6 ≤ k) := by
  have hwb := in_flight_cases code hst k 6 cpu.WB hinv.wb (by omega)
  have hm2 := in_flight_cases code hst k 5 cpu.MEM2 hinv.mem2 (by omega)
  refine ⟨?_, ?_, ?_⟩
  · rintro ⟨hc, hop⟩
    rcases hwb with ⟨_, hb, _⟩ | ⟨_, hp, _⟩ | ⟨_, _, _, _, _, hlast⟩
    · exact hb hc.1
    · exact (plain_ne _ hp).2.1 hop
    · omega
  · rintro ⟨hb, _, _, hop, _⟩
    rcases hm2 with ⟨_, hb', _⟩ | ⟨_, hp, _⟩ | ⟨_, hh, _⟩
    · exact hb' hb
    · rcases hop with hop | hop
      · exact (plain_ne _ hp).2.2.1 hop
      · exact (plain_ne _ hp).2.2.2.1 hop
    · rw [hh] at hop
      rcases hop with hop | hop <;> exact absurd hop (by decide)
  · rcases hwb with ⟨hlt, hb, _⟩ | ⟨hle, hp, hb, hs, hn, _⟩ | ⟨_, _, _, _, _, hlast⟩
    · constructor
      · intro hc; exact absurd hc.1 hb
      · intro h6; omega
    · constructor
      · intro _; exact hle
      · intro _; exact ⟨hb, hs, hn, (plain_ne _ hp).2.2.2.2⟩
    · omega

/-- The four latches from Execute-2 to Writeback of the stall-free run after
one more iteration. -/
theorem pipe_inv_back (code : List APEX_Instruction) (hst : straight code = true) (k : Nat)
    (hk : k ≤ code.length + 4) (cpu : APEX_CPU) (hinv : pipe_inv code k cpu) :
    in_flight code (k + 1) 3 (ctl (cycle cpu).EX2)
    ∧ in_flight code (k + 1) 4 (ctl (cycle cpu).MEM1)
    ∧ in_flight code (k + 1) 5 (ctl (cycle cpu).MEM2)
    ∧ in_flight code (k + 1) 6 (ctl (cycle cpu).WB) := by
  obtain ⟨hnh, _, _⟩ := pipe_inv_quiet code hst k hk cpu hinv
  refine ⟨?_, ?_, ?_, ?_⟩
  · by_cases hpast : code.length + 2 ≤ k
    · exact in_flight_past code (k + 1) 3 _ (by omega) (by omega)
    · have hc := in_flight_cases code hst k 2 cpu.EX1 hinv.ex1 (by omega)
      have hm : cpu.EX1.opcode ≠ Opcode.MUL ∨ cpu.EX1.busy ≠ 0 := by
        rcases hc with ⟨_, hb, _⟩ | ⟨_, hp, _⟩ | ⟨_, hh, _⟩
        · exact Or.inr hb
        · exact Or.inl (plain_ne _ hp).1
        · exact Or.inl (by rw [hh]; decide)
      rw [cycle_EX2 cpu hm]
      exact in_flight_shift code k 2 _ hinv.ex1
  · rw [cycle_MEM1 cpu hnh]
    exact in_flight_shift code k 3 _ hinv.ex2
  · by_cases hpast : code.length + 4 ≤ k
    · exact in_flight_past code (k + 1) 5 _ (by omega) (by omega)
    · have hc := in_flight_cases code hst k 5 cpu.MEM2 hinv.mem2 (by omega)
      have hq : plain cpu.MEM2.opcode = true ∨ cpu.MEM2.busy ≠ 0 := by
        rcases hc with ⟨_, hb, _⟩ | ⟨_, hp, _⟩ | ⟨_, _, _, _, _, hlast⟩
        · exact Or.inr hb
        · exact Or.inl hp
        · omega
      rw [cycle_MEM2 cpu hnh hq]
      exact in_flight_shift code k 4 _ hinv.mem1
  · rw [cycle_WB cpu hnh]
    exact in_flight_shift code k 5 _ hinv.mem2



/-- Decode, Execute-1, Fetch and `pc` of the stall-free run after one more
iteration, as long as Decode does not stall in it. -/
theorem pipe_inv_front (code : List APEX_Instruction) (hst : straight code = true) (k : Nat)
    (cpu : APEX_CPU) (hinv : pipe_inv code k cpu)
    (hd1 : k + 1 ≤ code.length → (cycle cpu).DRF.stalled = 0) :
    in_flight code (k + 1) 1 (ctl (cycle cpu).DRF)
    ∧ in_flight code (k + 1) 2 (ctl (cycle cpu).EX1)
    ∧ (k + 1 ≤ code.length →
        (cycle cpu).F.busy = 0 ∧ (cycle cpu).F.stalled = 0 ∧ (cycle cpu).F.nop = 0
        ∧ (cycle cpu).pc = 4000 + 4 * ((k + 1 : Nat) : Int)) := by
  by_cases hgt : code.length < k
  · exact ⟨in_flight_past code (k + 1) 1 _ (by omega) (by omega),
      in_flight_past code (k + 1) 2 _ (by omega) (by omega), fun h => absurd h (by omega)⟩
  have hkn : k ≤ code.length := by omega
  obtain ⟨hFb, hFs, hFn, hpc⟩ := hinv.front hkn
  have hnh : ¬ commits_halt cpu := (pipe_inv_quiet code hst k (by omega) cpu hinv).1
  have cm2 := in_flight_cases code hst k 5 cpu.MEM2 hinv.mem2 (by omega)
  have cx1 := in_flight_cases code hst k 2 cpu.EX1 hinv.ex1 (by omega)
  have cdr := in_flight_cases code hst k 1 cpu.DRF hinv.drf (by omega)
  have hq : plain cpu.MEM2.opcode = true ∨ cpu.MEM2.busy ≠ 0 := by
    rcases cm2 with ⟨_, hb, _⟩ | ⟨_, hp, _⟩ | ⟨_, _, _, _, _, hlast⟩
    · exact Or.inr hb
    · exact Or.inl hp
    · omega
  have he : plain cpu.EX1.opcode = true ∨ cpu.EX1.busy ≠ 0 := by
    rcases cx1 with ⟨_, hb, _⟩ | ⟨_, hp, _⟩ | ⟨_, _, _, _, _, hlast⟩
    · exact Or.inr hb
    · exact Or.inl hp
    · omega
  have hDs : cpu.DRF.stalled = 0 := by
    rcases cdr with ⟨_, _, hs⟩ | ⟨_, _, _, hs, _⟩ | ⟨_, _, _, hs, _⟩ <;> exact hs
  obtain ⟨h5F, h5D, h5pc⟩ := after_execute1_front cpu hnh hq he hFs hDs
  have hdk := decode_keeps (after_execute1 cpu)
  have hfk := fetch_keeps (decode (after_execute1 cpu))
  have hEX1 : (cycle cpu).EX1 = (decode (after_execute1 cpu)).EX1 := cycle_EX1 cpu
  have hDRF : (cycle cpu).DRF = (fetch (decode (after_execute1 cpu))).DRF := by
    rw [cycle_eq, inc_clock_DRF]
  -- the facts about the state that `decode` leaves, by what Decode held
  have key : ctl (decode (after_execute1 cpu)).EX1 = ctl cpu.DRF ∨ (k = 0
        ∧ (decode (after_execute1 cpu)).EX1 = cpu.EX1) := by
    rcases cdr with ⟨hlt, hb, hs⟩ | ⟨hle, hp, hb, hs, hn, hlast⟩ | ⟨hle, hh, hb, hs, hn, hlast⟩
    · right
      refine ⟨by omega, ?_⟩
      rw [(decode_busy _ (by rw [h5D]; exact hb)).1]
      have hxb : cpu.EX1.busy ≠ 0 := (hinv.ex1.1 (by omega)).1
      unfold after_execute1
      rw [execute1_busy _ (by rw [before_execute1_EX1]; exact hxb), before_execute1_EX1]
    · left
      have hdp := decode_plain (after_execute1 cpu) (by rw [h5D]; exact hb)
        (by rw [h5D]; exact hp) (by rw [h5F]; exact hFs)
      have hv : (decode (after_execute1 cpu)).DRF.stalled = 0 := by
        by_contra hne
        have hbl := fetch_blocked (decode (after_execute1 cpu)) (by rw [hdp.2.2.2.2]; exact hne)
        have := hd1 (by omega)
        rw [hDRF, hbl] at this
        exact hne this
      unfold ctl
      rw [hdp.1, hdp.2.1, hdp.2.2.1, hdp.2.2.2.1, hv, h5D, hb, hs]
    · left
      rw [decode_halt_ctl (after_execute1 cpu) (by rw [h5D]; exact hb) (by rw [h5D]; exact hh)]
      unfold ctl
      rw [h5D, hh, hb, hs]
  have hex1 : in_flight code (k + 1) 2 (ctl (cycle cpu).EX1) := by
    rw [hEX1]
    rcases key with hc | ⟨hk0, hc⟩
    · rw [hc]
      exact in_flight_shift code k 1 _ hinv.drf
    · rw [hc]
      subst hk0
      exact ⟨fun _ => hinv.ex1.1 (by omega), fun ins h2 _ => absurd h2 (by omega)⟩
  by_cases hlast : k = code.length
  · exact ⟨in_flight_past code (k + 1) 1 _ (by omega) (by omega), hex1,
      fun h => absurd h (by omega)⟩
  have hlt : k < code.length := by omega
  -- Decode has not stalled, so Fetch hands the next instruction over
  have h6 : (decode (after_execute1 cpu)).F.stalled = 0
      ∧ (decode (after_execute1 cpu)).DRF.stalled = 0 := by
    rcases cdr with ⟨_, hb, _⟩ | ⟨_, hp, hb, _⟩ | ⟨_, _, _, _, _, hl⟩
    · refine ⟨?_, decode_busy_stalled _ (by rw [h5D]; exact hb)⟩
      rw [(decode_busy _ (by rw [h5D]; exact hb)).2.2, h5F]
      exact hFs
    · have hdp := decode_plain (after_execute1 cpu) (by rw [h5D]; exact hb)
        (by rw [h5D]; exact hp) (by rw [h5F]; exact hFs)
      have hv : (decode (after_execute1 cpu)).DRF.stalled = 0 := by
        by_contra hne
        have hbl := fetch_blocked (decode (after_execute1 cpu)) (by rw [hdp.2.2.2.2]; exact hne)
        have := hd1 (by omega)
        rw [hDRF, hbl] at this
        exact hne this
      exact ⟨by rw [hdp.2.2.2.2]; exact hv, hv⟩
    · omega
  have h6b : (decode (after_execute1 cpu)).F.busy = 0 := by
    rw [hdk.2.2.2.2.2.1, h5F]; exact hFb
  have h6n : (decode (after_execute1 cpu)).F.nop = 0 := by
    rw [hdk.2.2.2.2.2.2.1, h5F]; exact hFn
  have h6pc : (decode (after_execute1 cpu)).pc = 4000 + 4 * (k : Int) := by
    rw [hdk.2.2.2.2.1, h5pc]; exact hpc
  obtain ⟨hadv_pc, hadv_drf⟩ := fetch_advances (decode (after_execute1 cpu)) h6b h6.1 h6.2
  refine ⟨?_, hex1, fun _ => ⟨?_, ?_, ?_, ?_⟩⟩
  · rw [hDRF, hadv_drf, h6pc, get_code_index_nat, h6n]
    refine ⟨fun h => absurd h (by omega), fun ins _ hget => ?_⟩
    have hcm : (decode (after_execute1 cpu)).code_memory.get? k = some ins := by
      rw [before_fetch_code, hinv.code_eq]
      exact hget
    rw [code_at_some _ k ins hcm]
  · rw [cycle_eq, inc_clock_F, hfk.2.2.2.2.2.1]; exact h6b
  · rw [cycle_eq, inc_clock_F, hfk.2.2.2.2.2.2.1]; exact h6.1
  · rw [cycle_eq, inc_clock_F, hfk.2.2.2.2.2.2.2.1]; exact h6n
  · rw [cycle_eq, inc_clock_pc, hadv_pc, h6pc]
    push_cast
    ring



/-- One iteration keeps the description of the stall-free run. -/
theorem pipe_inv_step (code : List APEX_Instruction) (hst : straight code = true) (k : Nat)
    (hk : k ≤ code.length + 4) (cpu : APEX_CPU) (hinv : pipe_inv code k cpu)
    (hd1 : k + 1 ≤ code.length → (cycle cpu).DRF.stalled = 0) :
    pipe_inv code (k + 1) (cycle cpu) := by
  obtain ⟨hnh, hnb, hcom⟩ := pipe_inv_quiet code hst k hk cpu hinv
  obtain ⟨b3, b4, b5, b6⟩ := pipe_inv_back code hst k hk cpu hinv
  obtain ⟨f1, f2, f0⟩ := pipe_inv_front code hst k cpu hinv hd1
  refine ⟨?_, ?_, ?_, f1, f2, b3, b4, b5, b6, f0⟩
  · rw [cycle_code_memory, hinv.code_eq]
  · rw [cycle_counts_commit cpu hnh hnb, hinv.done_eq]
    by_cases h6 : 6 ≤ k
    · rw [if_pos (hcom.mpr h6)]
      omega
    · rw [if_neg (fun h => h6 (hcom.mp h))]
      omega
  · rw [cycle_clock, hinv.clock_eq]
    push_cast
    ring

/-- The initial state is the stall-free run after 0 cycles. -/
theorem pipe_inv_init (code : List APEX_Instruction) (beyond : Int → APEX_Instruction) :
    pipe_inv code 0 (APEX_cpu_init code beyond) := by
  refine ⟨rfl, rfl, rfl, ?_, ?_, ?_, ?_, ?_, ?_, fun _ => ⟨rfl, rfl, rfl, rfl⟩⟩ <;>
  exact ⟨fun _ => ⟨(one_ne_zero : (1 : Int) ≠ 0), rfl⟩, fun ins h _ => absurd h (by omega)⟩

/-- The description holds along the run until the closing HALT is in
Writeback, if Decode is never left stalled up to the cycle that hands the
HALT over. -/
theorem pipe_inv_run (code : List APEX_Instruction) (beyond : Int → APEX_Instruction)
    (hst : straight code = true)
    (hns : ∀ k, k ≤ code.length → (cycles k (APEX_cpu_init code beyond)).DRF.stalled = 0) :
    ∀ k, k ≤ code.length + 5 → pipe_inv code k (cycles k (APEX_cpu_init code beyond)) := by
  intro k
  induction k with
  | zero => intro _; exact pipe_inv_init code beyond
  | succ n ih =>
    intro hk
    rw [cycles_succ]
    refine pipe_inv_step code hst n (by omega) _ (ih (by omega)) (fun h => ?_)
    rw [← cycles_succ]
    exact hns (n + 1) h

/-- A run whose states fail the termination test before iteration `n` and
pass it after iteration `n` executes exactly `n` iterations. -/
theorem APEX_cpu_run_exact (n : Nat) : ∀ cpu : APEX_CPU,
    (∀ j, j < n → ¬ finished (cycles j cpu)) → finished (cycles n cpu) →
    APEX_cpu_run n cpu = some (cycles n cpu) ∧ ∀ m, m < n → APEX_cpu_run m cpu = none := by
  induction n with
  | zero =>
    intro cpu _ hf
    exact ⟨by simp [APEX_cpu_run, cycles] at hf ⊢; exact hf, fun m hm => absurd hm (by omega)⟩
  | succ n ih =>
    intro cpu hnf hf
    have h0 : ¬ finished cpu := hnf 0 (Nat.succ_pos n)
    obtain ⟨h1, h2⟩ := ih (cycle cpu) (fun j hj => hnf (j + 1) (by omega)) hf
    refine ⟨?_, ?_⟩
    · simp only [APEX_cpu_run, h0, if_false]
      exact h1
    · intro m hm
      cases m with
      | zero => simp [APEX_cpu_run, h0]
      | succ m =>
        simp only [APEX_cpu_run, h0, if_false]
        exact h2 m (by omega)

/-- C3, amended. For every program of `n` instructions that are plain (no
BZ, BNZ, JUMP, MUL) up to a closing HALT, and whose run never leaves the
Decode latch stalled at the end of a cycle up to the cycle that hands the
HALT over (no instruction waits in Decode for a source register), the driver
executes exactly `6 + n` iterations, whatever lies past the end of code
memory: with that much fuel or more the run ends in the state after `n + 6`
cycles, with less it is still running, and the clock has advanced by `n + 6`. -/
theorem C3_cycles_without_stall (code : List APEX_Instruction)
    (beyond : Int → APEX_Instruction) (hst : straight code = true)
    (hns : ∀ k, k ≤ code.length → (cycles k (APEX_cpu_init code beyond)).DRF.stalled = 0) :
    (∀ fuel, code.length + 6 ≤ fuel →
        APEX_cpu_run fuel (APEX_cpu_init code beyond)
          = some (cycles (code.length + 6) (APEX_cpu_init code beyond)))
    ∧ (∀ fuel, fuel < code.length + 6 → APEX_cpu_run fuel (APEX_cpu_init code beyond) = none)
    ∧ (cycles (code.length + 6) (APEX_cpu_init code beyond)).clock
        = (APEX_cpu_init code beyond).clock + ((code.length + 6 : Nat) : Int) := by
  have hlen := straight_length code hst
  have hinv := pipe_inv_run code beyond hst hns
  have hsize : ∀ k, code_memory_size (cycles k (APEX_cpu_init code beyond)) = (code.length : Int) :=
    fun k => by rw [cycles_code_memory_size]; rfl
  have hnf : ∀ j, j < code.length + 6 → ¬ finished (cycles j (APEX_cpu_init code beyond)) := by
    intro j hj hfin
    unfold finished at hfin
    rw [(hinv j (by omega)).done_eq, hsize] at hfin
    omega
  have hlast := hinv (code.length + 5) (le_refl _)
  have hwb := in_flight_cases code hst (code.length + 5) 6 _ hlast.wb (by omega)
  have hhalt : (cycles (code.length + 5) (APEX_cpu_init code beyond)).WB.opcode = Opcode.HALT
      ∧ (cycles (code.length + 5) (APEX_cpu_init code beyond)).WB.busy = 0
      ∧ (cycles (code.length + 5) (APEX_cpu_init code beyond)).WB.stalled = 0
      ∧ (cycles (code.length + 5) (APEX_cpu_init code beyond)).WB.nop = 0 := by
    rcases hwb with ⟨hlt, _⟩ | ⟨_, _, _, _, _, hl⟩ | ⟨_, ho, hb, hs, hn, _⟩
    · omega
    · omega
    · exact ⟨ho, hb, hs, hn⟩
  have hc5 := C5_halt_in_writeback_aux _ hhalt.1 hhalt.2.1 hhalt.2.2.1 hhalt.2.2.2
  have hfin : finished (cycles (code.length + 6) (APEX_cpu_init code beyond)) := by
    unfold finished
    rw [show code.length + 6 = (code.length + 5) + 1 from rfl, cycles_succ, hc5.1, hc5.2.1]
  obtain ⟨hrun, hnone⟩ := APEX_cpu_run_exact (code.length + 6) _ hnf hfin
  refine ⟨fun fuel hf => APEX_cpu_run_mono _ _ _ hrun fuel hf, hnone, ?_⟩
  rw [show code.length + 6 = (code.length + 5) + 1 from rfl, cycles_succ, cycle_clock,
    hlast.clock_eq]
  simp [APEX_cpu_init]

set_option maxRecDepth 100000 in
/-- Witness of C3: `[MOVC R1,#5; MOVC R2,#10; HALT]` never stalls and runs for
9 iterations. -/
theorem C3_cycles_without_stall_witness :
    APEX_cpu_run 9 (APEX_cpu_init prog_no_stall no_code)
      = some (cycles 9 (APEX_cpu_init prog_no_stall no_code))
    ∧ APEX_cpu_run 8 (APEX_cpu_init prog_no_stall no_code) = none :=
  ⟨(C3_cycles_without_stall prog_no_stall no_code (by decide) (by decide)).1 9 (by decide),
   (C3_cycles_without_stall prog_no_stall no_code (by decide) (by decide)).2.1 8 (by decide)⟩

set_option maxRecDepth 100000 in
/-- Counterexample to C3. `[MOVC R1,#a; MOVC R2,#b; ADD R3,R1,R2; HALT]` with
`a = 5`, `b = 10` has 4 instructions and no branch, and its run takes 14
iterations, not 6 + 4: the ADD waits in Decode for the two MOVCs.  The run of
`[HALT; MOVC R1,#1; MOVC R2,#2]`, 3 instructions and no branch, takes 7. -/
theorem C3_stall_adds_cycles :
    (prog_add 5 10).length = 4
    ∧ APEX_cpu_run 14 (APEX_cpu_init (prog_add 5 10) no_code)
        = some (cycles 14 (APEX_cpu_init (prog_add 5 10) no_code))
    ∧ APEX_cpu_run (6 + 4) (APEX_cpu_init (prog_add 5 10) no_code) = none
    ∧ (cycles 14 (APEX_cpu_init (prog_add 5 10) no_code)).clock = 14
    ∧ prog_halt_first.length = 3
    ∧ APEX_cpu_run 7 (APEX_cpu_init prog_halt_first no_code)
        = some (cycles 7 (APEX_cpu_init prog_halt_first no_code))
    ∧ (cycles 7 (APEX_cpu_init prog_halt_first no_code)).clock = 7 :=
  ⟨rfl, rfl, rfl, rfl, rfl, rfl, rfl⟩

/-- Unless it holds a LOAD or LDR, Memory-2 hands its latch to Writeback
unchanged. -/
theorem memory2_WB_full (cpu : APEX_CPU)
    (h : cpu.MEM2.opcode ≠ Opcode.LOAD ∧ cpu.MEM2.opcode ≠ Opcode.LDR) :
    (memory2 cpu).WB = cpu.MEM2 := by
  unfold memory2
  split_ifs
  · unfold memory2_opcode memory2_taken adjust_ins_completed
    split <;> (try dsimp only) <;> (try split_ifs) <;> simp_all
  · simp

/-- The latch that Writeback holds after an iteration is the one Memory-2
held before it, when no HALT commits and Memory-2 holds no LOAD or LDR. -/
theorem cycle_WB_full (cpu : APEX_CPU) (h : ¬ commits_halt cpu)
    (hl : cpu.MEM2.opcode ≠ Opcode.LOAD ∧ cpu.MEM2.opcode ≠ Opcode.LDR) :
    (cycle cpu).WB = cpu.MEM2 := by
  have hw := (writeback_front cpu h).2.1
  unfold cycle
  rw [inc_clock_WB, (fetch_keeps _).1, (decode_keeps _).1, (execute1_keeps _).1, execute2_eq,
    copy_EX2_MEM1_WB, memory1_eq, copy_MEM1_MEM2_WB, memory2_WB_full _ (by rw [hw]; exact hl), hw]

/-- Fetch does not write registers. -/
theorem fetch_regs (cpu : APEX_CPU) (r : Int) : (fetch cpu).regs r = cpu.regs r := by
  unfold fetch
  split_ifs <;> simp

/-- Decode does not write registers. -/
theorem decode_regs (cpu : APEX_CPU) (r : Int) : (decode cpu).regs r = cpu.regs r := by
  have hu : (decode_unstall cpu).regs r = cpu.regs r := by
    unfold decode_unstall
    split_ifs <;> simp
  have ho : (decode_opcode (decode_unstall cpu)).regs r = (decode_unstall cpu).regs r := by
    unfold decode_opcode
    split <;> (try split_ifs) <;> simp
  unfold decode
  split_ifs <;> simp [hu, ho]

/-- Execute-1 does not write registers. -/
theorem execute1_regs (cpu : APEX_CPU) (r : Int) : (execute1 cpu).regs r = cpu.regs r := by
  have ho : (execute1_opcode cpu).regs r = cpu.regs r := by
    unfold execute1_opcode execute1_mul
    split <;> (try split_ifs) <;> simp
  unfold execute1
  split_ifs <;> simp [ho]

/-- Memory-2 does not write registers. -/
theorem memory2_regs (cpu : APEX_CPU) (r : Int) : (memory2 cpu).regs r = cpu.regs r := by
  unfold memory2
  split_ifs
  · unfold memory2_opcode memory2_taken adjust_ins_completed
    split <;> (try dsimp only) <;> (try split_ifs) <;> simp
  · simp

/-- Within an iteration only Writeback writes registers. -/
theorem cycle_regs (cpu : APEX_CPU) (r : Int) : (cycle cpu).regs r = (writeback cpu).regs r := by
  unfold cycle
  rw [inc_clock_regs, fetch_regs, decode_regs, execute1_regs, execute2_eq, copy_EX2_MEM1_regs,
    memory1_eq, copy_MEM1_MEM2_regs, memory2_regs]

/-- Writeback of an opcode without destination register writes no register. -/
theorem writeback_regs_other (cpu : APEX_CPU) (h : writes_rd cpu.WB.opcode = false) (r : Int) :
    (writeback cpu).regs r = cpu.regs r := by
  unfold writeback
  split_ifs
  · cases hop : cpu.WB.opcode <;>
    first
    | (exfalso; simp [writes_rd, hop] at h; done)
    | (unfold writeback_opcode; simp only [hop]; simp)
  · rfl

/-- Writeback of a committing opcode with destination register writes the
buffer to that register. -/
theorem writeback_regs_rd (cpu : APEX_CPU) (hc : wb_commits cpu)
    (h : writes_rd cpu.WB.opcode = true) (r : Int) :
    (writeback cpu).regs r = store cpu.regs cpu.WB.rd cpu.WB.buffer r := by
  unfold writeback
  rw [if_pos hc]
  cases hop : cpu.WB.opcode <;>
  first
  | (exfalso; simp [writes_rd, hop] at h; done)
  | (unfold writeback_opcode; simp only [hop]; simp)

set_option maxRecDepth 100000 in
/-- The first seven cycles of `prog_bz` at the point chosen against their
description, checked by running the embedding. -/
theorem bz_scenario_generic : bz_scenario (Classical.epsilon (fun t => ¬ bz_scenario t)) :=
  ⟨by decide, rfl, rfl, rfl, rfl, rfl, rfl, rfl, rfl, by decide, rfl, by decide, rfl, rfl, rfl,
   rfl, rfl, rfl, rfl, rfl⟩

/-- C8, amended. For whatever lies past the end of code memory, the run of
`[MOVC R1,#0; BZ #8; MOVC R2,#99; HALT]` from the initial state does not take
the BZ: MOVC does not touch the zero flag, which is still 0 when Execute-1
evaluates the BZ in iteration 3, so the BZ leaves Execute-1 with the null
target 0 and `insflush = 1` and Memory-2 does not redirect `pc`.
`MOVC R2,#99` is not squashed: it commits in iteration 8, and `R2 = 99` when
the run ends, after exactly 10 iterations, with the commit of the HALT. -/
theorem C8_bz_not_taken (beyond : Int → APEX_Instruction) :
    (∀ fuel, 10 ≤ fuel →
        APEX_cpu_run fuel (APEX_cpu_init prog_bz beyond)
          = some (cycles 10 (APEX_cpu_init prog_bz beyond)))
    ∧ (∀ fuel, fuel < 10 → APEX_cpu_run fuel (APEX_cpu_init prog_bz beyond) = none)
    ∧ (cycles 3 (APEX_cpu_init prog_bz beyond)).EX1.opcode = Opcode.BZ
    ∧ (cycles 3 (APEX_cpu_init prog_bz beyond)).EX1.busy = 0
    ∧ (cycles 3 (APEX_cpu_init prog_bz beyond)).EX1.stalled = 0
    ∧ (cycles 3 (APEX_cpu_init prog_bz beyond)).zeroFlag = 0
    ∧ (cycles 4 (APEX_cpu_init prog_bz beyond)).EX2.opcode = Opcode.BZ
    ∧ (cycles 4 (APEX_cpu_init prog_bz beyond)).EX2.mem_address = 0
    ∧ (cycles 4 (APEX_cpu_init prog_bz beyond)).EX2.insflush = 1
    ∧ (cycles 6 (APEX_cpu_init prog_bz beyond)).MEM2.opcode = Opcode.BZ
    ∧ ¬ takes_branch (cycles 6 (APEX_cpu_init prog_bz beyond))
    ∧ (cycles 8 (APEX_cpu_init prog_bz beyond)).WB.opcode = Opcode.MOVC
    ∧ (cycles 8 (APEX_cpu_init prog_bz beyond)).WB.pc = 4008
    ∧ wb_commits (cycles 8 (APEX_cpu_init prog_bz beyond))
    ∧ (cycles 9 (APEX_cpu_init prog_bz beyond)).WB.opcode = Opcode.HALT
    ∧ wb_commits (cycles 9 (APEX_cpu_init prog_bz beyond))
    ∧ (cycles 10 (APEX_cpu_init prog_bz beyond)).regs 2 = 99 := by
  have h := forall_of_generic bz_scenario bz_scenario_generic beyond
  simp only [bz_scenario] at h
  obtain ⟨hnf7, a1, a2, a3, a4, a5, a6, a7, a8, a9, hwb7, hc7, hm2op, hm2pc, hm2rd, hm2buf,
    hm2ctl, hm1ctl, hins7, hregs7⟩ := h
  simp only [ctl, Prod.mk.injEq] at hm2ctl hm1ctl
  generalize hs0 : APEX_cpu_init prog_bz beyond = s0 at *
  have hsize : ∀ k, code_memory_size (cycles k s0) = 4 := by
    intro k
    rw [cycles_code_memory_size, ← hs0]
    rfl
  -- iteration 7: the BZ commits, the MOVC moves to Writeback
  have hnh7 : ¬ commits_halt (cycles 7 s0) := fun hh => by
    have := hh.2
    rw [hwb7] at this
    exact absurd this (by decide)
  have hnb7 : ¬ takes_branch (cycles 7 s0) := fun hb => by
    have := hb.2.2.2.1
    rw [hm2op] at this
    rcases this with h | h <;> exact absurd h (by decide)
  have hWB8 : (cycles 8 s0).WB = (cycles 7 s0).MEM2 := by
    rw [cycles_succ]
    exact cycle_WB_full _ hnh7 (by rw [hm2op]; exact ⟨by decide, by decide⟩)
  have hMEM2_8 : (cycles 8 s0).MEM2 = (cycles 7 s0).MEM1 := by
    rw [cycles_succ]
    exact cycle_MEM2 _ hnh7 (Or.inl (by rw [hm2op]; rfl))
  have hins8 : (cycles 8 s0).ins_completed = 2 := by
    rw [cycles_succ, cycle_counts_commit _ hnh7 hnb7, if_pos hc7, hins7]
    rfl
  have hregs8 : (cycles 8 s0).regs 2 = 0 := by
    rw [cycles_succ, cycle_regs, writeback_regs_other _ (by rw [hwb7]; rfl), hregs7]
  -- iteration 8: the MOVC commits, the HALT moves to Writeback
  have hc8 : wb_commits (cycles 8 s0) := by
    unfold wb_commits
    rw [hWB8, hm2ctl.1, hm2ctl.2.1, hm2ctl.2.2.1, hm2ctl.2.2.2]
    exact ⟨rfl, rfl, rfl, by decide⟩
  have hnh8 : ¬ commits_halt (cycles 8 s0) := fun hh => by
    have := hh.2
    rw [hWB8, hm2op] at this
    exact absurd this (by decide)
  have hnb8 : ¬ takes_branch (cycles 8 s0) := fun hb => by
    have := hb.2.2.2.1
    rw [hMEM2_8, hm1ctl.1] at this
    rcases this with h | h <;> exact absurd h (by decide)
  have hctl9 : ctl (cycles 9 s0).WB = ctl (cycles 7 s0).MEM1 := by
    rw [cycles_succ, cycle_WB _ hnh8, hMEM2_8]
  simp only [ctl, Prod.mk.injEq] at hctl9
  have hins9 : (cycles 9 s0).ins_completed = 3 := by
    rw [cycles_succ, cycle_counts_commit _ hnh8 hnb8, if_pos hc8, hins8]
    rfl
  have hregs9 : (cycles 9 s0).regs 2 = 99 := by
    rw [cycles_succ, cycle_regs, writeback_regs_rd _ hc8 (by rw [hWB8, hm2op]; rfl), hWB8, hm2rd,
      hm2buf]
    simp [store]
  -- iteration 9: the HALT commits
  have hop9 : (cycles 9 s0).WB.opcode = Opcode.HALT := by rw [hctl9.1, hm1ctl.1]
  have hc9 : wb_commits (cycles 9 s0) := by
    unfold wb_commits
    rw [hop9, hctl9.2.1, hctl9.2.2.1, hctl9.2.2.2, hm1ctl.2.1, hm1ctl.2.2.1, hm1ctl.2.2.2]
    exact ⟨rfl, rfl, rfl, by decide⟩
  have hc5 := C5_halt_in_writeback_aux _ hop9 hc9.1 hc9.2.1 hc9.2.2.1
  have hfin : finished (cycles 10 s0) := by
    unfold finished
    rw [cycles_succ, hc5.1, hc5.2.1]
  have hregs10 : (cycles 10 s0).regs 2 = 99 := by
    rw [cycles_succ, cycle_regs, writeback_regs_other _ (by rw [hop9]; rfl), hregs9]
  have hnf : ∀ j, j < 10 → ¬ finished (cycles j s0) := by
    intro j hj
    by_cases h7 : j ≤ 7
    · exact hnf7 j h7
    · have h89 : j = 8 ∨ j = 9 := by omega
      rcases h89 with rfl | rfl
      · unfold finished; rw [hins8, hsize]; decide
      · unfold finished; rw [hins9, hsize]; decide
  obtain ⟨hrun, hnone⟩ := APEX_cpu_run_exact 10 s0 hnf hfin
  refine ⟨fun fuel hf => APEX_cpu_run_mono _ _ _ hrun fuel hf, hnone, a1, a2, a3, a4, a5, a6, a7,
    a8, a9, ?_, ?_, hc8, hop9, hc9, hregs10⟩
  · rw [hWB8, hm2op]
  · rw [hWB8, hm2pc]

set_option maxRecDepth 100000 in
/-- Witness of C8, amended: with nothing past the end of code memory, a fuel of
10 gives the final state, where `R2 = 99`, and a fuel of 9 does not reach
it. -/
theorem C8_bz_not_taken_witness :
    APEX_cpu_run 10 (APEX_cpu_init prog_bz no_code)
      = some (cycles 10 (APEX_cpu_init prog_bz no_code))
    ∧ APEX_cpu_run 9 (APEX_cpu_init prog_bz no_code) = none
    ∧ (cycles 10 (APEX_cpu_init prog_bz no_code)).regs 2 = 99 :=
  ⟨(C8_bz_not_taken no_code).1 10 (by decide), (C8_bz_not_taken no_code).2.1 9 (by decide),
   (C8_bz_not_taken no_code).2.2.2.2.2.2.2.2.2.2.2.2.2.2.2.2⟩

set_option maxRecDepth 100000 in
/-- Counterexample to C8. With nothing past the end of code memory, the run of
`[MOVC R1,#0; BZ #8; MOVC R2,#99; HALT]` ends with `R2 = 99`, not 0: the zero
flag is 0 when the BZ is evaluated, the BZ is not taken and the MOVC behind
it commits. -/
theorem C8_bz_scenario_fails :
    APEX_cpu_run 10 (APEX_cpu_init prog_bz no_code)
      = some (cycles 10 (APEX_cpu_init prog_bz no_code))
    ∧ (cycles 10 (APEX_cpu_init prog_bz no_code)).regs 2 = 99
    ∧ (cycles 10 (APEX_cpu_init prog_bz no_code)).regs 2 ≠ 0
    ∧ (cycles 3 (APEX_cpu_init prog_bz no_code)).EX1.opcode = Opcode.BZ
    ∧ (cycles 3 (APEX_cpu_init prog_bz no_code)).zeroFlag = 0
    ∧ (cycles 4 (APEX_cpu_init prog_bz no_code)).EX2.mem_address = 0 :=
  ⟨rfl, rfl, by decide, rfl, rfl, rfl⟩

/-- C15. For every state whose Writeback latch is not busy, not stalled, has
`nop = 0` and holds one of the eleven opcodes with a destination register
(MOVC, LOAD, LDR, ADD, ADDL, SUB, SUBL, MUL, AND, OR, EXOR): `writeback` sets
`regs[rd]` to the latch's buffer and adds one to `regs_valid[rd]`, leaves
every other register and scoreboard entry as it was, clears the stalled
flags of Fetch and Decode, and adds one to `ins_completed`. -/
theorem C15_writeback_commits_register (cpu : APEX_CPU) (hc : wb_commits cpu)
    (hop : writes_rd cpu.WB.opcode = true) :
    (writeback cpu).regs cpu.WB.rd = cpu.WB.buffer
    ∧ (∀ r, r ≠ cpu.WB.rd → (writeback cpu).regs r = cpu.regs r)
    ∧ (writeback cpu).regs_valid cpu.WB.rd = cpu.regs_valid cpu.WB.rd + 1
    ∧ (∀ r, r ≠ cpu.WB.rd → (writeback cpu).regs_valid r = cpu.regs_valid r)
    ∧ (writeback cpu).F.stalled = 0
    ∧ (writeback cpu).DRF.stalled = 0
    ∧ (writeback cpu).ins_completed = cpu.ins_completed + 1 := by
  have hw : writeback cpu = inc_ins_completed (writeback_rd cpu) := by
    unfold writeback writeback_opcode
    rw [if_pos hc]
    cases hop2 : cpu.WB.opcode <;> first
      | rfl
      | (exfalso; revert hop; simp [writes_rd, hop2])
  rw [hw]
  refine ⟨by simp [store], fun r hr => by simp [store, hr], by simp [store],
    fun r hr => by simp [store, hr], by simp, by simp, by simp⟩

/-- An unblocked Execute-1 runs its opcode blocks and copies the latch to
Execute-2. -/
theorem execute1_unblocked (cpu : APEX_CPU) (hb : cpu.EX1.busy = 0) (hs : cpu.EX1.stalled = 0) :
    execute1 cpu = copy_EX1_EX2 (execute1_opcode cpu) := by
  unfold execute1
  rw [if_pos ⟨hb, hs⟩]

/-- C18, amended. For every latch that `execute1` processes unblocked: for ADD,
ADDL, SUB and SUBL the buffer becomes the 32-bit sum or difference of the
latched operands (`rs1_value` and `rs2_value`, or `rs1_value` and `imm`), and
the zero flag becomes 1 if that buffer is 0 and 0 otherwise; for AND, OR and
EXOR the buffer becomes the bitwise result of `rs1_value` and `rs2_value` and
the zero flag is left as it was.  The latch handed to Execute-2 is the
processed latch. -/
theorem C18_execute1_result_and_flag (cpu : APEX_CPU) (hb : cpu.EX1.busy = 0)
    (hs : cpu.EX1.stalled = 0) :
    (execute1 cpu).EX2 = (execute1 cpu).EX1
    ∧ (cpu.EX1.opcode = Opcode.ADD →
        (execute1 cpu).EX1.buffer = wrap32 (cpu.EX1.rs1_value + cpu.EX1.rs2_value)
        ∧ (execute1 cpu).zeroFlag = if (execute1 cpu).EX1.buffer = 0 then 1 else 0)
    ∧ (cpu.EX1.opcode = Opcode.ADDL →
        (execute1 cpu).EX1.buffer = wrap32 (cpu.EX1.rs1_value + cpu.EX1.imm)
        ∧ (execute1 cpu).zeroFlag = if (execute1 cpu).EX1.buffer = 0 then 1 else 0)
    ∧ (cpu.EX1.opcode = Opcode.SUB →
        (execute1 cpu).EX1.buffer = wrap32 (cpu.EX1.rs1_value - cpu.EX1.rs2_value)
        ∧ (execute1 cpu).zeroFlag = if (execute1 cpu).EX1.buffer = 0 then 1 else 0)
    ∧ (cpu.EX1.opcode = Opcode.SUBL →
        (execute1 cpu).EX1.buffer = wrap32 (cpu.EX1.rs1_value - cpu.EX1.imm)
        ∧ (execute1 cpu).zeroFlag = if (execute1 cpu).EX1.buffer = 0 then 1 else 0)
    ∧ (cpu.EX1.opcode = Opcode.AND →
        (execute1 cpu).EX1.buffer = Int.land cpu.EX1.rs1_value cpu.EX1.rs2_value
        ∧ (execute1 cpu).zeroFlag = cpu.zeroFlag)
    ∧ (cpu.EX1.opcode = Opcode.OR →
        (execute1 cpu).EX1.buffer = Int.lor cpu.EX1.rs1_value cpu.EX1.rs2_value
        ∧ (execute1 cpu).zeroFlag = cpu.zeroFlag)
    ∧ (cpu.EX1.opcode = Opcode.EXOR →
        (execute1 cpu).EX1.buffer = Int.xor cpu.EX1.rs1_value cpu.EX1.rs2_value
        ∧ (execute1 cpu).zeroFlag = cpu.zeroFlag) := by
  rw [execute1_unblocked cpu hb hs]
  refine ⟨by simp, ?_, ?_, ?_, ?_, ?_, ?_, ?_⟩ <;> intro hop <;> unfold execute1_opcode <;>
    simp only [hop] <;> simp

/-- C19, amended. `execute1` leaves the zero flag as it was when its latch is
blocked (busy or stalled), and when the latch holds STORE, STR, LOAD, LDR,
MOVC, BNZ, JUMP, HALT, the empty opcode or an unknown one, and when it holds
a BZ while the zero flag is not 1.  An unblocked BZ that finds the zero flag
at 1 (a taken BZ) resets it to 0. -/
theorem C19_zero_flag_frame (cpu : APEX_CPU) :
    ((cpu.EX1.busy ≠ 0 ∨ cpu.EX1.stalled ≠ 0) → (execute1 cpu).zeroFlag = cpu.zeroFlag)
    ∧ ((cpu.EX1.opcode = Opcode.STORE ∨ cpu.EX1.opcode = Opcode.STR
          ∨ cpu.EX1.opcode = Opcode.LOAD ∨ cpu.EX1.opcode = Opcode.LDR
          ∨ cpu.EX1.opcode = Opcode.MOVC ∨ cpu.EX1.opcode = Opcode.BNZ
          ∨ cpu.EX1.opcode = Opcode.JUMP ∨ cpu.EX1.opcode = Opcode.HALT
          ∨ cpu.EX1.opcode = Opcode.EMPTY ∨ cpu.EX1.opcode = Opcode.OTHER) →
        (execute1 cpu).zeroFlag = cpu.zeroFlag)
    ∧ (cpu.EX1.opcode = Opcode.BZ → cpu.zeroFlag ≠ 1 → (execute1 cpu).zeroFlag = cpu.zeroFlag)
    ∧ (cpu.EX1.opcode = Opcode.BZ → cpu.EX1.busy = 0 → cpu.EX1.stalled = 0 → cpu.zeroFlag = 1 →
        (execute1 cpu).zeroFlag = 0) := by
  refine ⟨?_, ?_, ?_, ?_⟩
  · intro h
    unfold execute1
    rw [if_neg (by tauto)]
    simp
  · intro h
    unfold execute1
    split_ifs
    · unfold execute1_opcode
      rcases h with h | h | h | h | h | h | h | h | h | h <;> simp only [h]
      all_goals first
        | rfl
        | (split_ifs <;> rfl)
    · simp
  · intro hop hz
    unfold execute1
    split_ifs
    · unfold execute1_opcode
      simp only [hop]
      rw [if_neg hz]
      simp
    · simp
  · intro hop hb hs hz
    rw [execute1_unblocked cpu hb hs]
    unfold execute1_opcode
    simp only [hop]
    rw [if_pos hz]
    simp

/-- C20. For every latch holding BZ (resp. BNZ) that `execute1` processes
unblocked: if the zero flag is 1 (resp. 0) the latch's `mem_address` becomes
the 32-bit sum of the latch's own `pc` and `imm`, which is `pc + imm` when
that is representable; otherwise the latch gets `insflush = 1` and the null
target `mem_address = 0`.  In every case the program counter is unchanged
and the latch handed to Execute-2 is the processed latch. -/
theorem C20_execute1_branch (cpu : APEX_CPU) (hb : cpu.EX1.busy = 0) (hs : cpu.EX1.stalled = 0)
    (hop : cpu.EX1.opcode = Opcode.BZ ∨ cpu.EX1.opcode = Opcode.BNZ) :
    (execute1 cpu).pc = cpu.pc
    ∧ (execute1 cpu).EX2 = (execute1 cpu).EX1
    ∧ (cpu.EX1.opcode = Opcode.BZ → cpu.zeroFlag = 1 →
        (execute1 cpu).EX1.mem_address = wrap32 (cpu.EX1.pc + cpu.EX1.imm)
        ∧ (-2147483648 ≤ cpu.EX1.pc + cpu.EX1.imm → cpu.EX1.pc + cpu.EX1.imm < 2147483648 →
            (execute1 cpu).EX1.mem_address = cpu.EX1.pc + cpu.EX1.imm))
    ∧ (cpu.EX1.opcode = Opcode.BZ → cpu.zeroFlag ≠ 1 →
        (execute1 cpu).EX1.insflush = 1 ∧ (execute1 cpu).EX1.mem_address = 0)
    ∧ (cpu.EX1.opcode = Opcode.BNZ → cpu.zeroFlag = 0 →
        (execute1 cpu).EX1.mem_address = wrap32 (cpu.EX1.pc + cpu.EX1.imm)
        ∧ (-2147483648 ≤ cpu.EX1.pc + cpu.EX1.imm → cpu.EX1.pc + cpu.EX1.imm < 2147483648 →
            (execute1 cpu).EX1.mem_address = cpu.EX1.pc + cpu.EX1.imm))
    ∧ (cpu.EX1.opcode = Opcode.BNZ → cpu.zeroFlag ≠ 0 →
        (execute1 cpu).EX1.insflush = 1 ∧ (execute1 cpu).EX1.mem_address = 0) := by
  rw [execute1_unblocked cpu hb hs]
  refine ⟨?_, by simp, ?_, ?_, ?_, ?_⟩
  · unfold execute1_opcode
    rcases hop with h | h <;> simp only [h] <;> split_ifs <;> simp
  · intro h hz
    unfold execute1_opcode
    simp only [h]
    rw [if_pos hz]
    refine ⟨by simp, fun h1 h2 => ?_⟩
    simp [wrap32_of_range _ h1 h2]
  · intro h hz
    unfold execute1_opcode
    simp only [h]
    rw [if_neg hz]
    simp
  · intro h hz
    unfold execute1_opcode
    simp only [h]
    rw [if_pos hz]
    refine ⟨by simp, fun h1 h2 => ?_⟩
    simp [wrap32_of_range _ h1 h2]
  · intro h hz
    unfold execute1_opcode
    simp only [h]
    rw [if_neg hz]
    simp

/-- An unblocked Memory-2 runs its opcode blocks and copies the latch to
Writeback. -/
theorem memory2_unblocked (cpu : APEX_CPU) (hb : cpu.MEM2.busy = 0) (hs : cpu.MEM2.stalled = 0)
    (hn : cpu.MEM2.nop = 0) : memory2 cpu = copy_MEM2_WB (memory2_opcode cpu) := by
  unfold memory2
  rw [if_pos ⟨hb, hs, hn⟩]

/-- C13. Let `execute1` process an unblocked latch (state `cpu1`) and let
`memory2` process the latch that `execute1` handed on (state `cpu2`, whose
Memory-2 latch is that latch; `execute2` and `memory1` only copy latches).
With an effective address inside `0 .. 3999`: for STORE (resp. STR) the data
memory after `memory2` holds `rs1_value` at `rs2_value + imm` (resp.
`rs2_value + rs3_value`) and is unchanged in every other cell; for LOAD
(resp. LDR) the buffer of the latch, in Memory-2 and as handed to Writeback,
is the cell at `rs1_value + imm` (resp. `rs1_value + rs2_value`), and data
memory is unchanged. -/
theorem C13_load_store (cpu1 cpu2 : APEX_CPU) (hb : cpu1.EX1.busy = 0)
    (hs : cpu1.EX1.stalled = 0) (hn : cpu1.EX1.nop = 0)
    (h2 : cpu2.MEM2 = (execute1 cpu1).EX2) :
    (∀ c, (execute2 c).MEM1 = c.EX2)
    ∧ (∀ c, (memory1 c).MEM2 = c.MEM1)
    ∧ (cpu1.EX1.opcode = Opcode.STORE →
        0 ≤ cpu1.EX1.rs2_value + cpu1.EX1.imm → cpu1.EX1.rs2_value + cpu1.EX1.imm < 4000 →
        (memory2 cpu2).data_memory (cpu1.EX1.rs2_value + cpu1.EX1.imm) = cpu1.EX1.rs1_value
        ∧ ∀ j, j ≠ cpu1.EX1.rs2_value + cpu1.EX1.imm →
            (memory2 cpu2).data_memory j = cpu2.data_memory j)
    ∧ (cpu1.EX1.opcode = Opcode.STR →
        0 ≤ cpu1.EX1.rs2_value + cpu1.EX1.rs3_value →
        cpu1.EX1.rs2_value + cpu1.EX1.rs3_value < 4000 →
        (memory2 cpu2).data_memory (cpu1.EX1.rs2_value + cpu1.EX1.rs3_value) = cpu1.EX1.rs1_value
        ∧ ∀ j, j ≠ cpu1.EX1.rs2_value + cpu1.EX1.rs3_value →
            (memory2 cpu2).data_memory j = cpu2.data_memory j)
    ∧ (cpu1.EX1.opcode = Opcode.LOAD →
        0 ≤ cpu1.EX1.rs1_value + cpu1.EX1.imm → cpu1.EX1.rs1_value + cpu1.EX1.imm < 4000 →
        (memory2 cpu2).MEM2.buffer = cpu2.data_memory (cpu1.EX1.rs1_value + cpu1.EX1.imm)
        ∧ (memory2 cpu2).WB.buffer = cpu2.data_memory (cpu1.EX1.rs1_value + cpu1.EX1.imm)
        ∧ (memory2 cpu2).data_memory = cpu2.data_memory)
    ∧ (cpu1.EX1.opcode = Opcode.LDR →
        0 ≤ cpu1.EX1.rs1_value + cpu1.EX1.rs2_value →
        cpu1.EX1.rs1_value + cpu1.EX1.rs2_value < 4000 →
        (memory2 cpu2).MEM2.buffer = cpu2.data_memory (cpu1.EX1.rs1_value + cpu1.EX1.rs2_value)
        ∧ (memory2 cpu2).WB.buffer = cpu2.data_memory (cpu1.EX1.rs1_value + cpu1.EX1.rs2_value)
        ∧ (memory2 cpu2).data_memory = cpu2.data_memory) := by
  have hx := execute1_unblocked cpu1 hb hs
  refine ⟨fun c => by rw [execute2_eq]; simp, fun c => by rw [memory1_eq]; simp, ?_, ?_, ?_, ?_⟩
  · intro hop h0 h1
    have hL : cpu2.MEM2 = (execute1_opcode cpu1).EX1 := by rw [h2, hx]; simp
    unfold execute1_opcode at hL
    simp only [hop] at hL
    have hw := wrap32_of_range (cpu1.EX1.rs2_value + cpu1.EX1.imm) (by omega) (by omega)
    have hm := memory2_unblocked cpu2 (by rw [hL]; simpa using hb) (by rw [hL]; simpa using hs)
      (by rw [hL]; simpa using hn)
    have ho : cpu2.MEM2.opcode = cpu1.EX1.opcode := by rw [hL]; simp
    rw [hm]
    unfold memory2_opcode
    simp only [ho, hop]
    refine ⟨by simp [hL, store, hw], fun j hj => ?_⟩
    simp [hL, store, hw, hj]
  · intro hop h0 h1
    have hL : cpu2.MEM2 = (execute1_opcode cpu1).EX1 := by rw [h2, hx]; simp
    unfold execute1_opcode at hL
    simp only [hop] at hL
    have hw := wrap32_of_range (cpu1.EX1.rs2_value + cpu1.EX1.rs3_value) (by omega) (by omega)
    have hm := memory2_unblocked cpu2 (by rw [hL]; simpa using hb) (by rw [hL]; simpa using hs)
      (by rw [hL]; simpa using hn)
    have ho : cpu2.MEM2.opcode = cpu1.EX1.opcode := by rw [hL]; simp
    rw [hm]
    unfold memory2_opcode
    simp only [ho, hop]
    refine ⟨by simp [hL, store, hw], fun j hj => ?_⟩
    simp [hL, store, hw, hj]
  · intro hop h0 h1
    have hL : cpu2.MEM2 = (execute1_opcode cpu1).EX1 := by rw [h2, hx]; simp
    unfold execute1_opcode at hL
    simp only [hop] at hL
    have hw := wrap32_of_range (cpu1.EX1.rs1_value + cpu1.EX1.imm) (by omega) (by omega)
    have hm := memory2_unblocked cpu2 (by rw [hL]; simpa using hb) (by rw [hL]; simpa using hs)
      (by rw [hL]; simpa using hn)
    have ho : cpu2.MEM2.opcode = cpu1.EX1.opcode := by rw [hL]; simp
    rw [hm]
    unfold memory2_opcode
    simp only [ho, hop]
    exact ⟨by simp [hL, hw], by simp [hL, hw], funext fun a => by simp⟩
  · intro hop h0 h1
    have hL : cpu2.MEM2 = (execute1_opcode cpu1).EX1 := by rw [h2, hx]; simp
    unfold execute1_opcode at hL
    simp only [hop] at hL
    have hw := wrap32_of_range (cpu1.EX1.rs1_value + cpu1.EX1.rs2_value) (by omega) (by omega)
    have hm := memory2_unblocked cpu2 (by rw [hL]; simpa using hb) (by rw [hL]; simpa using hs)
      (by rw [hL]; simpa using hn)
    have ho : cpu2.MEM2.opcode = cpu1.EX1.opcode := by rw [hL]; simp
    rw [hm]
    unfold memory2_opcode
    simp only [ho, hop]
    exact ⟨by simp [hL, hw], by simp [hL, hw], funext fun a => by simp⟩

/-- The opening statement of `decode` leaves the Decode latch with
`stalled = 0` and changes nothing else. -/
theorem decode_unstall_eq (cpu : APEX_CPU) : decode_unstall cpu = set_DRF_stalled cpu 0 := by
  unfold decode_unstall
  split_ifs with h
  · rfl
  · have h0 : cpu.DRF.stalled = 0 := not_not.mp h
    obtain ⟨clock, pc, regs, regs_valid, F, DRF, EX1, EX2, MEM1, MEM2, WB, cm, bey, dm, ic, zf,
      xh⟩ := cpu
    obtain ⟨a1, a2, a3, a4, a5, a6, a7, a8, a9, a10, a11, a12, a13, a14, a15, a16, a17, a18⟩ := DRF
    simp only at h0
    subst h0
    rfl

/-- A Decode stage that is not busy runs its opcode blocks and copies the
latch to Execute-1. -/
theorem decode_not_busy (cpu : APEX_CPU) (hb : cpu.DRF.busy = 0) :
    decode cpu = copy_DRF_EX1 (decode_opcode (set_DRF_stalled cpu 0)) := by
  unfold decode
  rw [decode_unstall_eq, if_pos ⟨by simpa using hb, by simp⟩]

set_option maxHeartbeats 2000000 in
/-- The blocks of `decode` that test the scoreboard, all tested entries being
different from 0. -/
theorem decode_opcode_ready (c : APEX_CPU) (hop : tests_rs1 c.DRF.opcode = true)
    (hr : sources_ready c) :
    (decode_opcode c).DRF.rs1_value = c.regs c.DRF.rs1
    ∧ (tests_rs2 c.DRF.opcode = true → (decode_opcode c).DRF.rs2_value = c.regs c.DRF.rs2)
    ∧ (tests_rs3 c.DRF.opcode = true → (decode_opcode c).DRF.rs3_value = c.regs c.DRF.rs3)
    ∧ (decode_opcode c).F.stalled = 0
    ∧ (decode_opcode c).DRF.stalled = 0
    ∧ (writes_rd c.DRF.opcode = true →
        (decode_opcode c).regs_valid c.DRF.rd = c.regs_valid c.DRF.rd - 1
        ∧ ∀ r, r ≠ c.DRF.rd → (decode_opcode c).regs_valid r = c.regs_valid r)
    ∧ (writes_rd c.DRF.opcode = false → ∀ r, (decode_opcode c).regs_valid r = c.regs_valid r)
    ∧ ∀ r, (decode_opcode c).regs r = c.regs r := by
  unfold sources_ready at hr
  cases hop2 : c.DRF.opcode <;> first
    | (simp only [hop2, tests_rs1, tests_rs2, tests_rs3, true_implies, Bool.false_eq_true,
         false_implies, and_true] at hr
       unfold decode_opcode
       simp only [hop2, tests_rs2, tests_rs3, writes_rd]
       rw [if_pos hr]
       simp [store]
       try (intro r h1 h2; exact absurd h2 h1))
    | (exfalso; revert hop; simp [tests_rs1, hop2])

/-- The blocks of `decode` that test the scoreboard, one tested entry being 0. -/
theorem decode_opcode_not_ready (c : APEX_CPU) (hop : tests_rs1 c.DRF.opcode = true)
    (hr : ¬ sources_ready c) :
    (decode_opcode c).F.stalled = 1
    ∧ (decode_opcode c).DRF.stalled = 1
    ∧ (∀ r, (decode_opcode c).regs_valid r = c.regs_valid r)
    ∧ ∀ r, (decode_opcode c).regs r = c.regs r := by
  unfold sources_ready at hr
  cases hop2 : c.DRF.opcode <;> first
    | (simp only [hop2, tests_rs1, tests_rs2, tests_rs3, true_implies, Bool.false_eq_true,
         false_implies, and_true] at hr
       unfold decode_opcode
       simp only [hop2]
       rw [if_neg hr]
       simp)
    | (exfalso; revert hop; simp [tests_rs1, hop2])

/-- C16. Readiness of a source register is the test of the source,
`regs_valid[r] != 0` (a negative entry passes it).  For every state whose
Decode latch is not busy and holds STORE, STR, LOAD, LDR, ADD, SUB, MUL, ADDL,
SUBL, AND, OR or EXOR: if every source register that the opcode reads is
ready, `decode` copies the current values of those registers into the latch,
leaves `stalled = 0` in Fetch and Decode and, when the opcode has a
destination, subtracts one from `regs_valid[rd]` and changes no other
scoreboard entry (none at all for STORE and STR); if some source register
is not ready, `decode` sets `stalled = 1` in Fetch and Decode and leaves the
scoreboard unchanged.  In both cases the register file is unchanged and the
Execute-1 latch receives a copy of the Decode latch, flags included. -/
theorem C16_decode_reads_sources (cpu : APEX_CPU) (hb : cpu.DRF.busy = 0)
    (hop : tests_rs1 cpu.DRF.opcode = true) :
    (sources_ready cpu →
      (decode cpu).DRF.rs1_value = cpu.regs cpu.DRF.rs1
      ∧ (tests_rs2 cpu.DRF.opcode = true → (decode cpu).DRF.rs2_value = cpu.regs cpu.DRF.rs2)
      ∧ (tests_rs3 cpu.DRF.opcode = true → (decode cpu).DRF.rs3_value = cpu.regs cpu.DRF.rs3)
      ∧ (decode cpu).F.stalled = 0
      ∧ (decode cpu).DRF.stalled = 0
      ∧ (decode cpu).EX1 = (decode cpu).DRF
      ∧ (writes_rd cpu.DRF.opcode = true →
          (decode cpu).regs_valid cpu.DRF.rd = cpu.regs_valid cpu.DRF.rd - 1
          ∧ ∀ r, r ≠ cpu.DRF.rd → (decode cpu).regs_valid r = cpu.regs_valid r)
      ∧ (writes_rd cpu.DRF.opcode = false → ∀ r, (decode cpu).regs_valid r = cpu.regs_valid r)
      ∧ ∀ r, (decode cpu).regs r = cpu.regs r)
    ∧ (¬ sources_ready cpu →
      (decode cpu).F.stalled = 1
      ∧ (decode cpu).DRF.stalled = 1
      ∧ (decode cpu).EX1 = (decode cpu).DRF
      ∧ (∀ r, (decode cpu).regs_valid r = cpu.regs_valid r)
      ∧ ∀ r, (decode cpu).regs r = cpu.regs r) := by
  have hop2 : tests_rs1 (set_DRF_stalled cpu 0).DRF.opcode = true := by simpa using hop
  have hiff : sources_ready (set_DRF_stalled cpu 0) ↔ sources_ready cpu := by
    unfold sources_ready
    simp
  rw [decode_not_busy cpu hb]
  constructor
  · intro hr
    have h := decode_opcode_ready (set_DRF_stalled cpu 0) hop2 (hiff.mpr hr)
    simp only [set_DRF_stalled_DRF_opcode, set_DRF_stalled_DRF_rs1, set_DRF_stalled_DRF_rs2,
      set_DRF_stalled_DRF_rs3, set_DRF_stalled_DRF_rd, set_DRF_stalled_regs,
      set_DRF_stalled_regs_valid] at h
    simpa using h
  · intro hr
    have h := decode_opcode_not_ready (set_DRF_stalled cpu 0) hop2 (fun hx => hr (hiff.mp hx))
    simp only [set_DRF_stalled_regs, set_DRF_stalled_regs_valid] at h
    simpa using h

/-- Fetching twice at the same program counter gives the latch of fetching
once. -/
theorem fetch_load_idem (cpu : APEX_CPU) : fetch_load (fetch_load cpu) = fetch_load cpu := rfl

/-- Emptying the opcode of the Fetch latch twice is emptying it once. -/
theorem clear_F_opcode_idem (cpu : APEX_CPU) :
    clear_F_opcode (clear_F_opcode cpu) = clear_F_opcode cpu := rfl

set_option maxRecDepth 100000 in
/-- C17 (the code at the failing input). In the run of
`[MOVC R1,#12; JUMP R1,#4000; MOVC R2,#99; HALT]`, after 2 cycles Decode
holds the JUMP, not busy, while the MOVC that writes `R1` is in Execute-1 and
`regs_valid[1] = 0`.  `decode` of the next iteration does not stall: it leaves
`stalled = 0` in Fetch and Decode, latches the current `regs[1] = 0` as
`rs1_value` and hands the JUMP to Execute-1.  `execute1` of the iteration
after sets `pc` to `0 + 4000`; the MOVC writes `R1 = 12` only in iteration
7, and with that value the target is 4012. -/
theorem C17_jump_reads_pending_register :
    (cycles 2 (APEX_cpu_init prog_jump no_code)).DRF.opcode = Opcode.JUMP
    ∧ (cycles 2 (APEX_cpu_init prog_jump no_code)).DRF.busy = 0
    ∧ (cycles 2 (APEX_cpu_init prog_jump no_code)).DRF.rs1 = 1
    ∧ (cycles 2 (APEX_cpu_init prog_jump no_code)).EX1.opcode = Opcode.MOVC
    ∧ (cycles 2 (APEX_cpu_init prog_jump no_code)).EX1.rd = 1
    ∧ (after_execute1 (cycles 2 (APEX_cpu_init prog_jump no_code))).regs_valid 1 = 0
    ∧ (after_execute1 (cycles 2 (APEX_cpu_init prog_jump no_code))).regs 1 = 0
    ∧ (before_fetch (cycles 2 (APEX_cpu_init prog_jump no_code))).F.stalled = 0
    ∧ (before_fetch (cycles 2 (APEX_cpu_init prog_jump no_code))).DRF.stalled = 0
    ∧ (before_fetch (cycles 2 (APEX_cpu_init prog_jump no_code))).DRF.rs1_value = 0
    ∧ (before_fetch (cycles 2 (APEX_cpu_init prog_jump no_code))).EX1.opcode = Opcode.JUMP
    ∧ (cycles 3 (APEX_cpu_init prog_jump no_code)).EX1.opcode = Opcode.JUMP
    ∧ (cycles 3 (APEX_cpu_init prog_jump no_code)).EX1.stalled = 0
    ∧ (cycles 3 (APEX_cpu_init prog_jump no_code)).EX1.rs1_value = 0
    ∧ (cycles 3 (APEX_cpu_init prog_jump no_code)).DRF.pc = 4008
    ∧ (cycles 3 (APEX_cpu_init prog_jump no_code)).pc = 4012
    ∧ (after_execute1 (cycles 3 (APEX_cpu_init prog_jump no_code))).pc = 4000
    ∧ (cycles 6 (APEX_cpu_init prog_jump no_code)).regs 1 = 0
    ∧ (cycles 7 (APEX_cpu_init prog_jump no_code)).regs 1 = 12 :=
  ⟨rfl, rfl, rfl, rfl, rfl, rfl, rfl, rfl, rfl, rfl, rfl, rfl, rfl, rfl, rfl, rfl, rfl, rfl, rfl⟩

set_option maxRecDepth 100000 in
/-- Counterexample to C18. In the run of `[AND R1,R0,R0; BZ #8; MOVC R2,#99; HALT]`
Execute-1 holds the AND unblocked after 2 cycles, with both operand values 0.
`execute1` of the next iteration computes the buffer 0 and leaves the zero
flag at 0.  The BZ behind the AND is not taken and the run ends after 10
iterations with `R2 = 99`. -/
theorem C18_and_leaves_zero_flag :
    (before_execute1 (cycles 2 (APEX_cpu_init prog_and no_code))).EX1.opcode = Opcode.AND
    ∧ (before_execute1 (cycles 2 (APEX_cpu_init prog_and no_code))).EX1.busy = 0
    ∧ (before_execute1 (cycles 2 (APEX_cpu_init prog_and no_code))).EX1.stalled = 0
    ∧ (before_execute1 (cycles 2 (APEX_cpu_init prog_and no_code))).EX1.rs1_value = 0
    ∧ (before_execute1 (cycles 2 (APEX_cpu_init prog_and no_code))).EX1.rs2_value = 0
    ∧ (before_execute1 (cycles 2 (APEX_cpu_init prog_and no_code))).zeroFlag = 0
    ∧ (execute1 (before_execute1 (cycles 2 (APEX_cpu_init prog_and no_code)))).EX1.buffer = 0
    ∧ (execute1 (before_execute1 (cycles 2 (APEX_cpu_init prog_and no_code)))).zeroFlag = 0
    ∧ (cycles 3 (APEX_cpu_init prog_and no_code)).EX1.opcode = Opcode.BZ
    ∧ (cycles 3 (APEX_cpu_init prog_and no_code)).zeroFlag = 0
    ∧ ¬ takes_branch (cycles 6 (APEX_cpu_init prog_and no_code))
    ∧ APEX_cpu_run 10 (APEX_cpu_init prog_and no_code)
        = some (cycles 10 (APEX_cpu_init prog_and no_code))
    ∧ (cycles 10 (APEX_cpu_init prog_and no_code)).regs 2 = 99 :=
  ⟨rfl, rfl, rfl, rfl, rfl, rfl, rfl, rfl, rfl, rfl, by decide, rfl, rfl⟩

set_option maxRecDepth 100000 in
/-- Counterexample to C19. In the run of
`[SUB R1,R0,R0; BZ #16; MOVC R2,#1; MOVC R3,#2; MOVC R4,#3; HALT]` Execute-1
holds the BZ unblocked after 3 cycles and the zero flag is 1, from the SUB
with the result 0 that is now in Execute-2.  `execute1` of the next
iteration, processing the BZ, leaves the zero flag at 0. -/
theorem C19_taken_bz_clears_zero_flag :
    (before_execute1 (cycles 3 (APEX_cpu_init prog_taken no_code))).EX1.opcode = Opcode.BZ
    ∧ (before_execute1 (cycles 3 (APEX_cpu_init prog_taken no_code))).EX1.busy = 0
    ∧ (before_execute1 (cycles 3 (APEX_cpu_init prog_taken no_code))).EX1.stalled = 0
    ∧ (cycles 3 (APEX_cpu_init prog_taken no_code)).EX2.opcode = Opcode.SUB
    ∧ (cycles 3 (APEX_cpu_init prog_taken no_code)).EX2.buffer = 0
    ∧ (before_execute1 (cycles 3 (APEX_cpu_init prog_taken no_code))).zeroFlag = 1
    ∧ (execute1 (before_execute1 (cycles 3 (APEX_cpu_init prog_taken no_code)))).zeroFlag = 0
    ∧ (cycles 4 (APEX_cpu_init prog_taken no_code)).zeroFlag = 0 :=
  ⟨rfl, rfl, rfl, rfl, rfl, rfl, rfl, rfl⟩

set_option maxRecDepth 100000 in
/-- Witness of C13: in the run of `[MOVC R1,#7; STORE R1,R0,#12; LOAD R2,R0,#12; HALT]`
`execute1` processes the STORE in the iteration after cycle 7 and `memory2`
processes the same latch in the iteration after cycle 10, which leaves 7 in
the data cell 12. -/
theorem C13_load_store_witness :
    (writeback (cycles 10 (APEX_cpu_init prog_store no_code))).MEM2
      = (execute1 (before_execute1 (cycles 7 (APEX_cpu_init prog_store no_code)))).EX2
    ∧ (memory2 (writeback (cycles 10 (APEX_cpu_init prog_store no_code)))).data_memory 12 = 7 :=
  ⟨rfl,
   ((C13_load_store (before_execute1 (cycles 7 (APEX_cpu_init prog_store no_code)))
      (writeback (cycles 10 (APEX_cpu_init prog_store no_code))) rfl rfl rfl rfl).2.2.1
      rfl (by decide) (by decide)).1⟩

set_option maxRecDepth 100000 in
/-- Witness of C15: after 6 cycles of `[MOVC R1,#5; MOVC R2,#10; ADD R3,R1,R2; HALT]`
Writeback holds `MOVC R1,#5`; `writeback` sets `R1 = 5`, releases `R1` and
counts one instruction. -/
theorem C15_writeback_commits_register_witness :
    wb_commits (run_add 5 10 no_code 6)
    ∧ (writeback (run_add 5 10 no_code 6)).regs 1 = 5
    ∧ (writeback (run_add 5 10 no_code 6)).regs_valid 1 = 1
    ∧ (writeback (run_add 5 10 no_code 6)).ins_completed = 1 :=
  ⟨by decide,
   (C15_writeback_commits_register (run_add 5 10 no_code 6) (by decide) rfl).1,
   (C15_writeback_commits_register (run_add 5 10 no_code 6) (by decide) rfl).2.2.1,
   (C15_writeback_commits_register (run_add 5 10 no_code 6) (by decide) rfl).2.2.2.2.2.2⟩

set_option maxRecDepth 100000 in
/-- Witness of C16: in the run of `[MOVC R1,#5; MOVC R2,#10; ADD R3,R1,R2; HALT]`
the ADD is in Decode with `R1` pending in the iteration after cycle 3, where
`decode` stalls Fetch and Decode, and with both sources ready in the
iteration after cycle 7, where `decode` latches `R1 = 5` and `R2 = 10` and
claims `R3`. -/
theorem C16_decode_reads_sources_witness :
    ¬ sources_ready (after_execute1 (run_add 5 10 no_code 3))
    ∧ (decode (after_execute1 (run_add 5 10 no_code 3))).F.stalled = 1
    ∧ (decode (after_execute1 (run_add 5 10 no_code 3))).DRF.stalled = 1
    ∧ sources_ready (after_execute1 (run_add 5 10 no_code 7))
    ∧ (decode (after_execute1 (run_add 5 10 no_code 7))).DRF.rs1_value = 5
    ∧ (decode (after_execute1 (run_add 5 10 no_code 7))).DRF.rs2_value = 10
    ∧ (decode (after_execute1 (run_add 5 10 no_code 7))).regs_valid 3 = 0 :=
  ⟨by decide,
   ((C16_decode_reads_sources (after_execute1 (run_add 5 10 no_code 3)) rfl rfl).2 (by decide)).1,
   ((C16_decode_reads_sources (after_execute1 (run_add 5 10 no_code 3)) rfl rfl).2
      (by decide)).2.1,
   by decide,
   ((C16_decode_reads_sources (after_execute1 (run_add 5 10 no_code 7)) rfl rfl).1 (by decide)).1,
   ((C16_decode_reads_sources (after_execute1 (run_add 5 10 no_code 7)) rfl rfl).1
      (by decide)).2.1 rfl,
   (((C16_decode_reads_sources (after_execute1 (run_add 5 10 no_code 7)) rfl rfl).1
      (by decide)).2.2.2.2.2.2.1 rfl).1⟩

set_option maxRecDepth 100000 in
/-- Witness of C18, amended: the ADD of `[MOVC R1,#5; MOVC R2,#10; ADD R3,R1,R2; HALT]`
is processed by `execute1` in the iteration after cycle 8, which gives the
buffer 15 and the zero flag 0. -/
theorem C18_execute1_result_and_flag_witness :
    (execute1 (before_execute1 (run_add 5 10 no_code 8))).EX1.buffer = 15
    ∧ (execute1 (before_execute1 (run_add 5 10 no_code 8))).zeroFlag = 0 :=
  ⟨((C18_execute1_result_and_flag (before_execute1 (run_add 5 10 no_code 8)) rfl rfl).2.1 rfl).1,
   ((C18_execute1_result_and_flag (before_execute1 (run_add 5 10 no_code 8)) rfl rfl).2.1 rfl).2⟩

set_option maxRecDepth 100000 in
/-- Witness of C19, amended: the BZ of `[MOVC R1,#0; BZ #8; MOVC R2,#99; HALT]`
finds the zero flag 0 and leaves it; the BZ of
`[SUB R1,R0,R0; BZ #16; MOVC R2,#1; MOVC R3,#2; MOVC R4,#3; HALT]` finds it 1
and resets it. -/
theorem C19_zero_flag_frame_witness :
    (execute1 (before_execute1 (cycles 3 (APEX_cpu_init prog_bz no_code)))).zeroFlag
      = (before_execute1 (cycles 3 (APEX_cpu_init prog_bz no_code))).zeroFlag
    ∧ (execute1 (before_execute1 (cycles 3 (APEX_cpu_init prog_taken no_code)))).zeroFlag = 0 :=
  ⟨(C19_zero_flag_frame (before_execute1 (cycles 3 (APEX_cpu_init prog_bz no_code)))).2.2.1 rfl
     (by decide),
   (C19_zero_flag_frame (before_execute1 (cycles 3 (APEX_cpu_init prog_taken no_code)))).2.2.2
     rfl rfl rfl rfl⟩

set_option maxRecDepth 100000 in
/-- Witness of C20: the BZ at 4004 of
`[SUB R1,R0,R0; BZ #16; MOVC R2,#1; MOVC R3,#2; MOVC R4,#3; HALT]` finds the
zero flag 1 and gets the target 4020; the BZ of
`[MOVC R1,#0; BZ #8; MOVC R2,#99; HALT]` finds it 0 and gets `insflush = 1`
and the target 0. -/
theorem C20_execute1_branch_witness :
    (execute1 (before_execute1 (cycles 3 (APEX_cpu_init prog_taken no_code)))).EX1.mem_address = 4020
    ∧ (execute1 (before_execute1 (cycles 3 (APEX_cpu_init prog_bz no_code)))).EX1.insflush = 1
    ∧ (execute1 (before_execute1 (cycles 3 (APEX_cpu_init prog_bz no_code)))).EX1.mem_address = 0
    ∧ (execute1 (before_execute1 (cycles 3 (APEX_cpu_init prog_bz no_code)))).pc
        = (before_execute1 (cycles 3 (APEX_cpu_init prog_bz no_code))).pc :=
  ⟨((C20_execute1_branch (before_execute1 (cycles 3 (APEX_cpu_init prog_taken no_code))) rfl rfl
      (Or.inl rfl)).2.2.1 rfl rfl).2 (by decide) (by decide),
   ((C20_execute1_branch (before_execute1 (cycles 3 (APEX_cpu_init prog_bz no_code))) rfl rfl
      (Or.inl rfl)).2.2.2.1 rfl (by decide)).1,
   ((C20_execute1_branch (before_execute1 (cycles 3 (APEX_cpu_init prog_bz no_code))) rfl rfl
      (Or.inl rfl)).2.2.2.1 rfl (by decide)).2,
   (C20_execute1_branch (before_execute1 (cycles 3 (APEX_cpu_init prog_bz no_code))) rfl rfl
      (Or.inl rfl)).1⟩

/-- What the body of the BZ/BNZ block of `memory2` for a target other than 0
does to the program counter, the Decode and Memory-1 latches, the scoreboard
and `ins_completed`. -/
theorem memory2_taken_effect (cpu : APEX_CPU) :
    (memory2_taken cpu).pc = cpu.MEM2.mem_address
    ∧ (memory2_taken cpu).DRF = { cpu.DRF with pc := 0, opcode := Opcode.EMPTY }
    ∧ (memory2_taken cpu).MEM1 = { cpu.MEM1 with opcode := Opcode.EMPTY, pc := 0 }
    ∧ (memory2_taken cpu).MEM2 = cpu.MEM2
    ∧ (writes_rd cpu.MEM1.opcode = true →
        ∀ r, (memory2_taken cpu).regs_valid r
          = store cpu.regs_valid cpu.MEM1.rd (cpu.regs_valid cpu.MEM1.rd + 1) r)
    ∧ (writes_rd cpu.MEM1.opcode = false → ∀ r, (memory2_taken cpu).regs_valid r = cpu.regs_valid r)
    ∧ (0 ≤ cpu.MEM2.imm →
        (memory2_taken cpu).ins_completed = cpu.ins_completed - Int.tdiv cpu.MEM2.imm 4)
    ∧ (cpu.MEM2.imm < 0 →
        (memory2_taken cpu).ins_completed = cpu.ins_completed + Int.tdiv cpu.MEM2.imm 4 - 1) := by
  unfold memory2_taken adjust_ins_completed
  dsimp only
  refine ⟨?_, ?_, ?_, ?_, ?_, ?_, ?_, ?_⟩
  · split_ifs <;> simp
  · split_ifs <;> rfl
  · split_ifs <;> rfl
  · split_ifs <;> rfl
  · intro h r
    split_ifs <;> simp [store]
  · intro h r
    split_ifs with h1 <;> first | exact absurd (h.symm.trans h1) (by decide) | simp
  · intro h
    split_ifs <;> simp at * <;> omega
  · intro h
    split_ifs <;> simp at * <;> omega

/-- The BZ/BNZ block of `memory2`. -/
theorem memory2_branch (cpu : APEX_CPU) (hb : cpu.MEM2.busy = 0) (hs : cpu.MEM2.stalled = 0)
    (hn : cpu.MEM2.nop = 0) (hop : cpu.MEM2.opcode = Opcode.BZ ∨ cpu.MEM2.opcode = Opcode.BNZ) :
    (cpu.MEM2.mem_address ≠ 0 → memory2 cpu = copy_MEM2_WB (memory2_taken cpu))
    ∧ (cpu.MEM2.mem_address = 0 → memory2 cpu = copy_MEM2_WB cpu) := by
  rw [memory2_unblocked cpu hb hs hn]
  unfold memory2_opcode
  rcases hop with h | h <;> simp only [h] <;> constructor <;> intro ha
  · rw [if_pos ha]
  · rw [if_neg (by simp [ha])]
  · rw [if_pos ha]
  · rw [if_neg (by simp [ha])]

/-- C21. For every state whose Memory-2 latch is not busy, not stalled, has
`nop = 0` and holds BZ or BNZ.  If the latch's `mem_address` is not 0,
`memory2` sets the program counter to it, empties the Decode latch and the
Memory-1 latch (opcode empty, `pc = 0`, their other fields unchanged), and
adds one to `regs_valid[rd]` of the Memory-1 latch when the opcode of that
latch is one that writes a destination register; no other scoreboard entry
changes, and none at all when the opcode writes no destination.  If
`mem_address` is 0, `memory2` changes none of the program counter, the
scoreboard, `ins_completed`, the Decode latch and the Memory-1 latch. -/
theorem C21_memory2_branch_resolution (cpu : APEX_CPU) (hb : cpu.MEM2.busy = 0)
    (hs : cpu.MEM2.stalled = 0) (hn : cpu.MEM2.nop = 0)
    (hop : cpu.MEM2.opcode = Opcode.BZ ∨ cpu.MEM2.opcode = Opcode.BNZ) :
    (cpu.MEM2.mem_address ≠ 0 →
      (memory2 cpu).pc = cpu.MEM2.mem_address
      ∧ (memory2 cpu).DRF = { cpu.DRF with pc := 0, opcode := Opcode.EMPTY }
      ∧ (memory2 cpu).MEM1 = { cpu.MEM1 with opcode := Opcode.EMPTY, pc := 0 }
      ∧ (writes_rd cpu.MEM1.opcode = true →
          (memory2 cpu).regs_valid cpu.MEM1.rd = cpu.regs_valid cpu.MEM1.rd + 1
          ∧ ∀ r, r ≠ cpu.MEM1.rd → (memory2 cpu).regs_valid r = cpu.regs_valid r)
      ∧ (writes_rd cpu.MEM1.opcode = false → ∀ r, (memory2 cpu).regs_valid r = cpu.regs_valid r))
    ∧ (cpu.MEM2.mem_address = 0 →
      (memory2 cpu).pc = cpu.pc
      ∧ (∀ r, (memory2 cpu).regs_valid r = cpu.regs_valid r)
      ∧ (memory2 cpu).ins_completed = cpu.ins_completed
      ∧ (memory2 cpu).DRF = cpu.DRF
      ∧ (memory2 cpu).MEM1 = cpu.MEM1) := by
  obtain ⟨ht, hz⟩ := memory2_branch cpu hb hs hn hop
  obtain ⟨e1, e2, e3, -, e5, e6, -, -⟩ := memory2_taken_effect cpu
  constructor
  · intro ha
    rw [ht ha]
    refine ⟨by simpa using e1, by simpa using e2, by simpa using e3, fun hw => ?_, fun hw r => ?_⟩
    · refine ⟨?_, fun r hr => ?_⟩
      · simp [e5 hw, store]
      · simp [e5 hw, store, hr]
    · simpa using e6 hw r
  · intro ha
    rw [hz ha]
    exact ⟨rfl, fun r => rfl, rfl, rfl, rfl⟩

/-- C22, amended. For every taken BZ/BNZ that `memory2` resolves (Memory-2
latch not busy, not stalled, `nop = 0`, target other than 0), with the
immediate `imm` of the latch, `/` the division of C (rounding toward 0) and
`c` the value of `ins_completed` when `memory2` is called: for `imm >= 0`
the counter afterwards is `c - imm/4`; for `imm < 0` it is `c + imm/4 - 1`. -/
theorem C22_branch_counter_adjustment (cpu : APEX_CPU) (h : takes_branch cpu) :
    (0 ≤ cpu.MEM2.imm →
      (memory2 cpu).ins_completed = cpu.ins_completed - Int.tdiv cpu.MEM2.imm 4)
    ∧ (cpu.MEM2.imm < 0 →
      (memory2 cpu).ins_completed = cpu.ins_completed + Int.tdiv cpu.MEM2.imm 4 - 1) := by
  obtain ⟨hb, hs, hn, hop, ha⟩ := h
  obtain ⟨-, -, -, -, -, -, e7, e8⟩ := memory2_taken_effect cpu
  rw [(memory2_branch cpu hb hs hn hop).1 ha]
  exact ⟨fun hi => by simpa using e7 hi, fun hi => by simpa using e8 hi⟩

/-- Writeback never clears the `stalled` flag of the Execute-2 and Memory-2
latches. -/
theorem writeback_keeps_stalled (cpu : APEX_CPU) :
    (cpu.EX2.stalled ≠ 0 → (writeback cpu).EX2.stalled ≠ 0)
    ∧ (cpu.MEM2.stalled ≠ 0 → (writeback cpu).MEM2.stalled ≠ 0) := by
  unfold writeback writeback_opcode
  split_ifs
  · split <;> simp
  · exact ⟨id, id⟩

/-- Memory-2 never clears the `stalled` flag of the Memory-1 latch. -/
theorem memory2_keeps_MEM1_stalled (cpu : APEX_CPU) (h : cpu.MEM1.stalled ≠ 0) :
    (memory2 cpu).MEM1.stalled ≠ 0 := by
  unfold memory2
  split_ifs
  · unfold memory2_opcode memory2_taken adjust_ins_completed
    split <;> (try dsimp only) <;> (try split_ifs) <;> simp [h]
  · simpa using h

/-- Over one iteration a stalled latch moves one stage down and stays
stalled. -/
theorem cycle_keeps_stalled (cpu : APEX_CPU) :
    (cpu.EX1.stalled ≠ 0 → (cycle cpu).EX2.stalled ≠ 0)
    ∧ (cpu.EX2.stalled ≠ 0 → (cycle cpu).MEM1.stalled ≠ 0)
    ∧ (cpu.MEM1.stalled ≠ 0 → (cycle cpu).MEM2.stalled ≠ 0)
    ∧ (cpu.MEM2.stalled ≠ 0 → (cycle cpu).WB.stalled ≠ 0) := by
  refine ⟨fun h => ?_, fun h => ?_, fun h => ?_, fun h => ?_⟩
  · unfold cycle
    rw [inc_clock_EX2, (fetch_keeps _).2.2.2.1, (decode_keeps _).2.2.2.1,
      (execute1_keeps _).2.2.2.2.2.2, before_execute1_EX1]
    exact h
  · unfold cycle
    rw [inc_clock_MEM1, (fetch_keeps _).2.2.1, (decode_keeps _).2.2.1, (execute1_keeps _).2.2.1,
      execute2_eq, copy_EX2_MEM1_MEM1, memory1_eq, copy_MEM1_MEM2_EX2, (memory2_keeps _).2.1]
    exact (writeback_keeps_stalled cpu).1 h
  · unfold cycle
    rw [inc_clock_MEM2, (fetch_keeps _).2.1, (decode_keeps _).2.1, (execute1_keeps _).2.1,
      execute2_eq, copy_EX2_MEM1_MEM2, memory1_eq, copy_MEM1_MEM2_MEM2]
    exact memory2_keeps_MEM1_stalled _ (by rw [(writeback_keeps cpu).2.1]; exact h)
  · have hk := (memory2_keeps (writeback cpu)).2.2.2
    simp only [ctl, Prod.mk.injEq] at hk
    unfold cycle
    rw [inc_clock_WB, (fetch_keeps _).1, (decode_keeps _).1, (execute1_keeps _).1, execute2_eq,
      copy_EX2_MEM1_WB, memory1_eq, copy_MEM1_MEM2_WB, hk.2.2.1]
    exact (writeback_keeps_stalled cpu).2 h

/-- A latch that is stalled in Execute-1 is, four iterations later, a stalled
latch in Writeback, which does not commit. -/
theorem stalled_never_commits (cpu : APEX_CPU) (h : cpu.EX1.stalled ≠ 0) :
    ¬ wb_commits (cycles 4 cpu) := by
  have h1 := (cycle_keeps_stalled cpu).1 h
  have h2 := (cycle_keeps_stalled _).2.1 h1
  have h3 := (cycle_keeps_stalled _).2.2.1 h2
  have h4 := (cycle_keeps_stalled _).2.2.2 h3
  intro hc
  exact h4 hc.2.1

/-- C24. For every state: `execute1`, `execute2`, `memory1` and `memory2`
applied to a latch whose `stalled` flag is set copy that latch unchanged into
the next stage and change no register, scoreboard entry, data-memory cell,
program counter, zero flag or `ins_completed`; `writeback` applied to a
stalled latch changes nothing.  Over an iteration a stalled latch in
Execute-1, Execute-2, Memory-1 or Memory-2 is followed by a stalled latch in
the next stage.  When `decode` finds a source register not ready it leaves
a latch with `stalled = 1` in Execute-1, and a latch that is stalled in
Execute-1 is not committed by the `writeback` that meets it four iterations
later. -/
theorem C24_stalled_latch_has_no_effect (cpu : APEX_CPU) :
    (cpu.EX1.stalled ≠ 0 → (execute1 cpu).EX2 = cpu.EX1 ∧ same_arch (execute1 cpu) cpu)
    ∧ (cpu.EX2.stalled ≠ 0 → (execute2 cpu).MEM1 = cpu.EX2 ∧ same_arch (execute2 cpu) cpu)
    ∧ (cpu.MEM1.stalled ≠ 0 → (memory1 cpu).MEM2 = cpu.MEM1 ∧ same_arch (memory1 cpu) cpu)
    ∧ (cpu.MEM2.stalled ≠ 0 → (memory2 cpu).WB = cpu.MEM2 ∧ same_arch (memory2 cpu) cpu)
    ∧ (cpu.WB.stalled ≠ 0 → writeback cpu = cpu)
    ∧ (cpu.EX1.stalled ≠ 0 → (cycle cpu).EX2.stalled ≠ 0)
    ∧ (cpu.EX2.stalled ≠ 0 → (cycle cpu).MEM1.stalled ≠ 0)
    ∧ (cpu.MEM1.stalled ≠ 0 → (cycle cpu).MEM2.stalled ≠ 0)
    ∧ (cpu.MEM2.stalled ≠ 0 → (cycle cpu).WB.stalled ≠ 0)
    ∧ (cpu.DRF.busy = 0 → tests_rs1 cpu.DRF.opcode = true → ¬ sources_ready cpu →
        (decode cpu).EX1.stalled = 1)
    ∧ (cpu.EX1.stalled ≠ 0 → ¬ wb_commits (cycles 4 cpu)) := by
  obtain ⟨c1, c2, c3, c4⟩ := cycle_keeps_stalled cpu
  refine ⟨fun h => ?_, fun _ => ?_, fun _ => ?_, fun h => ?_, fun h => ?_, c1, c2, c3, c4,
    fun hb hop hr => ?_, stalled_never_commits cpu⟩
  · have he : execute1 cpu = copy_EX1_EX2 cpu := by
      unfold execute1
      rw [if_neg (fun hx => h hx.2)]
    rw [he]
    exact ⟨rfl, rfl, rfl, rfl, rfl, rfl, rfl⟩
  · rw [execute2_eq]
    exact ⟨rfl, rfl, rfl, rfl, rfl, rfl, rfl⟩
  · rw [memory1_eq]
    exact ⟨rfl, rfl, rfl, rfl, rfl, rfl, rfl⟩
  · have he : memory2 cpu = copy_MEM2_WB cpu := by
      unfold memory2
      rw [if_neg (fun hx => h hx.2.1)]
    rw [he]
    exact ⟨rfl, rfl, rfl, rfl, rfl, rfl, rfl⟩
  · unfold writeback
    rw [if_neg (fun hx => h hx.2.1)]
  · have hop2 : tests_rs1 (set_DRF_stalled cpu 0).DRF.opcode = true := by simpa using hop
    have hr2 : ¬ sources_ready (set_DRF_stalled cpu 0) := by
      unfold sources_ready at hr ⊢
      simpa using hr
    rw [decode_not_busy cpu hb]
    simpa using (decode_opcode_not_ready _ hop2 hr2).2.1

set_option maxRecDepth 100000 in
/-- Counterexample to C22. In the run of `[MOVC R1,#1; MOVC R2,#2; BNZ #-8; HALT]`
`memory2` resolves the BNZ (immediate -8) as taken in the iteration after
cycle 7, with `ins_completed = 2` when it is called.  Afterwards the counter
is `2 + (-8)/4 - 1 = -1`; it is neither `2 - (-8)/4 + 1 = 5` nor
`2 - (-8)/4 - 1 = 3`. -/
theorem C22_backward_branch_counter :
    takes_branch (writeback (cycles 7 (APEX_cpu_init prog_back no_code)))
    ∧ (writeback (cycles 7 (APEX_cpu_init prog_back no_code))).MEM2.opcode = Opcode.BNZ
    ∧ (writeback (cycles 7 (APEX_cpu_init prog_back no_code))).MEM2.imm = -8
    ∧ (writeback (cycles 7 (APEX_cpu_init prog_back no_code))).ins_completed = 2
    ∧ (memory2 (writeback (cycles 7 (APEX_cpu_init prog_back no_code)))).ins_completed = -1
    ∧ (memory2 (writeback (cycles 7 (APEX_cpu_init prog_back no_code)))).ins_completed
        ≠ (writeback (cycles 7 (APEX_cpu_init prog_back no_code))).ins_completed
            - Int.tdiv (writeback (cycles 7 (APEX_cpu_init prog_back no_code))).MEM2.imm 4 + 1
    ∧ (memory2 (writeback (cycles 7 (APEX_cpu_init prog_back no_code)))).ins_completed
        ≠ (writeback (cycles 7 (APEX_cpu_init prog_back no_code))).ins_completed
            - Int.tdiv (writeback (cycles 7 (APEX_cpu_init prog_back no_code))).MEM2.imm 4 - 1 :=
  ⟨by decide, rfl, rfl, rfl, rfl, by decide, by decide⟩

set_option maxRecDepth 100000 in
/-- C23 (the code at the failing input). In the run of
`[MOVC R2,#1; SUB R1,R0,R0; BZ #12; ADD R3,R2,R2; MOVC R4,#4; HALT]` the ADD
waits in Decode for `R2` in the iterations 5 and 6 and `decode` forwards
stalled copies of it, which claim nothing (`regs_valid[3]` is still 1 after
6 cycles); in iteration 7 the ADD is decoded and claims `R3`
(`regs_valid[3] = 0`).  After 7 cycles the BZ is in Memory-2, taken, and
Memory-1 holds a stalled copy of the ADD: `memory2` releases `R3` for it
(`regs_valid[3] = 1` after 8 cycles).  The ADD itself commits in iteration
12 and releases `R3` again: `regs_valid[3] = 2`, and it is 2 when the run
ends after 14 iterations. -/
theorem C23_scoreboard_exceeds_one :
    (cycles 6 (APEX_cpu_init prog_release no_code)).regs_valid 3 = 1
    ∧ (cycles 7 (APEX_cpu_init prog_release no_code)).regs_valid 3 = 0
    ∧ (cycles 7 (APEX_cpu_init prog_release no_code)).EX1.opcode = Opcode.ADD
    ∧ (cycles 7 (APEX_cpu_init prog_release no_code)).EX1.stalled = 0
    ∧ takes_branch (cycles 7 (APEX_cpu_init prog_release no_code))
    ∧ (cycles 7 (APEX_cpu_init prog_release no_code)).MEM2.opcode = Opcode.BZ
    ∧ (cycles 7 (APEX_cpu_init prog_release no_code)).MEM1.opcode = Opcode.ADD
    ∧ (cycles 7 (APEX_cpu_init prog_release no_code)).MEM1.rd = 3
    ∧ (cycles 7 (APEX_cpu_init prog_release no_code)).MEM1.stalled = 1
    ∧ (cycles 8 (APEX_cpu_init prog_release no_code)).regs_valid 3 = 1
    ∧ (cycles 11 (APEX_cpu_init prog_release no_code)).WB.opcode = Opcode.ADD
    ∧ wb_commits (cycles 11 (APEX_cpu_init prog_release no_code))
    ∧ (cycles 12 (APEX_cpu_init prog_release no_code)).regs_valid 3 = 2
    ∧ APEX_cpu_run 14 (APEX_cpu_init prog_release no_code)
        = some (cycles 14 (APEX_cpu_init prog_release no_code))
    ∧ APEX_cpu_run 13 (APEX_cpu_init prog_release no_code) = none
    ∧ (cycles 14 (APEX_cpu_init prog_release no_code)).regs_valid 3 = 2
    ∧ ¬ (cycles 14 (APEX_cpu_init prog_release no_code)).regs_valid 3 ≤ 1 :=
  ⟨rfl, rfl, rfl, rfl, by decide, rfl, rfl, rfl, rfl, rfl, rfl, by decide, rfl, rfl, rfl, rfl,
   by decide⟩

set_option maxRecDepth 100000 in
/-- The scenario of `prog_no_stall` at the point chosen against it, checked by
running the embedding. -/
theorem past_end_scenario_generic :
    past_end_scenario (Classical.epsilon (fun t => ¬ past_end_scenario t)) :=
  ⟨rfl, rfl, rfl, by decide, rfl, rfl, rfl, rfl, rfl, rfl⟩

/-- C25 (the code at the failing input). `[MOVC R1,#5; MOVC R2,#10; HALT]` has
3 instructions, the last one HALT, and no branch.  After 3 cycles the HALT is
in Decode and the program counter is 4012.  In the fourth iteration `decode`
stalls Fetch, and `fetch`, in the branch for a stalled stage, reads
`code_memory[get_code_index(4012)]`, the index 3, which is
`code_memory_size`: whatever lies past the end of code memory is copied into
the Fetch latch. -/
theorem C25_fetch_reads_past_end (beyond : Int → APEX_Instruction) :
    code_memory_size (before_fetch (cycles 3 (APEX_cpu_init prog_no_stall beyond))) = 3
    ∧ (cycles 3 (APEX_cpu_init prog_no_stall beyond)).DRF.opcode = Opcode.HALT
    ∧ (before_fetch (cycles 3 (APEX_cpu_init prog_no_stall beyond))).F.stalled = 1
    ∧ fetch_reads (before_fetch (cycles 3 (APEX_cpu_init prog_no_stall beyond)))
    ∧ (before_fetch (cycles 3 (APEX_cpu_init prog_no_stall beyond))).pc = 4012
    ∧ get_code_index (before_fetch (cycles 3 (APEX_cpu_init prog_no_stall beyond))).pc = 3
    ∧ ¬ get_code_index (before_fetch (cycles 3 (APEX_cpu_init prog_no_stall beyond))).pc
        < code_memory_size (before_fetch (cycles 3 (APEX_cpu_init prog_no_stall beyond)))
    ∧ (fetch (before_fetch (cycles 3 (APEX_cpu_init prog_no_stall beyond)))).F.opcode
        = (beyond 3).opcode
    ∧ (fetch (before_fetch (cycles 3 (APEX_cpu_init prog_no_stall beyond)))).F.rd = (beyond 3).rd
    ∧ (fetch (before_fetch (cycles 3 (APEX_cpu_init prog_no_stall beyond)))).F.imm
        = (beyond 3).imm
    ∧ (cycles 4 (APEX_cpu_init prog_no_stall beyond)).F.opcode = (beyond 3).opcode := by
  have h := forall_of_generic past_end_scenario past_end_scenario_generic beyond
  simp only [past_end_scenario] at h
  obtain ⟨h1, h2, h3, h4, h5, h6, h7, h8, h9, h10⟩ := h
  refine ⟨h1, h2, h3, h4, h5, h6, ?_, h7, h8, h9, h10⟩
  rw [h6, h1]
  decide

set_option maxRecDepth 100000 in
/-- Witness of C21: the BZ of
`[SUB R1,R0,R0; BZ #16; MOVC R2,#1; MOVC R3,#2; MOVC R4,#3; HALT]` is resolved
with the target 4020 while `MOVC R2,#1` is in Memory-1: the program counter
becomes 4020 and `regs_valid[2]` goes from 0 to 1.  The BZ of
`[MOVC R1,#0; BZ #8; MOVC R2,#99; HALT]` has the target 0 and leaves the
program counter alone. -/
theorem C21_memory2_branch_resolution_witness :
    (memory2 (writeback (cycles 6 (APEX_cpu_init prog_taken no_code)))).pc = 4020
    ∧ (writeback (cycles 6 (APEX_cpu_init prog_taken no_code))).regs_valid 2 = 0
    ∧ (memory2 (writeback (cycles 6 (APEX_cpu_init prog_taken no_code)))).regs_valid 2 = 1
    ∧ (memory2 (writeback (cycles 6 (APEX_cpu_init prog_bz no_code)))).pc
        = (writeback (cycles 6 (APEX_cpu_init prog_bz no_code))).pc :=
  ⟨((C21_memory2_branch_resolution (writeback (cycles 6 (APEX_cpu_init prog_taken no_code)))
      rfl rfl rfl (Or.inl rfl)).1 (by decide)).1,
   rfl,
   (((C21_memory2_branch_resolution (writeback (cycles 6 (APEX_cpu_init prog_taken no_code)))
      rfl rfl rfl (Or.inl rfl)).1 (by decide)).2.2.2.1 rfl).1,
   ((C21_memory2_branch_resolution (writeback (cycles 6 (APEX_cpu_init prog_bz no_code)))
      rfl rfl rfl (Or.inl rfl)).2 rfl).1⟩

set_option maxRecDepth 100000 in
/-- Witness of C22, amended: the forward BZ (immediate 16) of
`[SUB R1,R0,R0; BZ #16; MOVC R2,#1; MOVC R3,#2; MOVC R4,#3; HALT]` takes the
counter from 1 to `1 - 4 = -3`; the backward BNZ (immediate -8) of
`[MOVC R1,#1; MOVC R2,#2; BNZ #-8; HALT]` takes it from 2 to `2 - 2 - 1 = -1`. -/
theorem C22_branch_counter_adjustment_witness :
    (writeback (cycles 6 (APEX_cpu_init prog_taken no_code))).ins_completed = 1
    ∧ (memory2 (writeback (cycles 6 (APEX_cpu_init prog_taken no_code)))).ins_completed = -3
    ∧ (memory2 (writeback (cycles 7 (APEX_cpu_init prog_back no_code)))).ins_completed = -1 :=
  ⟨rfl,
   (C22_branch_counter_adjustment (writeback (cycles 6 (APEX_cpu_init prog_taken no_code)))
      (by decide)).1 (by decide),
   (C22_branch_counter_adjustment (writeback (cycles 7 (APEX_cpu_init prog_back no_code)))
      (by decide)).2 (by decide)⟩

set_option maxRecDepth 100000 in
/-- Witness of C24: after 4 cycles of `[MOVC R1,#5; MOVC R2,#10; ADD R3,R1,R2; HALT]`
Execute-1 holds a stalled copy of the ADD; `execute1` hands it on unchanged
and it is not committed four iterations later. -/
theorem C24_stalled_latch_has_no_effect_witness :
    (run_add 5 10 no_code 4).EX1.opcode = Opcode.ADD
    ∧ (run_add 5 10 no_code 4).EX1.stalled = 1
    ∧ (execute1 (run_add 5 10 no_code 4)).EX2 = (run_add 5 10 no_code 4).EX1
    ∧ ¬ wb_commits (cycles 4 (run_add 5 10 no_code 4)) :=
  ⟨rfl, rfl,
   ((C24_stalled_latch_has_no_effect (run_add 5 10 no_code 4)).1 (by decide)).1,
   (C24_stalled_latch_has_no_effect (run_add 5 10 no_code 4)).2.2.2.2.2.2.2.2.2.2 (by decide)⟩

/-- The state built by `APEX_cpu_init` satisfies `fetch_inv`. -/
theorem fetch_inv_init (code : List APEX_Instruction) (beyond : Int → APEX_Instruction) :
    fetch_inv (APEX_cpu_init code beyond) := by
  unfold fetch_inv APEX_cpu_init zero_stage
  simp

/-- Writeback keeps `fetch_inv`. -/
theorem fetch_inv_writeback (cpu : APEX_CPU) (h : fetch_inv cpu) : fetch_inv (writeback cpu) := by
  unfold fetch_inv at h ⊢
  unfold writeback
  split_ifs
  · unfold writeback_opcode
    split <;> simp <;> tauto
  · exact h

/-- Memory-2 keeps `fetch_inv`. -/
theorem fetch_inv_memory2 (cpu : APEX_CPU) (h : fetch_inv cpu) : fetch_inv (memory2 cpu) := by
  unfold fetch_inv at h ⊢
  unfold memory2
  split_ifs
  · unfold memory2_opcode
    split
    · simpa using h
    · simpa using h
    · simpa using h
    · simpa using h
    · split_ifs
      · unfold memory2_taken adjust_ins_completed
        simp only
        split_ifs <;> simp <;> tauto
      · simpa using h
    · split_ifs
      · unfold memory2_taken adjust_ins_completed
        simp only
        split_ifs <;> simp <;> tauto
      · simpa using h
    · simp; tauto
    · simpa using h
  · simpa using h

/-- Memory-1 keeps `fetch_inv`. -/
theorem fetch_inv_memory1 (cpu : APEX_CPU) (h : fetch_inv cpu) : fetch_inv (memory1 cpu) := by
  rw [memory1_eq]
  exact h

/-- Execute-2 keeps `fetch_inv`. -/
theorem fetch_inv_execute2 (cpu : APEX_CPU) (h : fetch_inv cpu) : fetch_inv (execute2 cpu) := by
  rw [execute2_eq]
  exact h

/-- Execute-1 takes a state with `fetch_inv` to a state with `execute1_inv`:
the blocks that set `insflush` in the Execute-1 latch (a branch that is not
taken, HALT) are not the MUL block, the only one that makes Decode busy. -/
theorem execute1_inv_execute1 (cpu : APEX_CPU) (h : fetch_inv cpu) :
    execute1_inv (execute1 cpu) := by
  unfold fetch_inv at h
  obtain ⟨h1, h2, h3, h4, h5, h6⟩ := h
  unfold execute1_inv execute1
  split_ifs with hc
  · have hd0 : cpu.DRF.busy ≠ 0 → cpu.EX1.opcode = Opcode.MUL :=
      fun hd => (h4 hd).resolve_left (by simp [hc.1])
    by_cases hm : cpu.EX1.opcode = Opcode.MUL
    · unfold execute1_opcode
      rw [hm]
      simp only
      unfold execute1_mul
      split_ifs <;> simp [h1, h2, h3, h5, h6, hm]
    · have hd : cpu.DRF.busy = 0 := by
        by_contra hx
        exact hm (hd0 hx)
      unfold execute1_opcode
      split <;> first
        | exact absurd (by assumption) hm
        | (simp [h1, h2, h5, h6, hd]; done)
        | (split_ifs <;> simp [h1, h2, h5, h6, hd])
  · simp [h1, h2, h3, h5, h6]
    exact h4

/-- Decode takes a state with `execute1_inv` to a state with `fetch_inv`:
when Decode is not busy the Execute-1 latch is overwritten with the Decode
latch, whose `insflush` is 0; when it is busy the Execute-1 latch is kept. -/
theorem fetch_inv_decode (cpu : APEX_CPU) (h : execute1_inv cpu) : fetch_inv (decode cpu) := by
  unfold execute1_inv at h
  obtain ⟨h1, h2, h3, h5, h6⟩ := h
  unfold fetch_inv decode
  rw [decode_unstall_eq]
  by_cases hb : cpu.DRF.busy = 0
  · rw [if_pos (by simp [hb])]
    unfold decode_opcode
    split <;> first
      | (simp [h1, h2, h5, h6, hb]; done)
      | (split_ifs <;> simp [h1, h2, h5, h6, hb])
  · rw [if_neg (by simp [hb])]
    obtain ⟨h3, h4⟩ := h3 hb
    rw [if_neg (by simp [h3])]
    simp [h1, h2, h3, h5, h6]
    exact fun _ => h4

/-- Fetch keeps `fetch_inv`. -/
theorem fetch_inv_fetch (cpu : APEX_CPU) (h : fetch_inv cpu) : fetch_inv (fetch cpu) := by
  unfold fetch_inv at h
  obtain ⟨h1, h2, h3, h4, h5, h6⟩ := h
  unfold fetch_inv fetch
  split_ifs with hc
  · simp [h1, h2, h3, h5, h6, hc.1]
  · simp [h1, h2, h3, h5, h6]
    exact h4
  · simp [h1, h2, h3, h5, h6]
    exact h4
  · simp [h1, h2, h3, h5, h6]
    exact h4
  · exact ⟨h1, h2, h3, h4, h5, h6⟩

/-- The state in which `fetch` is called satisfies `fetch_inv` if the state
at the start of the iteration does. -/
theorem fetch_inv_before_fetch (cpu : APEX_CPU) (h : fetch_inv cpu) :
    fetch_inv (before_fetch cpu) :=
  fetch_inv_decode _ (execute1_inv_execute1 _ (fetch_inv_execute2 _ (fetch_inv_memory1 _
    (fetch_inv_memory2 _ (fetch_inv_writeback _ h)))))

/-- One iteration of the driver keeps `fetch_inv`. -/
theorem fetch_inv_cycle (cpu : APEX_CPU) (h : fetch_inv cpu) : fetch_inv (cycle cpu) :=
  fetch_inv_fetch _ (fetch_inv_before_fetch cpu h)

/-- Every state of a run that starts with `fetch_inv` satisfies it. -/
theorem fetch_inv_cycles (k : Nat) : ∀ cpu : APEX_CPU, fetch_inv cpu → fetch_inv (cycles k cpu) := by
  induction k with
  | zero => intro cpu h; exact h
  | succ n ih => intro cpu h; exact ih _ (fetch_inv_cycle cpu h)

/-- What `fetch` does in a state in which the Fetch stage is busy or stalled
(one of the two flags is not 0): the program counter, the Decode latch and
every later latch, the registers, the scoreboard and data memory are
unchanged, and running `fetch` twice gives the state of running it once.  If
the Execute-1 latch has `insflush = 1`, only the opcode of the Fetch latch
is changed, to the empty opcode; otherwise, if one of the two flags is 1,
the Fetch latch holds the instruction at the unchanged program counter;
otherwise nothing changes. -/
theorem fetch_blocked_cases (cpu : APEX_CPU) (h : cpu.F.busy ≠ 0 ∨ cpu.F.stalled ≠ 0) :
    (fetch cpu).pc = cpu.pc
    ∧ (fetch cpu).DRF = cpu.DRF ∧ (fetch cpu).EX1 = cpu.EX1 ∧ (fetch cpu).EX2 = cpu.EX2
    ∧ (fetch cpu).MEM1 = cpu.MEM1 ∧ (fetch cpu).MEM2 = cpu.MEM2 ∧ (fetch cpu).WB = cpu.WB
    ∧ (fetch cpu).regs = cpu.regs ∧ (fetch cpu).regs_valid = cpu.regs_valid
    ∧ (fetch cpu).data_memory = cpu.data_memory
    ∧ fetch (fetch cpu) = fetch cpu
    ∧ (cpu.EX1.insflush = 1 → (fetch cpu).F = { cpu.F with opcode := Opcode.EMPTY })
    ∧ (cpu.EX1.insflush ≠ 1 → cpu.F.stalled = 1 ∨ cpu.F.busy = 1 →
        (fetch cpu).F = load_ins cpu.F cpu.pc (code_at cpu (get_code_index cpu.pc)))
    ∧ (cpu.EX1.insflush ≠ 1 → ¬ (cpu.F.stalled = 1 ∨ cpu.F.busy = 1) → fetch cpu = cpu) := by
  have hn : ¬ (cpu.F.busy = 0 ∧ cpu.F.stalled = 0) := by tauto
  by_cases hf : cpu.EX1.insflush = 1
  · have he : fetch cpu = clear_F_opcode cpu := by
      unfold fetch
      rw [if_neg hn, if_pos hf]
    have he2 : fetch (clear_F_opcode cpu) = clear_F_opcode (clear_F_opcode cpu) := by
      unfold fetch
      rw [if_neg (by simpa using hn), if_pos (by simpa using hf)]
    rw [he, he2, clear_F_opcode_idem]
    refine ⟨rfl, rfl, rfl, rfl, rfl, rfl, rfl, rfl, rfl, rfl, rfl, fun _ => rfl,
      fun hx => absurd hf hx, fun hx => absurd hf hx⟩
  · by_cases h1 : cpu.F.stalled = 1 ∨ cpu.F.busy = 1
    · have he : fetch cpu = fetch_load cpu := by
        unfold fetch
        rw [if_neg hn, if_neg hf, if_pos h1]
      have he2 : fetch (fetch_load cpu) = fetch_load (fetch_load cpu) := by
        unfold fetch
        rw [if_neg (by simpa using hn), if_neg (by simpa using hf), if_pos (by simpa using h1)]
      rw [he, he2, fetch_load_idem]
      refine ⟨rfl, rfl, rfl, rfl, rfl, rfl, rfl, rfl, rfl, rfl, rfl, fun hx => absurd hx hf,
        fun _ _ => rfl, fun _ hx => absurd h1 hx⟩
    · have he : fetch cpu = cpu := by
        unfold fetch
        rw [if_neg hn, if_neg hf, if_neg h1]
      rw [he, he]
      refine ⟨rfl, rfl, rfl, rfl, rfl, rfl, rfl, rfl, rfl, rfl, rfl, fun hx => absurd hx hf,
        fun _ hx => absurd hx h1, fun _ _ => rfl⟩

/-- C14. In every run from the initial state, for every program and whatever
lies past the end of code memory: whenever `fetch` is called with the Fetch
stage busy or stalled, it does not advance.  It leaves the program counter,
the Decode latch and every later latch, the registers, the scoreboard and
data memory unchanged; running `fetch` twice gives the state of running it
once; and the Fetch latch then holds the instruction at the unchanged
program counter. -/
theorem C14_fetch_blocked (code : List APEX_Instruction) (beyond : Int → APEX_Instruction)
    (k : Nat)
    (h : (before_fetch (cycles k (APEX_cpu_init code beyond))).F.busy ≠ 0
      ∨ (before_fetch (cycles k (APEX_cpu_init code beyond))).F.stalled ≠ 0) :
    (fetch (before_fetch (cycles k (APEX_cpu_init code beyond)))).pc
      = (before_fetch (cycles k (APEX_cpu_init code beyond))).pc
    ∧ (fetch (before_fetch (cycles k (APEX_cpu_init code beyond)))).DRF
      = (before_fetch (cycles k (APEX_cpu_init code beyond))).DRF
    ∧ (fetch (before_fetch (cycles k (APEX_cpu_init code beyond)))).EX1
      = (before_fetch (cycles k (APEX_cpu_init code beyond))).EX1
    ∧ (fetch (before_fetch (cycles k (APEX_cpu_init code beyond)))).EX2
      = (before_fetch (cycles k (APEX_cpu_init code beyond))).EX2
    ∧ (fetch (before_fetch (cycles k (APEX_cpu_init code beyond)))).MEM1
      = (before_fetch (cycles k (APEX_cpu_init code beyond))).MEM1
    ∧ (fetch (before_fetch (cycles k (APEX_cpu_init code beyond)))).MEM2
      = (before_fetch (cycles k (APEX_cpu_init code beyond))).MEM2
    ∧ (fetch (before_fetch (cycles k (APEX_cpu_init code beyond)))).WB
      = (before_fetch (cycles k (APEX_cpu_init code beyond))).WB
    ∧ (fetch (before_fetch (cycles k (APEX_cpu_init code beyond)))).regs
      = (before_fetch (cycles k (APEX_cpu_init code beyond))).regs
    ∧ (fetch (before_fetch (cycles k (APEX_cpu_init code beyond)))).regs_valid
      = (before_fetch (cycles k (APEX_cpu_init code beyond))).regs_valid
    ∧ (fetch (before_fetch (cycles k (APEX_cpu_init code beyond)))).data_memory
      = (before_fetch (cycles k (APEX_cpu_init code beyond))).data_memory
    ∧ fetch (fetch (before_fetch (cycles k (APEX_cpu_init code beyond))))
      = fetch (before_fetch (cycles k (APEX_cpu_init code beyond)))
    ∧ (fetch (before_fetch (cycles k (APEX_cpu_init code beyond)))).F
      = load_ins (before_fetch (cycles k (APEX_cpu_init code beyond))).F
          (before_fetch (cycles k (APEX_cpu_init code beyond))).pc
          (code_at (before_fetch (cycles k (APEX_cpu_init code beyond)))
            (get_code_index (before_fetch (cycles k (APEX_cpu_init code beyond))).pc)) := by
  have hi := fetch_inv_before_fetch _ (fetch_inv_cycles k _ (fetch_inv_init code beyond))
  generalize before_fetch (cycles k (APEX_cpu_init code beyond)) = b at h hi ⊢
  unfold fetch_inv at hi
  obtain ⟨-, -, h3, -, h5, h6⟩ := hi
  have hf : b.EX1.insflush ≠ 1 := by rw [h3]; decide
  have h1 : b.F.stalled = 1 ∨ b.F.busy = 1 := by
    rcases h with h | h
    · exact Or.inr (h5.resolve_left h)
    · exact Or.inl (h6.resolve_left h)
  obtain ⟨c1, c2, c3, c4, c5, c6, c7, c8, c9, c10, c11, -, c13, -⟩ := fetch_blocked_cases b h
  exact ⟨c1, c2, c3, c4, c5, c6, c7, c8, c9, c10, c11, c13 hf h1⟩

set_option maxRecDepth 100000 in
/-- Witness of C14: in the first iteration of the MUL of
`[MOVC R1,#3; MOVC R2,#4; MUL R3,R1,R2; HALT]` Fetch is busy when `fetch` is
called; `fetch` keeps the program counter, is idempotent there, and the
Fetch latch gets the program counter 4016. -/
theorem C14_fetch_blocked_witness :
    (before_fetch (cycles 8 (APEX_cpu_init (prog_mul 3 4) no_code))).F.busy = 1
    ∧ (fetch (before_fetch (cycles 8 (APEX_cpu_init (prog_mul 3 4) no_code)))).pc
        = (before_fetch (cycles 8 (APEX_cpu_init (prog_mul 3 4) no_code))).pc
    ∧ fetch (fetch (before_fetch (cycles 8 (APEX_cpu_init (prog_mul 3 4) no_code))))
        = fetch (before_fetch (cycles 8 (APEX_cpu_init (prog_mul 3 4) no_code)))
    ∧ (fetch (before_fetch (cycles 8 (APEX_cpu_init (prog_mul 3 4) no_code)))).F.pc = 4016 :=
  ⟨rfl,
   (C14_fetch_blocked (prog_mul 3 4) no_code 8 (Or.inl (by decide))).1,
   (C14_fetch_blocked (prog_mul 3 4) no_code 8 (Or.inl (by decide))).2.2.2.2.2.2.2.2.2.2.1,
   (congrArg CPU_Stage.pc
     (C14_fetch_blocked (prog_mul 3 4) no_code 8 (Or.inl (by decide))).2.2.2.2.2.2.2.2.2.2.2).trans
     rfl⟩

end APEX
